import Mathlib

/-!
# DoorGuard: access-control engine

A shallow embedding of `src/UserManager.h` and `src/door_opener.h`.

* Machine integers are `Nat`; where the C++ code can wrap, the width is written
  explicitly with `% 2 ^ w`.
* Byte buffers are `List Nat` (every element a byte).
* The member functions of `DoorOpener` become functions that take the object
  state and return the new state; everything the device does to the outside
  (pin writes, delays, terminal output, reader commands) is appended to a trace.
* Classes whose source is not part of `src/` (the reader driver `Desfire`, the
  cipher class `DES`, the record table `EDB`, the constants of `Secrets.h` and
  of the board) are parameters of the functions that use them.
-/

namespace DoorGuard

set_option autoImplicit false

/-! ## UserManager.h : the user record -/

/-- Size of the name buffer of a user record, `#define NAME_BUF_SIZE 64`. -/
def NAME_BUF_SIZE : Nat := 64

/-- Door flag `NO_DOOR` of `enum eUserFlags`. -/
def NO_DOOR : Nat := 0
/-- Door flag `DOOR_ONE` of `enum eUserFlags`. -/
def DOOR_ONE : Nat := 1
/-- Door flag `DOOR_TWO` of `enum eUserFlags`. -/
def DOOR_TWO : Nat := 2
/-- Door flag `DOOR_BOTH = DOOR_ONE | DOOR_TWO`. -/
def DOOR_BOTH : Nat := DOOR_ONE ||| DOOR_TWO

/-- The record `struct kUser`: `ID` is the 64 bit view `ID.u64` of the card id,
`s8_Name` the name buffer of `NAME_BUF_SIZE` bytes, `u8_Flags` the door flags. -/
structure kUser where
  ID : Nat
  s8_Name : List Nat
  u8_Flags : Nat
  deriving DecidableEq, Repr

/-- The constructor `kUser()`: `memset(this, 0, sizeof(kUser))`. -/
def kUser.zero : kUser :=
  { ID := 0, s8_Name := List.replicate NAME_BUF_SIZE 0, u8_Flags := 0 }

/-- Byte `j` of the view `ID.u8[8]` of the union `ID` (the target is little endian). -/
def ID_u8 (u64 : Nat) (j : Nat) : Nat := u64 / 256 ^ j % 256

/-- The view `ID.u64` of the eight bytes `ID.u8[0..8)`; a byte that is missing
from the list reads as zero. -/
def ID_u64 : List Nat → Nat
  | [] => 0
  | b :: bs => b % 256 + 256 * ID_u64 bs

/-- The C library function `strcmp` on NUL-terminated strings. The end of a
list reads as the terminating NUL. The result is the difference of the first
pair of characters that differ, and `0` when the strings are equal. -/
def strcmp : List Nat → List Nat → Int
  | [], [] => 0
  | [], b :: _ => 0 - (b : Int)
  | a :: _, [] => (a : Int)
  | a :: as, b :: bs =>
    if a ≠ b then (a : Int) - (b : Int)
    else if a = 0 then 0
    else strcmp as bs

/-- The characters of a NUL-terminated string stored in a buffer: everything
before the first NUL. -/
def cstr (buf : List Nat) : List Nat := buf.takeWhile (fun c => c != 0)

/-! ## The record table behind `db` (library `EDB`, not part of `src/`) -/

/-- Status codes of the record table. -/
inductive EDB_Status where
  | EDB_OK
  | EDB_OUT_OF_RANGE
  | EDB_TABLE_FULL
  deriving DecidableEq, Repr

/-- Modelled from the spec: the registry storage `db` (class `EDB`, whose source
is not under `src/`) is "an ordered sequence of UserRecord slots, 1-indexed,
contiguous 1..count, bounded capacity". `recs` holds slot `1` first; `capacity`
is the number of records the table can hold. -/
structure EDB where
  recs : List kUser
  capacity : Nat
  deriving DecidableEq, Repr

/-- The call `db.count()`. -/
def EDB.count (db : EDB) : Nat := db.recs.length

/-- The call `db.readRec(recno, EDB_REC rec)`: slot `recno` is copied into `rec`
when `1 <= recno <= count`; otherwise `rec` is left as it was. -/
def EDB.readRec (db : EDB) (recno : Nat) (rec : kUser) : EDB_Status × kUser :=
  if recno = 0 then (EDB_Status.EDB_OUT_OF_RANGE, rec)
  else match db.recs.get? (recno - 1) with
    | some r => (EDB_Status.EDB_OK, r)
    | none => (EDB_Status.EDB_OUT_OF_RANGE, rec)

/-! ## UserManager.h : lookups -/

/-- The `for` loop of `FindUser(uint64_t, kUser*, unsigned long*)`. The first
argument is the number of iterations that are left, `db.count() + 1 - recno`;
the loop ends when it is zero, that is when `recno > db.count()`. The result is
the return value, the content of `*pk_User` and the value of `*recno`. -/
def FindUser_id_loop (db : EDB) (u64_ID : Nat) : Nat → Nat → kUser → Bool × kUser × Nat
  | 0, recno, pk_User => (false, pk_User, recno)
  | k + 1, recno, pk_User =>
    let (result, pk_User) := db.readRec recno pk_User
    if result = EDB_Status.EDB_OK then
      if pk_User.ID = u64_ID then (true, pk_User, recno)
      else FindUser_id_loop db u64_ID k (recno + 1) pk_User
    else FindUser_id_loop db u64_ID k (recno + 1) pk_User

/-- `UserManager::FindUser(uint64_t u64_ID, kUser *pk_User, unsigned long *recno)`.
The result is the return value, the content of `*pk_User` and the value of `*recno`
(which the source leaves unset when `u64_ID == 0`; it is given as `0` here). -/
def FindUser_id (db : EDB) (u64_ID : Nat) (pk_User : kUser) : Bool × kUser × Nat :=
  if u64_ID = 0 then (false, pk_User, 0)
  else FindUser_id_loop db u64_ID db.count 1 pk_User

/-- The `for` loop of `FindUser(const char*, kUser*, unsigned long*)`; the first
argument is the number of iterations that are left. -/
def FindUser_name_loop (db : EDB) (name : List Nat) : Nat → Nat → kUser → Bool × kUser × Nat
  | 0, recno, pk_User => (false, pk_User, recno)
  | k + 1, recno, pk_User =>
    let (result, pk_User) := db.readRec recno pk_User
    if result = EDB_Status.EDB_OK then
      if strcmp pk_User.s8_Name name ≠ 0 then (true, pk_User, recno)
      else FindUser_name_loop db name k (recno + 1) pk_User
    else FindUser_name_loop db name k (recno + 1) pk_User

/-- `UserManager::FindUser(const char *name, kUser *pk_User, unsigned long *recno)`.
The condition of the source is `if (strcmp(pk_User->s8_Name, name))`, which is
true when the two strings differ. -/
def FindUser_name (db : EDB) (name : List Nat) (pk_User : kUser) : Bool × kUser × Nat :=
  FindUser_name_loop db name db.count 1 pk_User

/-! ## The record table: changes -/

/-- Modelled from the spec: `db.appendRec(rec)` of the class `EDB` (not under
`src/`): "appends at slot `count+1`; fails with `CapacityExceeded` if
`count == capacity`". -/
def EDB.appendRec (db : EDB) (rec : kUser) : EDB_Status × EDB :=
  if db.count ≥ db.capacity then (EDB_Status.EDB_TABLE_FULL, db)
  else (EDB_Status.EDB_OK, { db with recs := db.recs ++ [rec] })

/-- Modelled from the spec: `db.deleteRec(recno)` of the class `EDB` (not under
`src/`): "remove it, and compact every following slot down by one position so slot
numbers remain contiguous 1..count−1; `count` decreases by one". -/
def EDB.deleteRec (db : EDB) (recno : Nat) : EDB_Status × EDB :=
  if recno = 0 ∨ recno > db.count then (EDB_Status.EDB_OUT_OF_RANGE, db)
  else (EDB_Status.EDB_OK, { db with recs := db.recs.eraseIdx (recno - 1) })

/-- Modelled from the spec: `db.updateRec(recno, rec)` of the class `EDB` (not under
`src/`): the record in slot `recno` is overwritten. -/
def EDB.updateRec (db : EDB) (recno : Nat) (rec : kUser) : EDB_Status × EDB :=
  if recno = 0 ∨ recno > db.count then (EDB_Status.EDB_OUT_OF_RANGE, db)
  else (EDB_Status.EDB_OK, { db with recs := db.recs.set (recno - 1) rec })

/-- Modelled from the spec: `db.clear()` of the class `EDB` (not under `src/`):
"resets `count` to 0, discarding all records". -/
def EDB.clear (db : EDB) : EDB := { db with recs := [] }

/-! ## UserManager.h : changes of the table

The functions of `UserManager` work on the global table `db`; here the table is an
argument and the new table is part of the result. What the functions print is
given by the functions of the terminal further down. -/

/-- `UserManager::DeleteAllUsers`. -/
def DeleteAllUsers (db : EDB) : EDB := db.clear

/-- `UserManager::StoreNewUser`: the return value and the table after the call. -/
def StoreNewUser (db : EDB) (pk_NewUser : kUser) : Bool × EDB :=
  let r := db.appendRec pk_NewUser
  if r.1 ≠ EDB_Status.EDB_OK then (false, r.2) else (true, r.2)

/-- `UserManager::DeleteUser(uint64_t u64_ID)`: the return value and the table after
the call. -/
def DeleteUser_id (db : EDB) (u64_ID : Nat) : Bool × EDB :=
  let f := FindUser_id db u64_ID kUser.zero
  if f.1 then (true, (db.deleteRec f.2.2).2) else (false, db)

/-- `UserManager::DeleteUser(const char *name)`: the return value and the table after
the call. -/
def DeleteUser_name (db : EDB) (name : List Nat) : Bool × EDB :=
  let f := FindUser_name db name kUser.zero
  if f.1 then (true, (db.deleteRec f.2.2).2) else (false, db)

/-- `UserManager::SetUserFlags`: the return value and the table after the call. -/
def SetUserFlags (db : EDB) (s8_Name : List Nat) (u8_NewFlags : Nat) : Bool × EDB :=
  let f := FindUser_name db s8_Name kUser.zero
  if f.1 then
    let k_User := { f.2.1 with u8_Flags := u8_NewFlags }
    (true, (db.updateRec f.2.2 k_User).2)
  else (false, db)

/-- The content of the table as `ListAllUsers` walks through it: the records of the
slots `1..count` in this order. -/
def ListAll (db : EDB) : List kUser := db.recs

/-! ## Collaborators whose source is not under `src/` -/

/-- Card kinds, `enum eCardType` of the reader library. `CARD_Unknown` is what
the source treats as a Classic card. -/
inductive eCardType where
  | CARD_Unknown
  | CARD_Desfire
  | CARD_DesRandom
  deriving DecidableEq, Repr

/-- Numeric value of a card kind: `CARD_Desfire` is bit 0, `CARD_DesRandom` is
bit 0 + bit 1, so that `(e_CardType & CARD_Desfire) == 0` holds for a Classic
card only. -/
def eCardType.val : eCardType → Nat
  | eCardType.CARD_Unknown => 0
  | eCardType.CARD_Desfire => 1
  | eCardType.CARD_DesRandom => 3

/-- Key settings passed to the reader, `enum DESFireKeySettings`. -/
inductive DESFireKeySettings where
  | KS_FACTORY_DEFAULT
  | KS_CHANGE_KEY_FROZEN
  deriving DecidableEq, Repr

/-- The cipher class `DES` (a `DESFireKey`), taken as a parameter: `κ` is the
type of a key object, `new` the default constructed object, `SetKeyData data
version` the call `SetKeyData(data, sizeof(data), version)` and `CryptDataCBC
data` the call `CryptDataCBC(CBC_SEND, KEY_ENCIPHER, out, data, sizeof(data))`,
which yields `out` when it returns true. Both calls may change the object.
`GetKeyType` and `GetKeyVersion` read the type and the version of a key. -/
structure DES (κ : Type) where
  new : κ
  SetKeyData : List Nat → Nat → κ → Bool × κ
  CryptDataCBC : List Nat → κ → Option (List Nat) × κ
  GetKeyType : κ → Nat
  GetKeyVersion : κ → Nat

/-- The calls that `door_opener.h` makes on the reader object `gi_PN532`
(class `Desfire`). Out-parameters are part of the reply. -/
inductive DesfireCmd (κ : Type) where
  | begin
  | GetFirmwareVersion
  | SetPassiveActivationRetries
  | SamConfig
  | ReadPassiveTargetID
  | GetRealCardID
  | SwitchOffRfField
  | GetLastPN532Error
  | SelectApplication (u32_AppID : Nat)
  | GetKeyVersion (u8_KeyNo : Nat)
  | Authenticate (u8_KeyNo : Nat) (pi_Key : κ)
  | ChangeKey (u8_KeyNo : Nat) (pi_NewKey : κ)
  | DeleteApplicationIfExists (u32_AppID : Nat)
  | CreateApplication (u32_AppID : Nat) (e_Settg : DESFireKeySettings) (u8_KeyCount : Nat)
      (e_KeyType : Nat)
  | ChangeKeySettings (e_NewSettg : DESFireKeySettings)
  | CreateStdDataFile (u8_FileID : Nat) (s32_FileSize : Nat)
  | WriteFileData (u8_FileID : Nat) (s32_Offset : Nat) (s32_Length : Nat) (u8_DataBuffer : List Nat)
  | ReadFileData (u8_FileID : Nat) (s32_Offset : Nat) (s32_Length : Nat)
  | EnableRandomIDForever
  | SetDebugLevel (u8_Level : Nat)
  deriving DecidableEq, Repr

/-- What a reader call gives back: the return value `ok`, a byte out-parameter
`u8` (key version, UID length, error code), a buffer out-parameter `data` and
the card kind. A call fills in the parts that it has. -/
structure DesfireReply where
  ok : Bool
  u8 : Nat
  data : List Nat
  cardType : eCardType
  deriving DecidableEq, Repr

/-- The reader object `gi_PN532` with the card in its field, taken as a
parameter: `σ` is the state of reader and card, `exec` runs one call. The two
default keys are members of the class. -/
structure Desfire (κ σ : Type) where
  exec : DesfireCmd κ → σ → DesfireReply × σ
  DES2_DEFAULT_KEY : κ
  DES3_DEFAULT_KEY : κ

/-- Level of a digital pin. -/
inductive PinLevel where
  | LOW
  | HIGH
  deriving DecidableEq, Repr

/-- The constants that come from outside `src/`: the pin numbers of the board
(`D1`, `D2`, `LED_BUILTIN`), the constants of `Secrets.h`, the cipher class and
the reader. -/
structure Env (κ σ : Type) where
  D1 : Nat
  D2 : Nat
  LED_BUILTIN : Nat
  SECRET_PICC_MASTER_KEY : List Nat
  SECRET_APPLICATION_KEY : List Nat
  SECRET_STORE_VALUE_KEY : List Nat
  CARD_APPLICATION_ID : Nat
  CARD_FILE_ID : Nat
  CARD_KEY_VERSION : Nat
  des : DES κ
  PN532 : Desfire κ σ

/-! ## door_opener.h : configuration -/

/-- The switch `#define ALLOW_ALSO_CLASSIC true`. -/
def ALLOW_ALSO_CLASSIC : Bool := true
/-- The interval `#define OPEN_INTERVAL 3000`. -/
def OPEN_INTERVAL : Nat := 3000
/-- The switch `#define OPEN_INVERT true`. -/
def OPEN_INVERT : Bool := true
/-- The interval `#define RF_OFF_INTERVAL 200`. -/
def RF_OFF_INTERVAL : Nat := 200

/-- The pin `#define DOOR_1_PIN D1`. -/
def DOOR_1_PIN {κ σ : Type} (E : Env κ σ) : Nat := E.D1
/-- The pin `#define DOOR_2_PIN D2`. -/
def DOOR_2_PIN {κ σ : Type} (E : Env κ σ) : Nat := E.D2

/-- The level that switches a relay on, `OPEN_INVERT ? LOW : HIGH`. -/
def RELAIS_ON : PinLevel := if OPEN_INVERT then PinLevel.LOW else PinLevel.HIGH
/-- The level that switches a relay off, `OPEN_INVERT ? HIGH : LOW`. -/
def RELAIS_OFF : PinLevel := if OPEN_INVERT then PinLevel.HIGH else PinLevel.LOW

/-- The colours of `enum eLED`. -/
inductive eLED where
  | LED_OFF
  | LED_RED
  | LED_GREEN
  deriving DecidableEq, Repr

/-- The record `struct kCard`. -/
structure kCard where
  u8_UidLength : Nat
  u8_KeyVersion : Nat
  b_PN532_Error : Bool
  e_CardType : eCardType
  deriving DecidableEq, Repr

/-- The effect of `memset(pk_Card, 0, sizeof(kCard))`. -/
def kCard.zero : kCard :=
  { u8_UidLength := 0, u8_KeyVersion := 0, b_PN532_Error := false,
    e_CardType := eCardType.CARD_Unknown }

/-- What the device does to the outside, in the order in which it happens. -/
inductive Event (κ : Type) where
  | WritePin (pin : Nat) (level : PinLevel)
  | DelayMilli (ms : Nat)
  | Print (text : String)
  | Printf (format : String) (args : List Nat)
  | PrintBuf (chars : List Nat)
  | PrintHexBuf (bytes : List Nat)
  | Reader (cmd : DesfireCmd κ)
  deriving DecidableEq, Repr

/-- The member variables of `class DoorOpener`, the table `db` behind
`userManager`, the static local `u64_LastRead` of `loop()`, and the trace.
The last three fields are what the outside holds for the device: `serial` are the
bytes that wait in the serial port (`SerialClass`), `millis` is the tick counter in
milliseconds since the reset of the CPU (`Utils::GetMillis64`), `random` are the
bytes that `Utils::GenerateRandom` delivers next. -/
structure DoorOpener (κ σ : Type) where
  gs8_CommandBuffer : List Nat
  gu32_CommandPos : Nat
  gu64_LastPasswd : Nat
  gu64_LastID : Nat
  gb_InitSuccess : Bool
  gi_PN532 : σ
  gi_PiccMasterKey : κ
  db : EDB
  u64_LastRead : Nat
  trace : List (Event κ)
  serial : List Nat := []
  millis : Nat := 0
  random : List Nat := []

section Device

variable {κ σ : Type}

/-- Append one event to the trace. -/
def emit (e : Event κ) (s : DoorOpener κ σ) : DoorOpener κ σ :=
  { s with trace := s.trace ++ [e] }

/-- One call on `gi_PN532`: the call is written to the trace and the reader
moves to its next state. A call takes time (the bus to the reader runs at 10 kHz);
the tick counter advances by one millisecond. -/
def pn532 (E : Env κ σ) (cmd : DesfireCmd κ) (s : DoorOpener κ σ) :
    DesfireReply × DoorOpener κ σ :=
  let r := E.PN532.exec cmd s.gi_PN532
  (r.1, { s with gi_PN532 := r.2, trace := s.trace ++ [Event.Reader cmd],
                 millis := s.millis + 1 })

/-- `Utils::WritePin`. -/
def WritePin (pin : Nat) (level : PinLevel) (s : DoorOpener κ σ) : DoorOpener κ σ :=
  emit (Event.WritePin pin level) s

/-- `Utils::DelayMilli`: the tick counter advances by `ms`. -/
def DelayMilli (ms : Nat) (s : DoorOpener κ σ) : DoorOpener κ σ :=
  { emit (Event.DelayMilli ms) s with millis := s.millis + ms }

/-- `Utils::Print` of a string constant. -/
def Print (text : String) (s : DoorOpener κ σ) : DoorOpener κ σ :=
  emit (Event.Print text) s

/-- `DoorOpener::SetLED`. -/
def SetLED (E : Env κ σ) (e_LED : eLED) (s : DoorOpener κ σ) : DoorOpener κ σ :=
  let s := WritePin E.LED_BUILTIN PinLevel.LOW s
  match e_LED with
  | eLED.LED_RED => WritePin E.LED_BUILTIN PinLevel.HIGH s
  | eLED.LED_GREEN => WritePin E.LED_BUILTIN PinLevel.HIGH s
  | eLED.LED_OFF => s

/-- `DoorOpener::FlashLED`. -/
def FlashLED (E : Env κ σ) (e_LED : eLED) (s32_Interval : Nat) (s : DoorOpener κ σ) :
    DoorOpener κ σ :=
  let s := SetLED E e_LED s
  let s := DelayMilli s32_Interval s
  SetLED E eLED.LED_OFF s

/-- Writing `data` to the start of the buffer `buf` (the buffer keeps its size). -/
def overwrite (buf data : List Nat) : List Nat :=
  data.take buf.length ++ buf.drop data.length

/-- A buffer of exactly `n` bytes that holds the first `n` bytes of `data`. -/
def fit (n : Nat) (data : List Nat) : List Nat :=
  (data ++ List.replicate n 0).take n

/-- The C library function `memcmp(a, b, n)`: `0` when the first `n` bytes are
equal, else the difference of the first pair of bytes that differ. -/
def memcmp : List Nat → List Nat → Nat → Int
  | _, _, 0 => 0
  | a, b, n + 1 =>
    if a.headD 0 ≠ b.headD 0 then (a.headD 0 : Int) - (b.headD 0 : Int)
    else memcmp a.tail b.tail n

/-- `DoorOpener::InitReader`. -/
def InitReader (E : Env κ σ) (b_ShowError : Bool) (s : DoorOpener κ σ) : DoorOpener κ σ :=
  let s := if b_ShowError then
      Print "Communication Error -> Reset PN532\r\n" (SetLED E eLED.LED_RED s)
    else s
  let s := { s with gb_InitSuccess := false }
  let s := (pn532 E DesfireCmd.begin s).2
  let r := pn532 E DesfireCmd.GetFirmwareVersion s
  let s :=
    if !r.1.ok then r.2
    else
      let IC := r.1.data.getD 0 0
      let VersionHi := r.1.data.getD 1 0
      let VersionLo := r.1.data.getD 2 0
      let Flags := r.1.data.getD 3 0
      let s := emit (Event.Printf "Chip: PN5%02X, Firmware version: %d.%d\r\n"
        [IC, VersionHi, VersionLo]) r.2
      let s := emit (Event.Printf "Supports ISO 14443A:%s, ISO 14443B:%s, ISO 18092:%s\r\n"
        [Flags &&& 1, Flags &&& 2, Flags &&& 4]) s
      let r := pn532 E DesfireCmd.SetPassiveActivationRetries s
      if !r.1.ok then r.2
      else
        let r := pn532 E DesfireCmd.SamConfig r.2
        if !r.1.ok then r.2
        else { r.2 with gb_InitSuccess := true }
  if b_ShowError then
    DelayMilli 100 (SetLED E eLED.LED_OFF (DelayMilli 2000 s))
  else s

/-- `DoorOpener::AuthenticatePICC`. The argument `u8_KeyVersion` is the content of
`*pu8_KeyVersion` before the call; the result is the return value, the content of
`*pu8_KeyVersion` after the call and the new state. -/
def AuthenticatePICC (E : Env κ σ) (u8_KeyVersion : Nat) (s : DoorOpener κ σ) :
    Bool × Nat × DoorOpener κ σ :=
  let r := pn532 E (DesfireCmd.SelectApplication 0) s
  if !r.1.ok then (false, u8_KeyVersion, r.2)
  else
    let r := pn532 E (DesfireCmd.GetKeyVersion 0) r.2
    let u8_KeyVersion := r.1.u8 % 256
    if !r.1.ok then (false, u8_KeyVersion, r.2)
    else if u8_KeyVersion = E.CARD_KEY_VERSION then
      let r := pn532 E (DesfireCmd.Authenticate 0 r.2.gi_PiccMasterKey) r.2
      if !r.1.ok then (false, u8_KeyVersion, r.2) else (true, u8_KeyVersion, r.2)
    else
      let r := pn532 E (DesfireCmd.Authenticate 0 E.PN532.DES2_DEFAULT_KEY) r.2
      if !r.1.ok then (false, u8_KeyVersion, r.2) else (true, u8_KeyVersion, r.2)

/-- `DoorOpener::ReadCard`. The argument `u8_UID` is the content of the buffer
`u8_UID[8]` before the call; the result is the return value, the buffer, the
content of `*pk_Card` and the new state. -/
def ReadCard (E : Env κ σ) (u8_UID : List Nat) (s : DoorOpener κ σ) :
    Bool × List Nat × kCard × DoorOpener κ σ :=
  let pk_Card := kCard.zero
  let r := pn532 E DesfireCmd.ReadPassiveTargetID s
  let u8_UID := overwrite u8_UID r.1.data
  let pk_Card := { pk_Card with u8_UidLength := r.1.u8 % 256, e_CardType := r.1.cardType }
  if !r.1.ok then (false, u8_UID, { pk_Card with b_PN532_Error := true }, r.2)
  else if pk_Card.e_CardType = eCardType.CARD_DesRandom then
    let a := AuthenticatePICC E pk_Card.u8_KeyVersion r.2
    let pk_Card := { pk_Card with u8_KeyVersion := a.2.1 }
    if !a.1 then (false, u8_UID, pk_Card, a.2.2)
    else
      let r := pn532 E DesfireCmd.GetRealCardID a.2.2
      let u8_UID := overwrite u8_UID r.1.data
      if !r.1.ok then (false, u8_UID, pk_Card, r.2)
      else (true, u8_UID, { pk_Card with u8_UidLength := 7 }, r.2)
  else (true, u8_UID, pk_Card, r.2)

/-- `DoorOpener::IsDesfireTimeout`. -/
def IsDesfireTimeout (E : Env κ σ) (s : DoorOpener κ σ) : Bool × DoorOpener κ σ :=
  let r := pn532 E DesfireCmd.GetLastPN532Error s
  if r.1.u8 % 256 = 1 then
    let s := Print "A Timeout mostly means that the card is too far away from the reader.\r\n" r.2
    (true, FlashLED E eLED.LED_RED 200 s)
  else (false, r.2)

/-- One pass of the `for` loop of `GenerateDesfireSecrets`:
`u8_Data[B++] ^= pk_User->s8_Name[N]; if (B > 15) B = 0;`. The state of the loop
is the buffer `u8_Data` and the index `B`. -/
def xorStep (s8_Name : List Nat) (st : List Nat × Nat) (N : Nat) : List Nat × Nat :=
  let u8_Data := st.1.set st.2 (st.1.getD st.2 0 ^^^ s8_Name.getD N 0)
  let B := st.2 + 1
  (u8_Data, if B > 15 then 0 else B)

/-- The buffer `u8_Data[24]` of `GenerateDesfireSecrets` at the point where it is
encrypted: zero filled, then the 7 bytes `ID.u8[0..7)`, then the name buffer
XORed over it by the `for` loop. -/
def u8_Data (pk_User : kUser) : List Nat :=
  let zero := List.replicate 24 0
  let data := overwrite zero ((List.range 7).map (ID_u8 pk_User.ID))
  ((List.range NAME_BUF_SIZE).foldl (xorStep pk_User.s8_Name) (data, 0)).1

/-- `DoorOpener::GenerateDesfireSecrets`. The argument `pi_AppMasterKey` is the key
object that the caller passes in. The result is `none` when the function returns
false, else the key object `*pi_AppMasterKey` and the buffer `u8_StoreValue[16]`. -/
def GenerateDesfireSecrets (E : Env κ σ) (pk_User : kUser) (pi_AppMasterKey : κ) :
    Option (κ × List Nat) :=
  let i_3KDes := E.des.new
  let k1 := E.des.SetKeyData E.SECRET_APPLICATION_KEY 0 i_3KDes
  if !k1.1 then none
  else
    let c1 := E.des.CryptDataCBC (u8_Data pk_User) k1.2
    match c1.1 with
    | none => none
    | some out1 =>
      let u8_AppMasterKey := fit 24 out1
      let k2 := E.des.SetKeyData E.SECRET_STORE_VALUE_KEY 0 c1.2
      if !k2.1 then none
      else
        let c2 := E.des.CryptDataCBC ((u8_Data pk_User).take 16) k2.2
        match c2.1 with
        | none => none
        | some out2 =>
          let u8_StoreValue := fit 16 out2
          let k3 := E.des.SetKeyData u8_AppMasterKey E.CARD_KEY_VERSION pi_AppMasterKey
          if !k3.1 then none
          else some (k3.2, u8_StoreValue)

/-- `DoorOpener::CheckDesfireSecret`. -/
def CheckDesfireSecret (E : Env κ σ) (pk_User : kUser) (s : DoorOpener κ σ) :
    Bool × DoorOpener κ σ :=
  match GenerateDesfireSecrets E pk_User E.des.new with
  | none => (false, s)
  | some (i_AppMasterKey, u8_StoreValue) =>
    let r := pn532 E (DesfireCmd.SelectApplication 0) s
    if !r.1.ok then (false, r.2)
    else
      let r := pn532 E (DesfireCmd.GetKeyVersion 0) r.2
      if !r.1.ok then (false, r.2)
      else if r.1.u8 % 256 ≠ E.CARD_KEY_VERSION then (false, r.2)
      else
        let r := pn532 E (DesfireCmd.SelectApplication E.CARD_APPLICATION_ID) r.2
        if !r.1.ok then (false, r.2)
        else
          let r := pn532 E (DesfireCmd.Authenticate 0 i_AppMasterKey) r.2
          if !r.1.ok then (false, r.2)
          else
            let r := pn532 E (DesfireCmd.ReadFileData E.CARD_FILE_ID 0 16) r.2
            if !r.1.ok then (false, r.2)
            else if memcmp (fit 16 r.1.data) u8_StoreValue 16 ≠ 0 then (false, r.2)
            else (true, r.2)

/-- `DoorOpener::ChangePiccMasterKey`. -/
def ChangePiccMasterKey (E : Env κ σ) (s : DoorOpener κ σ) : Bool × DoorOpener κ σ :=
  let a := AuthenticatePICC E 0 s
  if !a.1 then (false, a.2.2)
  else if a.2.1 ≠ E.CARD_KEY_VERSION then
    let r := pn532 E (DesfireCmd.ChangeKey 0 a.2.2.gi_PiccMasterKey) a.2.2
    if !r.1.ok then (false, r.2)
    else
      let r := pn532 E (DesfireCmd.Authenticate 0 r.2.gi_PiccMasterKey) r.2
      if !r.1.ok then (false, r.2) else (true, r.2)
  else (true, a.2.2)

/-- `DoorOpener::StoreDesfireSecret`. The default key of a new application is
`DEFAULT_APP_KEY`, which is `gi_PN532.DES3_DEFAULT_KEY` for `USE_AES false`. -/
def StoreDesfireSecret (E : Env κ σ) (pk_User : kUser) (s : DoorOpener κ σ) :
    Bool × DoorOpener κ σ :=
  if E.CARD_APPLICATION_ID = 0 ∨ E.CARD_KEY_VERSION = 0 then (false, s)
  else
    match GenerateDesfireSecrets E pk_User E.des.new with
    | none => (false, s)
    | some (i_AppMasterKey, u8_StoreValue) =>
      let r := pn532 E (DesfireCmd.DeleteApplicationIfExists E.CARD_APPLICATION_ID) s
      if !r.1.ok then (false, r.2)
      else
        let r := pn532 E (DesfireCmd.CreateApplication E.CARD_APPLICATION_ID
          DESFireKeySettings.KS_FACTORY_DEFAULT 1 (E.des.GetKeyType i_AppMasterKey)) r.2
        if !r.1.ok then (false, r.2)
        else
          let r := pn532 E (DesfireCmd.SelectApplication E.CARD_APPLICATION_ID) r.2
          if !r.1.ok then (false, r.2)
          else
            let r := pn532 E (DesfireCmd.Authenticate 0 E.PN532.DES3_DEFAULT_KEY) r.2
            if !r.1.ok then (false, r.2)
            else
              let r := pn532 E (DesfireCmd.ChangeKey 0 i_AppMasterKey) r.2
              if !r.1.ok then (false, r.2)
              else
                let r := pn532 E (DesfireCmd.Authenticate 0 i_AppMasterKey) r.2
                if !r.1.ok then (false, r.2)
                else
                  let r := pn532 E
                    (DesfireCmd.ChangeKeySettings DESFireKeySettings.KS_CHANGE_KEY_FROZEN) r.2
                  if !r.1.ok then (false, r.2)
                  else
                    let r := pn532 E (DesfireCmd.CreateStdDataFile E.CARD_FILE_ID 16) r.2
                    if !r.1.ok then (false, r.2)
                    else
                      let r := pn532 E
                        (DesfireCmd.WriteFileData E.CARD_FILE_ID 0 16 u8_StoreValue) r.2
                      if !r.1.ok then (false, r.2) else (true, r.2)

/-- `DoorOpener::ActivateRelais`. The source sets `u8_Pin = D1` and does not read
`u8_Flags`. -/
def ActivateRelais (E : Env κ σ) (_u8_Flags : Nat) (s : DoorOpener κ σ) : DoorOpener κ σ :=
  let u8_Pin := E.D1
  let s := WritePin u8_Pin RELAIS_ON s
  let s := DelayMilli OPEN_INTERVAL s
  WritePin u8_Pin RELAIS_OFF s

/-- `UserManager::FindUser(uint64_t u64_ID, kUser *pk_User)`: the return value
and the content of `*pk_User`. -/
def FindUser (db : EDB) (u64_ID : Nat) (pk_User : kUser) : Bool × kUser :=
  let r := FindUser_id db u64_ID pk_User
  (r.1, r.2.1)

/-- The text that `OpenDoor` prints for the door flags of the user. -/
def doorText (u8_Flags : Nat) : String :=
  if u8_Flags &&& DOOR_BOTH = DOOR_ONE then "Opening door 1 for "
  else if u8_Flags &&& DOOR_BOTH = DOOR_TWO then "Opening door 2 for "
  else if u8_Flags &&& DOOR_BOTH = DOOR_BOTH then "Opening door 1 + 2 for "
  else "No door specified for "

/-- The text that `OpenDoor` prints for the kind of the card. -/
def cardText : eCardType → String
  | eCardType.CARD_DesRandom => " (Desfire random card)"
  | eCardType.CARD_Desfire => " (Desfire default card)"
  | eCardType.CARD_Unknown => " (Classic card)"

/-- The end of `OpenDoor` (from the first `switch` on), reached when access is
granted: the two messages, `ActivateRelais(k_User.u8_Flags)` and
`gu64_LastID = u64_ID`. -/
def OpenDoor_grant (E : Env κ σ) (u64_ID : Nat) (pk_Card : kCard) (k_User : kUser)
    (s : DoorOpener κ σ) : DoorOpener κ σ :=
  let s := Print (doorText k_User.u8_Flags) s
  let s := emit (Event.PrintBuf (cstr k_User.s8_Name)) s
  let s := Print (cardText pk_Card.e_CardType) s
  let s := ActivateRelais E k_User.u8_Flags s
  { s with gu64_LastID := u64_ID }

/-- `DoorOpener::OpenDoor`. -/
def OpenDoor (E : Env κ σ) (u64_ID : Nat) (pk_Card : kCard) (_u64_StartTick : Nat)
    (s : DoorOpener κ σ) : DoorOpener κ σ :=
  let f := FindUser s.db u64_ID kUser.zero
  let k_User := f.2
  if !f.1 then
    let s := Print "Unknown person tries to open the door: " s
    let s := emit (Event.PrintHexBuf ((List.range 7).map (ID_u8 u64_ID))) s
    FlashLED E eLED.LED_RED 1000 s
  else if pk_Card.e_CardType.val &&& eCardType.CARD_Desfire.val = 0 then
    if !ALLOW_ALSO_CLASSIC then
      FlashLED E eLED.LED_RED 1000 (Print "The card is not a Desfire card.\r\n" s)
    else OpenDoor_grant E u64_ID pk_Card k_User s
  else if pk_Card.e_CardType = eCardType.CARD_DesRandom then
    if pk_Card.u8_KeyVersion ≠ E.CARD_KEY_VERSION then
      FlashLED E eLED.LED_RED 1000 (Print "The card is not personalized.\r\n" s)
    else OpenDoor_grant E u64_ID pk_Card k_User s
  else
    let c := CheckDesfireSecret E k_User s
    if !c.1 then
      let t := IsDesfireTimeout E c.2
      if t.1 then t.2
      else FlashLED E eLED.LED_RED 1000 (Print "The card is not personalized.\r\n" t.2)
    else OpenDoor_grant E u64_ID pk_Card k_User c.2

/-- The pseudo loop `do ... while (false)` of `loop()` and the call
`gi_PN532.SwitchOffRfField()` that follows it: one poll of the reader. -/
def loop_poll (E : Env κ σ) (u64_StartTick : Nat) (s : DoorOpener κ σ) : DoorOpener κ σ :=
  let s :=
    if !s.gb_InitSuccess then InitReader E true s
    else
      let rc := ReadCard E (List.replicate 8 0) s
      let k_Card := rc.2.2.1
      let s := rc.2.2.2
      if !rc.1 then
        let t := IsDesfireTimeout E s
        let s :=
          if t.1 then t.2
          else if k_Card.b_PN532_Error then InitReader E true t.2
          else FlashLED E eLED.LED_RED 1000 t.2
        Print "> " s
      else if k_Card.u8_UidLength = 0 then
        FlashLED E eLED.LED_GREEN 20 { s with gu64_LastID := 0 }
      else if s.gu64_LastID = ID_u64 rc.2.1 then s
      else Print "> " (OpenDoor E (ID_u64 rc.2.1) k_Card u64_StartTick s)
  (pn532 E DesfireCmd.SwitchOffRfField s).2

/-- The conversion `(int)` of a 64 bit unsigned value: the low 32 bits, read as
a signed number. -/
def toInt32 (x : Nat) : Int :=
  if x % 2 ^ 32 < 2 ^ 31 then (x % 2 ^ 32 : Nat) else (x % 2 ^ 32 : Nat) - (2 : Int) ^ 32

/-- `DoorOpener::loop` from the second statement on. The arguments are what the
function gets from outside: `b_KeyPress` is the return value of the call
`ReadKeyboardInput()` in the first statement (the state `s` is the one after that
call), `u64_StartTick` and `u64_EndTick` are the two values of `Utils::GetMillis64()`. -/
def loop (E : Env κ σ) (b_KeyPress : Bool) (u64_StartTick u64_EndTick : Nat)
    (s : DoorOpener κ σ) : DoorOpener κ σ :=
  if s.gb_InitSuccess && b_KeyPress then
    { s with u64_LastRead := (u64_StartTick + 1000) % 2 ^ 64 }
  else if s.gb_InitSuccess &&
      decide (toInt32 ((u64_StartTick + 2 ^ 64 - s.u64_LastRead) % 2 ^ 64) < RF_OFF_INTERVAL) then s
  else { loop_poll E u64_StartTick s with u64_LastRead := u64_EndTick }

/-! ## door_opener.h : the terminal -/

/-- The characters of `#define PASSWORD "ihrkommthiernichtrein"`. -/
def PASSWORD : List Nat :=
  [105, 104, 114, 107, 111, 109, 109, 116, 104, 105, 101, 114, 110, 105, 99, 104, 116, 114,
   101, 105, 110]

/-- The interval `#define PASSWORD_TIMEOUT 5`, in minutes. -/
def PASSWORD_TIMEOUT : Nat := 5

/-- The offset `#define PASSWORD_OFFSET_MS (2 * PASSWORD_TIMEOUT * 60 * 1000)`. -/
def PASSWORD_OFFSET_MS : Nat := 2 * PASSWORD_TIMEOUT * 60 * 1000

/-- `Utils::GetMillis64`: the 64 bit tick counter. -/
def GetMillis64 (s : DoorOpener κ σ) : Nat := s.millis % 2 ^ 64

/-- `SerialClass::Available`. -/
def SerialAvailable (s : DoorOpener κ σ) : Bool := !s.serial.isEmpty

/-- `SerialClass::Read`: the next byte that waits in the serial port, or `-1` when
there is none. -/
def SerialRead (s : DoorOpener κ σ) : Int × DoorOpener κ σ :=
  match s.serial with
  | [] => (-1, s)
  | c :: rest => ((c : Int), { s with serial := rest })

/-- Append events to the trace. -/
def emits (es : List (Event κ)) (s : DoorOpener κ σ) : DoorOpener κ σ :=
  { s with trace := s.trace ++ es }

/-- Upper case of a character, as `Utils::strnicmp` makes it:
`if (c >= 'a' && c <= 'z') c -= 32`. -/
def toUpper (c : Nat) : Nat := if 97 ≤ c ∧ c ≤ 122 then c - 32 else c

/-- Modelled from the spec: `Utils::strnicmp(str1, str2, count)` (the class `Utils` is
not under `src/`), the comparison of at most `count` characters of two
NUL-terminated strings behind "verb is a case-insensitive keyword". The result is
`0` when the strings agree, else `-1` or `1`. -/
def strnicmp : List Nat → List Nat → Nat → Int
  | _, _, 0 => 0
  | a, b, n + 1 =>
    if toUpper (a.headD 0) ≠ toUpper (b.headD 0) then
      if toUpper (a.headD 0) < toUpper (b.headD 0) then -1 else 1
    else if toUpper (a.headD 0) = 0 then 0
    else strnicmp a.tail b.tail n

/-- Modelled from the spec: `Utils::stricmp(str1, str2)` (the class `Utils` is not
under `src/`), the comparison of two NUL-terminated strings without regard to case. -/
def stricmp : List Nat → List Nat → Int
  | [], b => if 0 ≠ toUpper (b.headD 0) then -1 else 0
  | a :: as, b =>
    if toUpper a ≠ toUpper (b.headD 0) then
      if toUpper a < toUpper (b.headD 0) then -1 else 1
    else if toUpper a = 0 then 0
    else stricmp as b.tail

/-- The characters of the keyword "DEBUG". -/
def kwDEBUG : List Nat := [68, 69, 66, 85, 71]
/-- The characters of the keyword "RESET". -/
def kwRESET : List Nat := [82, 69, 83, 69, 84]
/-- The characters of the keyword "EXIT". -/
def kwEXIT : List Nat := [69, 88, 73, 84]
/-- The characters of the keyword "CLEAR". -/
def kwCLEAR : List Nat := [67, 76, 69, 65, 82]
/-- The characters of the keyword "LIST". -/
def kwLIST : List Nat := [76, 73, 83, 84]
/-- The characters of the keyword "RESTORE". -/
def kwRESTORE : List Nat := [82, 69, 83, 84, 79, 82, 69]
/-- The characters of the keyword "MAKERANDOM". -/
def kwMAKERANDOM : List Nat := [77, 65, 75, 69, 82, 65, 78, 68, 79, 77]
/-- The characters of the keyword "ADD". -/
def kwADD : List Nat := [65, 68, 68]
/-- The characters of the keyword "DEL". -/
def kwDEL : List Nat := [68, 69, 76]
/-- The characters of the keyword "DOOR12". -/
def kwDOOR12 : List Nat := [68, 79, 79, 82, 49, 50]
/-- The characters of the keyword "DOOR1". -/
def kwDOOR1 : List Nat := [68, 79, 79, 82, 49]
/-- The characters of the keyword "DOOR2". -/
def kwDOOR2 : List Nat := [68, 79, 79, 82, 50]

/-- The first loop of `ParseParameter`, `while (s8_Command[P] == ' ') P++;`: the
value of `P` after the loop. The first argument is the memory from `s8_Command[P]`
on. -/
def skipSpaces : List Nat → Nat → Nat
  | [], P => P
  | c :: rest, P => if c = 32 then skipSpaces rest (P + 1) else P

/-- The second loop of `ParseParameter`,
`while (s32_Len > 0 && s8_Param[s32_Len - 1] == ' ') { s32_Len--; s8_Param[s32_Len] = 0; }`:
the value of `s32_Len` and the memory from `s8_Param` on after the loop. The second
argument is `s32_Len`. -/
def trimSpaces : List Nat → Nat → Nat × List Nat
  | s8_Param, 0 => (0, s8_Param)
  | s8_Param, s32_Len + 1 =>
    if s8_Param.getD s32_Len 0 = 32 then trimSpaces (s8_Param.set s32_Len 0) s32_Len
    else (s32_Len + 1, s8_Param)

/-- `DoorOpener::ParseParameter`. The argument `s8_Command` is the memory from the
pointer `s8_Command` to the end of the command buffer. The result is the return
value, the string at `*ps8_Parameter` (when the return value is true), the memory
from `s8_Command` on after the call, and what the function prints. -/
def ParseParameter (s8_Command : List Nat) (minLength maxLength : Int) :
    Bool × List Nat × List Nat × List String :=
  if s8_Command.getD 0 0 ≠ 32 then (false, [], s8_Command, ["Invalid command\r\n"])
  else
    let P := skipSpaces (s8_Command.drop 1) 1
    let s8_Param := s8_Command.drop P
    let s32_Len := (cstr s8_Param).length
    let t := trimSpaces s8_Param s32_Len
    let mem := s8_Command.take P ++ t.2
    if (t.1 : Int) > maxLength then (false, [], mem, ["Parameter too long.\r\n"])
    else if (t.1 : Int) < minLength then (false, [], mem, ["Parameter too short.\r\n"])
    else (true, cstr t.2, mem, [])

/-- A call `ParseParameter(gs8_CommandBuffer + offset, &s8_Parameter, min, max)`: the
return value, the string `s8_Parameter` and the state after the call. -/
def ParseParameter_at (offset : Nat) (minLength maxLength : Int) (s : DoorOpener κ σ) :
    Bool × List Nat × DoorOpener κ σ :=
  let p := ParseParameter (s.gs8_CommandBuffer.drop offset) minLength maxLength
  (p.1, p.2.1,
    { s with gs8_CommandBuffer := s.gs8_CommandBuffer.take offset ++ p.2.2.1,
             trace := s.trace ++ p.2.2.2.map Event.Print })

/-- What `UserManager::PrintUser` prints. -/
def PrintUser_events (pk_User : kUser) : List (Event κ) :=
  [Event.PrintBuf (cstr pk_User.s8_Name)] ++
  List.replicate (NAME_BUF_SIZE - (cstr pk_User.s8_Name).length + 2) (Event.Print " ") ++
  [Event.PrintHexBuf ((List.range 7).map (ID_u8 pk_User.ID)),
   Event.Print
    (if pk_User.u8_Flags &&& DOOR_BOTH = DOOR_ONE then "   (door 1)\r\n"
     else if pk_User.u8_Flags &&& DOOR_BOTH = DOOR_TWO then "   (door 2)\r\n"
     else if pk_User.u8_Flags &&& DOOR_BOTH = DOOR_BOTH then "   (door 1 + 2)\r\n"
     else "   (no door specified)\r\n")]

/-- What `UserManager::PrintDBError` prints. -/
def PrintDBError_events (err : EDB_Status) : List (Event κ) :=
  [Event.Print "ERROR: ",
   Event.Print
    (match err with
     | EDB_Status.EDB_OUT_OF_RANGE => "Recno out of range"
     | EDB_Status.EDB_TABLE_FULL => "Table full"
     | EDB_Status.EDB_OK => "OK")]

/-- `userManager.ListAllUsers()`: the function prints and leaves the table as it is. -/
def ListAllUsers (s : DoorOpener κ σ) : DoorOpener κ σ :=
  let s := Print "Users stored in database:\r\n" s
  if s.db.count = 0 then Print "No users.\r\n" s
  else emits ((ListAll s.db).flatMap PrintUser_events) s

/-- `userManager.StoreNewUser(&k_User)` on the table of the device, with what the
function prints. -/
def StoreNewUser_call (pk_NewUser : kUser) (s : DoorOpener κ σ) : Bool × DoorOpener κ σ :=
  let r := StoreNewUser s.db pk_NewUser
  if !r.1 then (false, emits (PrintDBError_events (s.db.appendRec pk_NewUser).1) s)
  else
    (true, emits ([Event.Print "New user stored successfully:\r\n"] ++ PrintUser_events pk_NewUser)
      { s with db := r.2 })

/-- The loop of `DoorOpener::WaitForKeyYesNo`. The first argument is the number of
passes that are left: a pass ends with `delay(200)`, so that the test of the 30
seconds ends the loop in pass 152 at the latest. -/
def WaitForKeyYesNo_loop (u64_Start : Nat) : Nat → DoorOpener κ σ → Bool × DoorOpener κ σ
  | 0, s => (false, s)
  | n + 1, s =>
    let r := SerialRead s
    if r.1 = 110 ∨ r.1 = 78 ∨ (GetMillis64 r.2 + 2 ^ 64 - u64_Start) % 2 ^ 64 > 30000 then
      (false, Print "Aborted.\r\n" r.2)
    else if r.1 = 121 ∨ r.1 = 89 then (true, r.2)
    else WaitForKeyYesNo_loop u64_Start n (DelayMilli 200 r.2)

/-- `DoorOpener::WaitForKeyYesNo`. -/
def WaitForKeyYesNo (s : DoorOpener κ σ) : Bool × DoorOpener κ σ :=
  WaitForKeyYesNo_loop (GetMillis64 s) 152 s

/-- The loop of `DoorOpener::WaitForCard`. The first argument is the number of
passes that are left: a pass makes at least one call on the reader, which takes at
least one millisecond, so that the test of the 30 seconds ends the loop in pass
30002 at the latest. The result is the return value, the content of `*pk_User` and
of `*pk_Card`, and the new state. -/
def WaitForCard_loop (E : Env κ σ) (u64_Start : Nat) :
    Nat → kUser → DoorOpener κ σ → Bool × kUser × kCard × DoorOpener κ σ
  | 0, pk_User, s => (false, pk_User, kCard.zero, s)
  | n + 1, pk_User, s =>
    let rc := ReadCard E ((List.range 8).map (ID_u8 pk_User.ID)) s
    let pk_User := { pk_User with ID := ID_u64 rc.2.1 }
    if rc.1 && decide (rc.2.2.1.u8_UidLength > 0) then
      (true, pk_User, rc.2.2.1,
        Print "Processing... (please do not remove the card)\r\n"
          { rc.2.2.2 with gu64_LastID := pk_User.ID })
    else if (GetMillis64 rc.2.2.2 + 2 ^ 64 - u64_Start) % 2 ^ 64 > 30000 then
      (false, pk_User, rc.2.2.1, Print "Timeout waiting for card.\r\n" rc.2.2.2)
    else
      let r := SerialRead rc.2.2.2
      if r.1 = 27 then (false, pk_User, rc.2.2.1, Print "Aborted.\r\n" r.2)
      else WaitForCard_loop E u64_Start n pk_User r.2

/-- `DoorOpener::WaitForCard`. -/
def WaitForCard (E : Env κ σ) (pk_User : kUser) (s : DoorOpener κ σ) :
    Bool × kUser × kCard × DoorOpener κ σ :=
  let s := Print
    "Please approximate the card to the reader now!\r\nYou have 30 seconds. Abort with ESC.\r\n" s
  WaitForCard_loop E (GetMillis64 s) 30002 pk_User s

/-- `DoorOpener::AddCard`. -/
def AddCard (E : Env κ σ) (s8_UserName : List Nat) (s : DoorOpener κ σ) : DoorOpener κ σ :=
  let w := WaitForCard E kUser.zero s
  if !w.1 then w.2.2.2
  else
    let k_Card := w.2.2.1
    let s := w.2.2.2
    -- Utils::GenerateRandom((byte *)k_User.s8_Name, NAME_BUF_SIZE)
    let k_User := { w.2.1 with s8_Name := fit NAME_BUF_SIZE s.random }
    let s := { s with random := s.random.drop NAME_BUF_SIZE }
    -- strcpy(k_User.s8_Name, s8_UserName)
    let k_User := { k_User with s8_Name := overwrite k_User.s8_Name (s8_UserName ++ [0]) }
    let f := FindUser s.db k_User.ID kUser.zero
    if f.1 then
      emit (Event.PrintBuf (cstr f.2.s8_Name))
        (Print "This card has already been stored for user " s)
    else if k_Card.e_CardType.val &&& eCardType.CARD_Desfire.val = 0 then
      if !ALLOW_ALSO_CLASSIC then Print "The card is not a Desfire card.\r\n" s
      else (StoreNewUser_call { k_User with u8_Flags := DOOR_ONE } s).2
    else
      let c := ChangePiccMasterKey E s
      if !c.1 then c.2
      else if k_Card.e_CardType ≠ eCardType.CARD_DesRandom then
        let st := StoreDesfireSecret E k_User c.2
        if !st.1 then Print "Could not personalize the card.\r\n" st.2
        else (StoreNewUser_call { k_User with u8_Flags := DOOR_ONE } st.2).2
      else (StoreNewUser_call { k_User with u8_Flags := DOOR_ONE } c.2).2

/-- `DoorOpener::Clear`. -/
def Clear (s : DoorOpener κ σ) : DoorOpener κ σ :=
  let s := Print
    "\r\nATTENTION: ALL cards and users will be erased.\r\nIf you are really sure hit 'Y' otherwise hit 'N'.\r\n\r\n"
    s
  let w := WaitForKeyYesNo s
  if !w.1 then w.2
  else Print "All cards have been deleted.\r\n" { w.2 with db := DeleteAllUsers w.2.db }

/-- The end of `RestoreDesfireCard`, from the call `ChangeKey` on: the key of the
root domain is changed back to the default key and the card is authenticated with
it. The argument is the value of `b_Success`. -/
def RestoreDesfireCard_revert (E : Env κ σ) (b_Success : Bool) (s : DoorOpener κ σ) :
    Bool × DoorOpener κ σ :=
  let r := pn532 E (DesfireCmd.ChangeKey 0 E.PN532.DES2_DEFAULT_KEY) s
  if !r.1.ok then (false, r.2)
  else
    let r := pn532 E (DesfireCmd.Authenticate 0 E.PN532.DES2_DEFAULT_KEY) r.2
    if !r.1.ok then (false, r.2)
    else (b_Success, r.2)

/-- `DoorOpener::RestoreDesfireCard`. The call `userManager.DeleteUser(k_User.ID.u64, NULL)`
names an overload with two arguments, which `UserManager.h` does not have; it is
taken as the overload for the argument that is given, `DeleteUser(uint64_t)`. -/
def RestoreDesfireCard (E : Env κ σ) (s : DoorOpener κ σ) : Bool × DoorOpener κ σ :=
  let w := WaitForCard E kUser.zero s
  if !w.1 then (false, w.2.2.2)
  else
    let k_User := w.2.1
    let k_Card := w.2.2.1
    let s := { w.2.2.2 with db := (DeleteUser_id w.2.2.2.db k_User.ID).2 }
    if k_Card.e_CardType.val &&& eCardType.CARD_Desfire.val = 0 then
      (false, Print "The card is not a Desfire card.\r\n" s)
    else
      let a := AuthenticatePICC E 0 s
      if !a.1 then (false, a.2.2)
      else if a.2.1 = 0 then (true, a.2.2)
      else
        let d := pn532 E (DesfireCmd.DeleteApplicationIfExists E.CARD_APPLICATION_ID) a.2.2
        if !d.1.ok then
          let r := pn532 E (DesfireCmd.Authenticate 0 d.2.gi_PiccMasterKey) d.2
          if !r.1.ok then (false, r.2)
          else RestoreDesfireCard_revert E false r.2
        else RestoreDesfireCard_revert E true d.2

/-- `DoorOpener::MakeRandomCard`. -/
def MakeRandomCard (E : Env κ σ) (s : DoorOpener κ σ) : Bool × DoorOpener κ σ :=
  let s := Print
    "\r\nATTENTION: Configuring the card to send a random ID cannot be reversed.\r\nThe card will be a random ID card FOREVER!\r\nIf you are really sure what you are doing hit 'Y' otherwise hit 'N'.\r\n\r\n"
    s
  let y := WaitForKeyYesNo s
  if !y.1 then (false, y.2)
  else
    let w := WaitForCard E kUser.zero y.2
    if !w.1 then (false, w.2.2.2)
    else if w.2.2.1.e_CardType.val &&& eCardType.CARD_Desfire.val = 0 then
      (false, Print "The card is not a Desfire card.\r\n" w.2.2.2)
    else
      let a := AuthenticatePICC E 0 w.2.2.2
      if !a.1 then (false, a.2.2)
      else
        let r := pn532 E DesfireCmd.EnableRandomIDForever a.2.2
        (r.1.ok, r.2)

/-- The end of `OnCommandReceived`, from the comment "In case of a fatal error only
these 2 commands are available" on: the rest of the usage text. -/
def OnCommandReceived_footer (s : DoorOpener κ σ) : DoorOpener κ σ :=
  let s := Print " RESET          : Reset the PN532 and run the chip initialization anew\r\n" s
  let s := Print
    " DEBUG \x7blevel\x7d  : Set debug level (0= off, 1= normal, 2= RxTx data, 3= details)\r\n" s
  let s := if PASSWORD.headD 0 ≠ 0 then Print " EXIT           : Log out\r\n" s else s
  let s := Print "\r\n" s
  let s := Print "Compiled for Desfire EV1 cards (3K3DES - 168 bit encryption used)\r\n" s
  let s := if ALLOW_ALSO_CLASSIC then Print "Classic cards are also allowed.\r\n" s else s
  let s := Print "Terminal access is password protected: " s
  let s := Print (if PASSWORD.headD 0 ≠ 0 then "Yes\r\n" else "No\r\n") s
  let s := Print "System is running since " s
  emit (Event.Printf "PrintInterval" [GetMillis64 s]) s

/-- The usage text that `OnCommandReceived` prints when the reader is initialized. -/
def OnCommandReceived_usage (s : DoorOpener κ σ) : DoorOpener κ σ :=
  let s := Print "Usage:\r\n" s
  let s := Print " CLEAR          : Clear all users and their cards\r\n" s
  let s := Print " ADD    \x7buser\x7d  : Add a user and his card\r\n" s
  let s := Print " DEL    \x7buser\x7d  : Delete a user and his card\r\n" s
  let s := Print " LIST           : List all users\r\n" s
  let s := Print " DOOR1  \x7buser\x7d  : Open only door 1 for this user\r\n" s
  let s := Print " DOOR2  \x7buser\x7d  : Open only door 2 for this user\r\n" s
  let s := Print " DOOR12 \x7buser\x7d  : Open both doors for this user\r\n" s
  let s := Print
    " RESTORE        : Removes the master key and the application from the card\r\n" s
  Print " MAKERANDOM     : Converts the card into a Random ID card (FOREVER!)\r\n" s

/-- The part of `OnCommandReceived` inside `if (gb_InitSuccess) { ... }`: the commands
that need the reader. The call `userManager.DeleteUser(0, s8_Parameter)` names an
overload with two arguments, which `UserManager.h` does not have; it is taken as the
overload for the argument that is given, `DeleteUser(const char*)`. -/
def OnCommandReceived_ready (E : Env κ σ) (s : DoorOpener κ σ) : DoorOpener κ σ :=
  if stricmp s.gs8_CommandBuffer kwCLEAR = 0 then Clear s
  else if stricmp s.gs8_CommandBuffer kwLIST = 0 then ListAllUsers s
  else if stricmp s.gs8_CommandBuffer kwRESTORE = 0 then
    let r := RestoreDesfireCard E s
    let s := if r.1 then Print "Restore success\r\n" r.2 else Print "Restore failed\r\n" r.2
    (pn532 E DesfireCmd.SwitchOffRfField s).2
  else if stricmp s.gs8_CommandBuffer kwMAKERANDOM = 0 then
    let r := MakeRandomCard E s
    let s := if r.1 then Print "MakeRandom success\r\n" r.2 else Print "MakeRandom failed\r\n" r.2
    (pn532 E DesfireCmd.SwitchOffRfField s).2
  else if strnicmp s.gs8_CommandBuffer kwADD 3 = 0 then
    let p := ParseParameter_at 3 3 (NAME_BUF_SIZE - 1 : Nat) s
    if !p.1 then p.2.2
    else (pn532 E DesfireCmd.SwitchOffRfField (AddCard E p.2.1 p.2.2)).2
  else if strnicmp s.gs8_CommandBuffer kwDEL 3 = 0 then
    let p := ParseParameter_at 3 3 (NAME_BUF_SIZE - 1 : Nat) s
    if !p.1 then p.2.2
    else
      let d := DeleteUser_name p.2.2.db p.2.1
      if !d.1 then Print "Error: User not found.\r\n" { p.2.2 with db := d.2 }
      else { p.2.2 with db := d.2 }
  else if strnicmp s.gs8_CommandBuffer kwDOOR12 6 = 0 then
    let p := ParseParameter_at 6 3 (NAME_BUF_SIZE - 1 : Nat) s
    if !p.1 then p.2.2
    else
      let d := SetUserFlags p.2.2.db p.2.1 DOOR_BOTH
      if !d.1 then Print "Error: User not found.\r\n" { p.2.2 with db := d.2 }
      else { p.2.2 with db := d.2 }
  else if strnicmp s.gs8_CommandBuffer kwDOOR1 5 = 0 then
    let p := ParseParameter_at 5 3 (NAME_BUF_SIZE - 1 : Nat) s
    if !p.1 then p.2.2
    else
      let d := SetUserFlags p.2.2.db p.2.1 DOOR_ONE
      if !d.1 then Print "Error: User not found.\r\n" { p.2.2 with db := d.2 }
      else { p.2.2 with db := d.2 }
  else if strnicmp s.gs8_CommandBuffer kwDOOR2 5 = 0 then
    let p := ParseParameter_at 5 3 (NAME_BUF_SIZE - 1 : Nat) s
    if !p.1 then p.2.2
    else
      let d := SetUserFlags p.2.2.db p.2.1 DOOR_TWO
      if !d.1 then Print "Error: User not found.\r\n" { p.2.2 with db := d.2 }
      else { p.2.2 with db := d.2 }
  else
    let s := if (cstr s.gs8_CommandBuffer).length ≠ 0 then Print "Invalid command.\r\n\r\n" s
             else s
    OnCommandReceived_footer (OnCommandReceived_usage s)

/-- The part of `OnCommandReceived` after the line
`gu64_LastPasswd = Utils::GetMillis64() + PASSWORD_OFFSET_MS;`: the commands. -/
def OnCommandReceived_commands (E : Env κ σ) (s : DoorOpener κ σ) : DoorOpener κ σ :=
  if strnicmp s.gs8_CommandBuffer kwDEBUG 5 = 0 then
    let p := ParseParameter_at 5 1 1 s
    if !p.1 then p.2.2
    else if p.2.1.getD 0 0 < 48 ∨ p.2.1.getD 0 0 > 51 then Print "Invalid debug level.\r\n" p.2.2
    else (pn532 E (DesfireCmd.SetDebugLevel (p.2.1.getD 0 0 - 48)) p.2.2).2
  else
    let isReset := decide (stricmp s.gs8_CommandBuffer kwRESET = 0)
    let s := if isReset then InitReader E false s else s
    if isReset && s.gb_InitSuccess then Print "PN532 initialized successfully\r\n" s
    else if PASSWORD.headD 0 ≠ 0 ∧ stricmp s.gs8_CommandBuffer kwEXIT = 0 then
      Print "You have logged out.\r\n" { s with gu64_LastPasswd := 0 }
    else if s.gb_InitSuccess then OnCommandReceived_ready E s
    else
      let s := Print
        "FATAL ERROR: The PN532 did not respond. (Board initialization failed)\r\n" s
      OnCommandReceived_footer (Print "Usage:\r\n" s)

/-- `DoorOpener::OnCommandReceived`. A write to `gs8_CommandBuffer[500]`, one byte
behind the buffer, leaves the buffer as it is. -/
def OnCommandReceived (E : Env κ σ) (b_PasswordValid : Bool) (s : DoorOpener κ σ) :
    DoorOpener κ σ :=
  let s := { s with gs8_CommandBuffer := s.gs8_CommandBuffer.set s.gu32_CommandPos 0,
                    gu32_CommandPos := 0 }
  let s := Print "\r\n" s
  if !b_PasswordValid && decide (strcmp s.gs8_CommandBuffer PASSWORD ≠ 0) then
    DelayMilli 500 (Print "Invalid password.\r\n" s)
  else
    let s := if !b_PasswordValid then
        { Print "Welcome to the access authorization terminal.\r\n" s with
          gs8_CommandBuffer := s.gs8_CommandBuffer.set 0 0 }
      else s
    let s := { s with gu64_LastPasswd := (GetMillis64 s + PASSWORD_OFFSET_MS) % 2 ^ 64 }
    OnCommandReceived_commands E s

/-- The check of the password in `ReadKeyboardInput`,
`PASSWORD[0] == 0 || (u64_Now - gu64_LastPasswd) < (PASSWORD_TIMEOUT * 60 * 1000)`, with
the subtraction of two 64 bit unsigned values. -/
def passwordValid (u64_Now gu64_LastPasswd : Nat) : Bool :=
  decide (PASSWORD.headD 0 = 0) ||
    decide ((u64_Now + 2 ^ 64 - gu64_LastPasswd) % 2 ^ 64 < PASSWORD_TIMEOUT * 60 * 1000)

/-- One pass of the loop `while (SerialClass::Available())` of `ReadKeyboardInput`. -/
def ReadKeyboardInput_pass (E : Env κ σ) (u64_Now : Nat) (s : DoorOpener κ σ) :
    DoorOpener κ σ :=
  let b_PasswordValid := passwordValid u64_Now s.gu64_LastPasswd
  let r := SerialRead s
  let u8_Char := (r.1 % 256).toNat
  let s := r.2
  if u8_Char = 13 ∨ u8_Char = 10 then Print "\r\n> " (OnCommandReceived E b_PasswordValid s)
  else if u8_Char = 8 then
    if s.gu32_CommandPos > 0 then
      emit (Event.PrintBuf [u8_Char]) { s with gu32_CommandPos := s.gu32_CommandPos - 1 }
    else s
  else if u8_Char < 32 ∨ u8_Char > 126 then s
  else
    let s := if b_PasswordValid then emit (Event.PrintBuf [u8_Char]) s else Print "*" s
    let s := if s.gu32_CommandPos ≥ 500 then
        { Print "ERROR: Command too long\r\n" s with gu32_CommandPos := 0 }
      else s
    { s with gs8_CommandBuffer := s.gs8_CommandBuffer.set s.gu32_CommandPos u8_Char,
             gu32_CommandPos := s.gu32_CommandPos + 1 }

/-- The loop `while (SerialClass::Available())` of `ReadKeyboardInput`. The first
argument is the number of passes that are left; a pass takes at least one byte from
the serial port, so the number of bytes that wait at the start is enough. -/
def ReadKeyboardInput_loop (E : Env κ σ) (u64_Now : Nat) :
    Nat → DoorOpener κ σ → DoorOpener κ σ
  | 0, s => s
  | n + 1, s =>
    if SerialAvailable s then ReadKeyboardInput_loop E u64_Now n (ReadKeyboardInput_pass E u64_Now s)
    else s

/-- `DoorOpener::ReadKeyboardInput`: the return value `b_KeyPress` and the new state. -/
def ReadKeyboardInput (E : Env κ σ) (s : DoorOpener κ σ) : Bool × DoorOpener κ σ :=
  let u64_Now := (GetMillis64 s + PASSWORD_OFFSET_MS) % 2 ^ 64
  (SerialAvailable s, ReadKeyboardInput_loop E u64_Now s.serial.length s)

end Device

/-! ## Observing the device -/

section Observing

variable {κ σ : Type}

/-- Whether an event drives a door output (the pin `D1` or the pin `D2`) to the
level that switches the relay on. -/
def doorActive (E : Env κ σ) : Event κ → Bool
  | Event.WritePin pin level => (pin == E.D1 || pin == E.D2) && decide (level = RELAIS_ON)
  | _ => false

/-- The number of times that a trace drives a door output active. -/
def actuations (E : Env κ σ) (trace : List (Event κ)) : Nat := trace.countP (doorActive E)

/-- The state `s'` comes from `s` by steps that leave the latch `gu64_LastID`, the
table of users and the master key as they are and that add to the trace only
events with the property `P`. -/
def Ext (P : Event κ → Prop) (s s' : DoorOpener κ σ) : Prop :=
  s'.gu64_LastID = s.gu64_LastID ∧ s'.db = s.db ∧ s'.gi_PiccMasterKey = s.gi_PiccMasterKey ∧
    ∃ t, s'.trace = s.trace ++ t ∧ ∀ e ∈ t, P e

/-- The state `s'` comes from `s` by steps that leave the latch, the table of
users and the master key as they are and that drive no door output active. -/
def Quiet (E : Env κ σ) (s s' : DoorOpener κ σ) : Prop :=
  Ext (fun e => doorActive E e = false) s s'

/-- The state after the reader calls `cmds`, made one after the other. -/
def after (E : Env κ σ) : List (DesfireCmd κ) → DoorOpener κ σ → DoorOpener κ σ
  | [], s => s
  | c :: cs, s => after E cs (pn532 E c s).2

/-- The reader calls of `CheckDesfireSecret`, in the order of the source. -/
def CheckDesfireSecret_cmds (E : Env κ σ) (i_AppMasterKey : κ) : List (DesfireCmd κ) :=
  [DesfireCmd.SelectApplication 0, DesfireCmd.GetKeyVersion 0,
   DesfireCmd.SelectApplication E.CARD_APPLICATION_ID, DesfireCmd.Authenticate 0 i_AppMasterKey,
   DesfireCmd.ReadFileData E.CARD_FILE_ID 0 16]

/-- A poll of the reader in state `s` observes the card id `X`: the reader is
initialized, `ReadCard` returns true, the UID length is not zero and the id
that it read is `X`. -/
def observes (E : Env κ σ) (s : DoorOpener κ σ) (X : Nat) : Prop :=
  s.gb_InitSuccess = true ∧ (ReadCard E (List.replicate 8 0) s).1 = true ∧
    (ReadCard E (List.replicate 8 0) s).2.2.1.u8_UidLength ≠ 0 ∧
    ID_u64 (ReadCard E (List.replicate 8 0) s).2.1 = X

instance observes.decidable (E : Env κ σ) (s : DoorOpener κ σ) (X : Nat) :
    Decidable (observes E s X) := by
  unfold observes
  infer_instance

/-- Whether a call of `loop()` reaches the pseudo loop, that is, whether it polls the
reader: it does not when the reader is initialized and a key was pressed or the
interval `RF_OFF_INTERVAL` has not passed since the last poll. -/
def loop_reads (b_KeyPress : Bool) (u64_StartTick : Nat) (s : DoorOpener κ σ) : Bool :=
  !(s.gb_InitSuccess && b_KeyPress) &&
    !(s.gb_InitSuccess &&
      decide (toInt32 ((u64_StartTick + 2 ^ 64 - s.u64_LastRead) % 2 ^ 64) < RF_OFF_INTERVAL))

/-- `DoorOpener::loop`, the whole function: the call `ReadKeyboardInput()`, the tick
count `u64_StartTick` that is read after it, the rest of the function (`loop`, from
the second statement on) and the tick count that is read for `u64_LastRead` after the
RF field has been switched off. -/
def DoorOpener.loop (E : Env κ σ) (s : DoorOpener κ σ) : DoorOpener κ σ :=
  let r := ReadKeyboardInput E s
  let u64_StartTick := GetMillis64 r.2
  DoorGuard.loop E r.1 u64_StartTick (GetMillis64 (loop_poll E u64_StartTick r.2)) r.2

/-- From the state `s` to the state `s'` no door output was driven active, and the
latch `gu64_LastID` is as before or is `X`. -/
def Calm (E : Env κ σ) (X : Nat) (s s' : DoorOpener κ σ) : Prop :=
  actuations E s'.trace = actuations E s.trace ∧
    (s'.gu64_LastID = s.gu64_LastID ∨ s'.gu64_LastID = X)

end Observing

/-! ## Observing the terminal -/

section Terminal

variable {κ σ : Type}

/-- The string with all leading and all trailing spaces removed. -/
def stripSpaces (l : List Nat) : List Nat :=
  ((l.dropWhile (fun c => c == 32)).reverse.dropWhile (fun c => c == 32)).reverse

/-- Every record of the table has a card id with the property `P`. -/
def idsSatisfy (P : Nat → Prop) (db : EDB) : Prop := ∀ u ∈ db.recs, P u.ID

/-- The invariant of the table of users: every stored record has a card id that is
not zero. -/
def nonzeroIds (db : EDB) : Prop := idsSatisfy (fun id => id ≠ 0) db

/-- The state `s'` comes from `s` by steps that leave the table of users, the time
stamp `gu64_LastPasswd` and the command buffer as they are. -/
def Keeps (s s' : DoorOpener κ σ) : Prop :=
  s'.db = s.db ∧ s'.gu64_LastPasswd = s.gu64_LastPasswd ∧
    s'.gs8_CommandBuffer = s.gs8_CommandBuffer

/-- The state `s'` comes from `s` by steps that leave the time stamp
`gu64_LastPasswd` as it is and after which all card ids of the table have the
property `P` when they had it before. -/
def Session (P : Nat → Prop) (s s' : DoorOpener κ σ) : Prop :=
  (idsSatisfy P s.db → idsSatisfy P s'.db) ∧ s'.gu64_LastPasswd = s.gu64_LastPasswd

/-- The command buffer as `OnCommandReceived` sees it, after the line
`gs8_CommandBuffer[gu32_CommandPos++] = 0;`. -/
def receivedLine (s : DoorOpener κ σ) : List Nat :=
  s.gs8_CommandBuffer.set s.gu32_CommandPos 0

/-- The reader calls of `InitReader`. -/
def isInitCmd : DesfireCmd κ → Prop
  | DesfireCmd.begin => True
  | DesfireCmd.GetFirmwareVersion => True
  | DesfireCmd.SetPassiveActivationRetries => True
  | DesfireCmd.SamConfig => True
  | _ => False

/-- The event is not a call on the reader, or it is one of the calls of `InitReader`
or the call `SetDebugLevel`: no command goes to a card. -/
def noCardOperation : Event κ → Prop
  | Event.Reader (DesfireCmd.SetDebugLevel _) => True
  | Event.Reader c => isInitCmd c
  | _ => True

end Terminal

/-! ## The command line in `OnCommandReceived` -/

section CommandLine

variable {κ σ : Type}

/-- The state in which `OnCommandReceived` starts to look for the command when the
line is taken as a command (`b_PasswordValid` is true): the line is terminated,
`gu32_CommandPos` is zero, the line feed is printed and the time stamp
`gu64_LastPasswd` is renewed. -/
def lineAccepted (s : DoorOpener κ σ) : DoorOpener κ σ :=
  { s with gs8_CommandBuffer := receivedLine s, gu32_CommandPos := 0,
           gu64_LastPasswd := (GetMillis64 s + PASSWORD_OFFSET_MS) % 2 ^ 64,
           trace := s.trace ++ [Event.Print "\r\n"] }

/-- The state in which `OnCommandReceived` starts to look for the command when the
line was the password: as `lineAccepted`, with the greeting printed and the buffer
cleared by `gs8_CommandBuffer[0] = 0`. -/
def loggedIn (s : DoorOpener κ σ) : DoorOpener κ σ :=
  { s with gs8_CommandBuffer := (receivedLine s).set 0 0, gu32_CommandPos := 0,
           gu64_LastPasswd := (GetMillis64 s + PASSWORD_OFFSET_MS) % 2 ^ 64,
           trace := s.trace ++ [Event.Print "\r\n",
             Event.Print "Welcome to the access authorization terminal.\r\n"] }

/-- The calls of `ParseParameter` in `OnCommandReceived`: the keyword, its length
(the parameter is looked for at `gs8_CommandBuffer +` this length) and the bounds
`minLength` and `maxLength` of the call. -/
def parameterSites : List (List Nat × Nat × Int × Int) :=
  [(kwDEBUG, 5, 1, 1), (kwADD, 3, 3, (NAME_BUF_SIZE - 1 : Nat)),
   (kwDEL, 3, 3, (NAME_BUF_SIZE - 1 : Nat)), (kwDOOR12, 6, 3, (NAME_BUF_SIZE - 1 : Nat)),
   (kwDOOR1, 5, 3, (NAME_BUF_SIZE - 1 : Nat)), (kwDOOR2, 5, 3, (NAME_BUF_SIZE - 1 : Nat))]

/-- The members of `class DoorOpener` as their initializers set them when the object
is made: `gu32_CommandPos = 0`, `gu64_LastPasswd = 0`, `gu64_LastID = 0`,
`gb_InitSuccess = false`. The command buffer, the reader, the key object and the table
have no initializer; they are arguments. -/
def powerOn (gs8_CommandBuffer : List Nat) (gi_PN532 : σ) (gi_PiccMasterKey : κ) (db : EDB) :
    DoorOpener κ σ :=
  { gs8_CommandBuffer := gs8_CommandBuffer
    gu32_CommandPos := 0
    gu64_LastPasswd := 0
    gu64_LastID := 0
    gb_InitSuccess := false
    gi_PN532 := gi_PN532
    gi_PiccMasterKey := gi_PiccMasterKey
    db := db
    u64_LastRead := 0
    trace := [] }

end CommandLine

/-! ## A model card

The card and the reader are outside the program. To state properties that
speak about what a card does (a card that stores what is written to it), the
reader interface is instantiated with the following model. -/

/-- Modelled from the spec: an application on the card, "an isolated,
independently-keyed data compartment on the card containing files". It has an
identifier, a master key, key settings and at most one data file (file
identifier and content). -/
structure CardApp (κ : Type) where
  id : Nat
  key : κ
  settings : DESFireKeySettings
  file : Option (Nat × List Nat)

/-- Modelled from the spec: a card in the field of the reader. `present` tells
whether a card is in the field, `uid` is its real identifier, `kind` its kind,
`piccKey` and `piccKeyVersion` the key of the root domain and its version
(version `0` is the factory default key), `app` the application on the card,
`selected` the selected domain (`0` is the root domain), `authenticated` whether
the selected domain has been authenticated, `lastError` the error code that the
reader reports. -/
structure Card (κ : Type) where
  present : Bool
  uid : List Nat
  kind : eCardType
  piccKey : κ
  piccKeyVersion : Nat
  app : Option (CardApp κ)
  selected : Nat
  authenticated : Bool
  lastError : Nat

/-- A reply without out-parameters. -/
def reply (ok : Bool) : DesfireReply :=
  { ok := ok, u8 := 0, data := [], cardType := eCardType.CARD_Unknown }

/-- The application that is selected on the card, if one is. -/
def Card.selectedApp {κ : Type} (c : Card κ) : Option (CardApp κ) :=
  match c.app with
  | some a => if c.selected ≠ 0 ∧ a.id = c.selected then some a else none
  | none => none

/-- Whether the card answers Desfire commands: it is in the field and it is a
Desfire card. -/
def Card.desfire {κ : Type} (c : Card κ) : Bool :=
  c.present && decide (c.kind ≠ eCardType.CARD_Unknown)

/-- Modelled from the spec: the reader capability interface of section 6, run
against a `Card`. A card stores what is written to it: `ChangeKey` replaces the
key of the selected domain, `CreateApplication` makes an application whose key
is the default key `defaultAppKey`, `WriteFileData` replaces bytes of the file
and `ReadFileData` gives them back. `Authenticate` succeeds exactly with the
key of the selected domain; changing a key or the key settings and the access to
a file need a previous authentication; a key whose settings are frozen cannot be
changed. The real identifier of a random-id card needs an authentication at the
root domain. -/
def Card.exec {κ : Type} [DecidableEq κ] (des : DES κ) (defaultAppKey : κ) :
    DesfireCmd κ → Card κ → DesfireReply × Card κ
  | DesfireCmd.begin, c => (reply true, c)
  | DesfireCmd.GetFirmwareVersion, c =>
    ({ ok := true, u8 := 0, data := [50, 1, 6, 7], cardType := eCardType.CARD_Unknown }, c)
  | DesfireCmd.SetPassiveActivationRetries, c => (reply true, c)
  | DesfireCmd.SamConfig, c => (reply true, c)
  | DesfireCmd.SetDebugLevel _, c => (reply true, c)
  | DesfireCmd.SwitchOffRfField, c =>
    (reply true, { c with selected := 0, authenticated := false })
  | DesfireCmd.GetLastPN532Error, c =>
    ({ ok := true, u8 := c.lastError, data := [], cardType := eCardType.CARD_Unknown }, c)
  | DesfireCmd.ReadPassiveTargetID, c =>
    if !c.present then (reply true, c)
    else if c.kind = eCardType.CARD_DesRandom then
      ({ ok := true, u8 := 4, data := [8, 0, 0, 0], cardType := c.kind },
        { c with selected := 0, authenticated := false })
    else
      ({ ok := true, u8 := c.uid.length, data := c.uid, cardType := c.kind },
        { c with selected := 0, authenticated := false })
  | DesfireCmd.GetRealCardID, c =>
    if c.desfire && decide (c.selected = 0) && c.authenticated then
      ({ ok := true, u8 := 0, data := c.uid, cardType := c.kind }, c)
    else (reply false, c)
  | DesfireCmd.SelectApplication u32_AppID, c =>
    if !c.desfire then (reply false, c)
    else if u32_AppID = 0 then (reply true, { c with selected := 0, authenticated := false })
    else match c.app with
      | some a =>
        if a.id = u32_AppID then
          (reply true, { c with selected := u32_AppID, authenticated := false })
        else (reply false, c)
      | none => (reply false, c)
  | DesfireCmd.GetKeyVersion u8_KeyNo, c =>
    if !c.desfire || decide (u8_KeyNo ≠ 0) then (reply false, c)
    else if c.selected = 0 then
      ({ ok := true, u8 := c.piccKeyVersion, data := [], cardType := eCardType.CARD_Unknown }, c)
    else match c.selectedApp with
      | some a =>
        ({ ok := true, u8 := des.GetKeyVersion a.key, data := [],
           cardType := eCardType.CARD_Unknown }, c)
      | none => (reply false, c)
  | DesfireCmd.Authenticate u8_KeyNo pi_Key, c =>
    if !c.desfire || decide (u8_KeyNo ≠ 0) then (reply false, { c with authenticated := false })
    else if c.selected = 0 then
      if pi_Key = c.piccKey then (reply true, { c with authenticated := true })
      else (reply false, { c with authenticated := false })
    else match c.selectedApp with
      | some a =>
        if pi_Key = a.key then (reply true, { c with authenticated := true })
        else (reply false, { c with authenticated := false })
      | none => (reply false, { c with authenticated := false })
  | DesfireCmd.ChangeKey u8_KeyNo pi_NewKey, c =>
    if !c.desfire || decide (u8_KeyNo ≠ 0) || !c.authenticated then (reply false, c)
    else if c.selected = 0 then
      (reply true, { c with piccKey := pi_NewKey, piccKeyVersion := des.GetKeyVersion pi_NewKey,
                            authenticated := false })
    else match c.selectedApp with
      | some a =>
        if a.settings = DESFireKeySettings.KS_CHANGE_KEY_FROZEN then (reply false, c)
        else (reply true, { c with app := some { a with key := pi_NewKey },
                                   authenticated := false })
      | none => (reply false, c)
  | DesfireCmd.DeleteApplicationIfExists u32_AppID, c =>
    if !c.desfire || decide (c.selected ≠ 0) then (reply false, c)
    else match c.app with
      | some a => if a.id = u32_AppID then (reply true, { c with app := none }) else (reply true, c)
      | none => (reply true, c)
  | DesfireCmd.CreateApplication u32_AppID e_Settg _ _, c =>
    if !c.desfire || decide (c.selected ≠ 0) || decide (u32_AppID = 0) then (reply false, c)
    else match c.app with
      | some _ => (reply false, c)
      | none =>
        (reply true, { c with app := some { id := u32_AppID, key := defaultAppKey,
                                            settings := e_Settg, file := none } })
  | DesfireCmd.ChangeKeySettings e_NewSettg, c =>
    if !c.desfire || !c.authenticated then (reply false, c)
    else match c.selectedApp with
      | some a => (reply true, { c with app := some { a with settings := e_NewSettg } })
      | none => (reply false, c)
  | DesfireCmd.CreateStdDataFile u8_FileID s32_FileSize, c =>
    if !c.desfire || !c.authenticated then (reply false, c)
    else match c.selectedApp with
      | some a =>
        match a.file with
        | some _ => (reply false, c)
        | none =>
          (reply true, { c with app := some { a with
            file := some (u8_FileID, List.replicate s32_FileSize 0) } })
      | none => (reply false, c)
  | DesfireCmd.WriteFileData u8_FileID s32_Offset s32_Length u8_DataBuffer, c =>
    if !c.desfire || !c.authenticated then (reply false, c)
    else match c.selectedApp with
      | some a =>
        match a.file with
        | some f =>
          if f.1 = u8_FileID ∧ s32_Offset + s32_Length ≤ f.2.length then
            (reply true, { c with app := some { a with file := some (f.1,
              f.2.take s32_Offset ++ fit s32_Length u8_DataBuffer ++
                f.2.drop (s32_Offset + s32_Length)) } })
          else (reply false, c)
        | none => (reply false, c)
      | none => (reply false, c)
  | DesfireCmd.ReadFileData u8_FileID s32_Offset s32_Length, c =>
    if !c.desfire || !c.authenticated then (reply false, c)
    else match c.selectedApp with
      | some a =>
        match a.file with
        | some f =>
          if f.1 = u8_FileID ∧ s32_Offset + s32_Length ≤ f.2.length then
            ({ ok := true, u8 := 0, data := (f.2.drop s32_Offset).take s32_Length,
               cardType := eCardType.CARD_Unknown }, c)
          else (reply false, c)
        | none => (reply false, c)
      | none => (reply false, c)
  | DesfireCmd.EnableRandomIDForever, c =>
    if c.desfire && decide (c.selected = 0) && c.authenticated then
      (reply true, { c with kind := eCardType.CARD_DesRandom })
    else (reply false, c)

/-- The reader with a model card in its field. The default key of a new
application is `DES3_DEFAULT_KEY`. -/
def modelReader {κ : Type} [DecidableEq κ] (des : DES κ) (DES2_DEFAULT_KEY DES3_DEFAULT_KEY : κ) :
    Desfire κ (Card κ) :=
  { exec := Card.exec des DES3_DEFAULT_KEY
    DES2_DEFAULT_KEY := DES2_DEFAULT_KEY
    DES3_DEFAULT_KEY := DES3_DEFAULT_KEY }

/-- A factory-fresh Desfire card with a fixed identifier in the field: the key
of the root domain is the default key with version `0`, there is no
application, nothing is selected. -/
def factoryCard {κ : Type} (uid : List Nat) (DES2_DEFAULT_KEY : κ) : Card κ :=
  { present := true, uid := uid, kind := eCardType.CARD_Desfire,
    piccKey := DES2_DEFAULT_KEY, piccKeyVersion := 0, app := none,
    selected := 0, authenticated := false, lastError := 0 }

/-- The card `c` after the byte at position `i` of its data file has been
replaced by `v`. -/
def Card.setFileByte {κ : Type} (c : Card κ) (i v : Nat) : Card κ :=
  match c.app with
  | some a =>
    match a.file with
    | some f => { c with app := some { a with file := some (f.1, f.2.set i v) } }
    | none => c
  | none => c

/-- The content of the data file of the card (empty when there is none). -/
def Card.fileData {κ : Type} (c : Card κ) : List Nat :=
  match c.app with
  | some a =>
    match a.file with
    | some f => f.2
    | none => []
  | none => []

/-! ## A concrete configuration

A small configuration on which the functions can be evaluated: a toy cipher, the
pins of an ESP8266 board, and the model card. -/

/-- A key object of the toy cipher: the key bytes and the key version. -/
structure ToyKey where
  data : List Nat
  version : Nat
  deriving DecidableEq, Repr

/-- A toy cipher: a key has 8, 16 or 24 bytes, the data must be a multiple of 8
bytes long and is XORed with the key bytes. -/
def toyDES : DES ToyKey :=
  { new := { data := [], version := 0 }
    SetKeyData := fun data version _ =>
      (decide (data.length = 8 ∨ data.length = 16 ∨ data.length = 24),
        { data := data, version := version })
    CryptDataCBC := fun data k =>
      (if data.length % 8 = 0 then some (List.zipWith (fun a b => a ^^^ b) data k.data) else none, k)
    GetKeyType := fun k => k.data.length / 8
    GetKeyVersion := fun k => k.version }

/-- The default key of the root domain of a card, 16 zero bytes, version 0. -/
def toyDES2Default : ToyKey := { data := List.replicate 16 0, version := 0 }

/-- The default key of a new application, 24 zero bytes, version 0. -/
def toyDES3Default : ToyKey := { data := List.replicate 24 0, version := 0 }

/-- A configuration: `D1 = 5`, `D2 = 4`, `LED_BUILTIN = 2`, three secret keys,
application `0xAA401F`, file `0`, key version `0x10`, the toy cipher and the
model reader. -/
def toyEnv : Env ToyKey (Card ToyKey) :=
  { D1 := 5, D2 := 4, LED_BUILTIN := 2
    SECRET_PICC_MASTER_KEY := List.replicate 24 17
    SECRET_APPLICATION_KEY := List.replicate 24 34
    SECRET_STORE_VALUE_KEY := List.replicate 24 51
    CARD_APPLICATION_ID := 0xAA401F
    CARD_FILE_ID := 0
    CARD_KEY_VERSION := 16
    des := toyDES
    PN532 := modelReader toyDES toyDES2Default toyDES3Default }

/-- The device after `setup()` with an initialized reader, the card `c` in the
field and the records `recs` in the table. -/
def toyState (c : Card ToyKey) (recs : List kUser) : DoorOpener ToyKey (Card ToyKey) :=
  { gs8_CommandBuffer := List.replicate 500 0
    gu32_CommandPos := 0
    gu64_LastPasswd := 0
    gu64_LastID := 0
    gb_InitSuccess := true
    gi_PN532 := c
    gi_PiccMasterKey := { data := List.replicate 24 17, version := 16 }
    db := { recs := recs, capacity := 32 }
    u64_LastRead := 0
    trace := [] }

/-- A name buffer: the characters of `name`, the terminating NUL, then filler
bytes `7` up to `NAME_BUF_SIZE`. -/
def toyName (name : List Nat) : List Nat :=
  (name ++ [0] ++ List.replicate NAME_BUF_SIZE 7).take NAME_BUF_SIZE

/-- The characters of "Ann". -/
def nameAnn : List Nat := [65, 110, 110]

/-- The characters of "Bob". -/
def nameBob : List Nat := [66, 111, 98]

/-- The user "Ann" with card `0x11` and door 1. -/
def userAnn : kUser := { ID := 0x11, s8_Name := toyName nameAnn, u8_Flags := DOOR_ONE }

/-- The user "Bob" with card `0x22` and both doors. -/
def userBob : kUser := { ID := 0x22, s8_Name := toyName nameBob, u8_Flags := DOOR_BOTH }

/-- A Classic card with the 4 byte identifier `0x33`. -/
def classicCard : Card ToyKey :=
  { present := true, uid := [0x33, 0, 0, 0], kind := eCardType.CARD_Unknown,
    piccKey := toyDES2Default, piccKeyVersion := 0, app := none,
    selected := 0, authenticated := false, lastError := 0 }

/-- The user "Eve" with the Classic card `0x33` and door 2 only. -/
def userEve : kUser := { ID := 0x33, s8_Name := toyName [69, 118, 101], u8_Flags := DOOR_TWO }

/-- What `ReadCard` reports for the Classic card `0x33`. -/
def classicSeen : kCard :=
  { u8_UidLength := 4, u8_KeyVersion := 0, b_PN532_Error := false,
    e_CardType := eCardType.CARD_Unknown }

/-- What `ReadCard` reports for a Desfire card that is not in random-id mode. -/
def desfireSeen : kCard :=
  { u8_UidLength := 7, u8_KeyVersion := 0, b_PN532_Error := false,
    e_CardType := eCardType.CARD_Desfire }

/-- A factory-fresh Desfire card with the identifier `0x11`, the card of "Ann". -/
def cardAnn : Card ToyKey := factoryCard [0x11, 0, 0, 0, 0, 0, 0] toyDES2Default

/-- The application master key that the toy cipher derives for "Ann". -/
def keyAnn : ToyKey :=
  { data := [117, 75, 75, 37, 34, 34, 34, 34, 34, 34, 34, 34, 34, 34, 34, 34, 34, 34, 34, 34, 34,
      34, 34, 34]
    version := 16 }

/-- The store value that the toy cipher derives for "Ann". -/
def storeValueAnn : List Nat := [100, 90, 90, 52, 51, 51, 51, 51, 51, 51, 51, 51, 51, 51, 51, 51]

/-- The message of `OpenDoor` for a card id that is not in the table. -/
def unknownPerson : Event ToyKey := Event.Print "Unknown person tries to open the door: "

/-! ## A concrete terminal session -/

/-- A Classic card whose 4 byte identifier is all zero. -/
def zeroCard : Card ToyKey := { classicCard with uid := [0, 0, 0, 0] }

/-- A command buffer of 500 bytes that holds the characters `line` from its start. -/
def toyLine (line : List Nat) : List Nat := overwrite (List.replicate 500 0) line

/-- The device of `toyState` after the characters `line` were typed: they are in the
command buffer and `gu32_CommandPos` is behind them. -/
def toyTyped (c : Card ToyKey) (recs : List kUser) (line : List Nat) :
    DoorOpener ToyKey (Card ToyKey) :=
  { toyState c recs with gs8_CommandBuffer := toyLine line, gu32_CommandPos := line.length }

/-- A reader that reports the Classic card `0x33` at every poll; every other call
fails. -/
def fixedReader : Desfire ToyKey Unit :=
  { exec := fun cmd st =>
      match cmd with
      | DesfireCmd.ReadPassiveTargetID =>
        ({ ok := true, u8 := 4, data := [0x33, 0, 0, 0], cardType := eCardType.CARD_Unknown }, st)
      | _ => ({ ok := false, u8 := 0, data := [], cardType := eCardType.CARD_Unknown }, st)
    DES2_DEFAULT_KEY := toyDES2Default
    DES3_DEFAULT_KEY := toyDES3Default }

/-- The configuration `toyEnv` with the reader `fixedReader`. -/
def fixedEnv : Env ToyKey Unit :=
  { D1 := 5, D2 := 4, LED_BUILTIN := 2
    SECRET_PICC_MASTER_KEY := List.replicate 24 17
    SECRET_APPLICATION_KEY := List.replicate 24 34
    SECRET_STORE_VALUE_KEY := List.replicate 24 51
    CARD_APPLICATION_ID := 0xAA401F
    CARD_FILE_ID := 0
    CARD_KEY_VERSION := 16
    des := toyDES
    PN532 := fixedReader }

/-- The device with the reader `fixedReader` after the characters `line` were typed. -/
def fixedTyped (recs : List kUser) (line : List Nat) : DoorOpener ToyKey Unit :=
  { gs8_CommandBuffer := toyLine line
    gu32_CommandPos := line.length
    gu64_LastPasswd := 0
    gu64_LastID := 0
    gb_InitSuccess := true
    gi_PN532 := ()
    gi_PiccMasterKey := { data := List.replicate 24 17, version := 16 }
    db := { recs := recs, capacity := 32 }
    u64_LastRead := 0
    trace := [] }

/-- The characters of "Zed". -/
def nameZed : List Nat := [90, 101, 100]

/-! ## Observing `AddCard` -/

section ObservingAddCard

variable {κ σ : Type}

/-- The record `k_User` of `AddCard` after the lines `Utils::GenerateRandom` and
`strcpy`: the card id that `WaitForCard` has delivered, and in the name buffer the
random bytes with the user name and its terminating NUL written over them. The
flags are still zero. -/
def AddCard_user (E : Env κ σ) (s8_UserName : List Nat) (s : DoorOpener κ σ) : kUser :=
  { (WaitForCard E kUser.zero s).2.1 with
    s8_Name := overwrite (fit NAME_BUF_SIZE (WaitForCard E kUser.zero s).2.2.2.random)
      (s8_UserName ++ [0]) }

/-- The state of `AddCard` after the lines `Utils::GenerateRandom` and `strcpy`. -/
def AddCard_state (E : Env κ σ) (s : DoorOpener κ σ) : DoorOpener κ σ :=
  { (WaitForCard E kUser.zero s).2.2.2 with
    random := (WaitForCard E kUser.zero s).2.2.2.random.drop NAME_BUF_SIZE }

/-- The card operations that `AddCard` makes for the kind of card that was presented,
after the lookup of the card id: none for a card that is not a Desfire card,
`ChangePiccMasterKey` for a Desfire card and after it `StoreDesfireSecret` for a
Desfire card without random id. The result tells whether `AddCard` goes on to
`StoreNewUser`, and gives the state after the operations. -/
def AddCard_cardOps (E : Env κ σ) (s8_UserName : List Nat) (s : DoorOpener κ σ) :
    Bool × DoorOpener κ σ :=
  if (WaitForCard E kUser.zero s).2.2.1.e_CardType.val &&& eCardType.CARD_Desfire.val = 0 then
    (ALLOW_ALSO_CLASSIC, AddCard_state E s)
  else
    let c := ChangePiccMasterKey E (AddCard_state E s)
    if !c.1 then (false, c.2)
    else if (WaitForCard E kUser.zero s).2.2.1.e_CardType ≠ eCardType.CARD_DesRandom then
      StoreDesfireSecret E (AddCard_user E s8_UserName s) c.2
    else (true, c.2)

end ObservingAddCard

/-! ## Observing `RestoreDesfireCard` -/

section ObservingRestore

variable {κ σ : Type}

/-- The state of `RestoreDesfireCard` after the call `WaitForCard` has returned true
and after the line `userManager.DeleteUser(k_User.ID.u64, NULL)`. -/
def RestoreDesfireCard_start (E : Env κ σ) (s : DoorOpener κ σ) : DoorOpener κ σ :=
  { (WaitForCard E kUser.zero s).2.2.2 with
    db := (DeleteUser_id (WaitForCard E kUser.zero s).2.2.2.db
      (WaitForCard E kUser.zero s).2.1.ID).2 }

end ObservingRestore

/-! ## A reader that follows a script -/

/-- A reader that answers its calls with the replies of a list, one after the other,
whatever the call is; when the list is used up every call fails. -/
def scriptedReader : Desfire ToyKey (List DesfireReply) :=
  { exec := fun _ st =>
      match st with
      | [] => ({ ok := false, u8 := 0, data := [], cardType := eCardType.CARD_Unknown }, [])
      | r :: rest => (r, rest)
    DES2_DEFAULT_KEY := toyDES2Default
    DES3_DEFAULT_KEY := toyDES3Default }

/-- The configuration `toyEnv` with the reader `scriptedReader`. -/
def scriptedEnv : Env ToyKey (List DesfireReply) :=
  { D1 := 5, D2 := 4, LED_BUILTIN := 2
    SECRET_PICC_MASTER_KEY := List.replicate 24 17
    SECRET_APPLICATION_KEY := List.replicate 24 34
    SECRET_STORE_VALUE_KEY := List.replicate 24 51
    CARD_APPLICATION_ID := 0xAA401F
    CARD_FILE_ID := 0
    CARD_KEY_VERSION := 16
    des := toyDES
    PN532 := scriptedReader }

/-- The device with the reader `scriptedReader`, initialized, with the replies
`script` ahead and the records `recs` in the table. -/
def scriptedState (script : List DesfireReply) (recs : List kUser) :
    DoorOpener ToyKey (List DesfireReply) :=
  { gs8_CommandBuffer := List.replicate 500 0
    gu32_CommandPos := 0
    gu64_LastPasswd := 0
    gu64_LastID := 0
    gb_InitSuccess := true
    gi_PN532 := script
    gi_PiccMasterKey := { data := List.replicate 24 17, version := 16 }
    db := { recs := recs, capacity := 32 }
    u64_LastRead := 0
    trace := [] }

/-- A reply that reports success. -/
def replyOk : DesfireReply :=
  { ok := true, u8 := 0, data := [], cardType := eCardType.CARD_Unknown }

/-- A reply that reports failure. -/
def replyFail : DesfireReply :=
  { ok := false, u8 := 0, data := [], cardType := eCardType.CARD_Unknown }

/-- The reply of `ReadPassiveTargetID` for the Desfire card with the 7 byte
identifier `0x11`. -/
def replyDesfire11 : DesfireReply :=
  { ok := true, u8 := 7, data := [0x11, 0, 0, 0, 0, 0, 0], cardType := eCardType.CARD_Desfire }

/-- The replies to the calls of `RestoreDesfireCard` for a personalized card (key
version 16) on which the application delete and the authentication after it fail:
`ReadPassiveTargetID`, `SelectApplication`, `GetKeyVersion`, `Authenticate`,
`DeleteApplicationIfExists`, `Authenticate`. -/
def restoreScript : List DesfireReply :=
  [replyDesfire11, replyOk, { replyOk with u8 := 16 }, replyOk, replyFail, replyFail]

/-- The reader calls in a trace, in their order. -/
def readerCalls {κ : Type} : List (Event κ) → List (DesfireCmd κ)
  | [] => []
  | Event.Reader c :: rest => c :: readerCalls rest
  | _ :: rest => readerCalls rest

/-! ## Sequences of calls of `loop()` with the terminal in between -/

section LoopCalls

variable {κ σ : Type}

/-- One call of `loop()` in a sequence of calls: what the call gets from outside
(the return value of `ReadKeyboardInput` and the two tick values) and the state `s`
in which its second statement starts, that is the state after `ReadKeyboardInput`. -/
structure LoopCall (κ σ : Type) where
  b_KeyPress : Bool
  u64_StartTick : Nat
  u64_EndTick : Nat
  s : DoorOpener κ σ

/-- The state at the end of the call. -/
def LoopCall.run (E : Env κ σ) (c : LoopCall κ σ) : DoorOpener κ σ :=
  loop E c.b_KeyPress c.u64_StartTick c.u64_EndTick c.s

/-- The call polls the card: the reader is initialized and the call reaches the
pseudo loop, so that it calls `ReadCard`. -/
def LoopCall.readsCard (c : LoopCall κ σ) : Prop :=
  c.s.gb_InitSuccess = true ∧ loop_reads c.b_KeyPress c.u64_StartTick c.s = true

/-- The static local `u64_LastRead` of `loop()`, which no other function writes, has
at the start of each call the value that the call before has left. Everything else
of the state may have changed between two calls (by `ReadKeyboardInput` and the
commands). -/
def linked (E : Env κ σ) : List (LoopCall κ σ) → Prop
  | [] => True
  | [_] => True
  | a :: b :: rest => b.s.u64_LastRead = (a.run E).u64_LastRead ∧ linked E (b :: rest)

/-- The tick values of a sequence of calls do not decrease: each call ends no
earlier than it starts, and starts no earlier than the call before has ended; and
the tick counter stays away from the end of its 64 bits. -/
def ticksOrdered : List (LoopCall κ σ) → Prop
  | [] => True
  | [a] => a.u64_StartTick ≤ a.u64_EndTick ∧ a.u64_EndTick + 1000 < 2 ^ 64
  | a :: b :: rest =>
    a.u64_StartTick ≤ a.u64_EndTick ∧ a.u64_EndTick + 1000 < 2 ^ 64 ∧
      a.u64_EndTick ≤ b.u64_StartTick ∧ ticksOrdered (b :: rest)

end LoopCalls

/-! ## Counting the runs of `InitReader` -/

/-- The reader call is `gi_PN532.begin()`. In the source only `InitReader` makes
this call, once in each run. -/
def isBegin {κ : Type} : DesfireCmd κ → Bool
  | DesfireCmd.begin => true
  | _ => false

/-- The number of runs of `InitReader` that a trace shows: the number of its calls
`gi_PN532.begin()`. -/
def initAttempts {κ : Type} (trace : List (Event κ)) : Nat :=
  (readerCalls trace).countP isBegin

section CountingInits

variable {κ σ : Type}

/-- From the state `s` to the state `s'` the function `InitReader` has run `n`
times. -/
def Inits (n : Nat) (s s' : DoorOpener κ σ) : Prop :=
  initAttempts s'.trace = initAttempts s.trace + n

/-- The pseudo loop of `loop()`, entered with the reader initialized, takes the
branch `else if (k_Card.b_PN532_Error)`: `ReadCard` returns false,
`IsDesfireTimeout` returns false and the error comes from the reader. -/
def loop_fault (E : Env κ σ) (s : DoorOpener κ σ) : Bool :=
  let rc := ReadCard E (List.replicate 8 0) s
  !rc.1 && !(IsDesfireTimeout E rc.2.2.2).1 && rc.2.2.1.b_PN532_Error

end CountingInits

/-- The replies to the calls of one poll in which the reader fails to read the card
and is initialized again with success: `ReadPassiveTargetID` (fails),
`GetLastPN532Error` (no timeout), `begin`, `GetFirmwareVersion`,
`SetPassiveActivationRetries`, `SamConfig`, `SwitchOffRfField`. -/
def faultScript : List DesfireReply :=
  [replyFail, replyOk, replyOk, { replyOk with data := [0x32, 1, 6, 7] }, replyOk, replyOk,
   replyOk]

/-! ## The writes to the command buffer -/

section BufferWrites

variable {κ σ : Type}

/-- The indices `i` of the assignments `gs8_CommandBuffer[i] = ...` in the body of
`OnCommandReceived`, in their order: the terminating NUL of the line
`gs8_CommandBuffer[gu32_CommandPos++] = 0;` and, after the password was entered, the
line `gs8_CommandBuffer[0] = 0;`. -/
def OnCommandReceived_writes (b_PasswordValid : Bool) (s : DoorOpener κ σ) : List Nat :=
  let u32_Index := s.gu32_CommandPos
  let s := { s with gs8_CommandBuffer := s.gs8_CommandBuffer.set s.gu32_CommandPos 0,
                    gu32_CommandPos := 0 }
  if !b_PasswordValid && decide (strcmp s.gs8_CommandBuffer PASSWORD ≠ 0) then [u32_Index]
  else if !b_PasswordValid then [u32_Index, 0]
  else [u32_Index]

/-- The indices of the assignments to `gs8_CommandBuffer` in one pass of the loop of
`ReadKeyboardInput`: those of `OnCommandReceived` for the characters CR and LF, and
the index of `gs8_CommandBuffer[gu32_CommandPos++] = u8_Char;` for a character that
is stored. -/
def ReadKeyboardInput_pass_writes (u64_Now : Nat) (s : DoorOpener κ σ) : List Nat :=
  let b_PasswordValid := passwordValid u64_Now s.gu64_LastPasswd
  let r := SerialRead s
  let u8_Char := (r.1 % 256).toNat
  let s := r.2
  if u8_Char = 13 ∨ u8_Char = 10 then OnCommandReceived_writes b_PasswordValid s
  else if u8_Char = 8 then []
  else if u8_Char < 32 ∨ u8_Char > 126 then []
  else [if s.gu32_CommandPos ≥ 500 then 0 else s.gu32_CommandPos]

/-- The indices of the assignments to `gs8_CommandBuffer` in the passes of the loop
of `ReadKeyboardInput`, in their order. -/
def ReadKeyboardInput_loop_writes (E : Env κ σ) (u64_Now : Nat) :
    Nat → DoorOpener κ σ → List Nat
  | 0, _ => []
  | n + 1, s =>
    if SerialAvailable s then
      ReadKeyboardInput_pass_writes u64_Now s ++
        ReadKeyboardInput_loop_writes E u64_Now n (ReadKeyboardInput_pass E u64_Now s)
    else []

/-- The indices of the assignments to `gs8_CommandBuffer` in one call of
`ReadKeyboardInput`. -/
def ReadKeyboardInput_writes (E : Env κ σ) (s : DoorOpener κ σ) : List Nat :=
  ReadKeyboardInput_loop_writes E ((GetMillis64 s + PASSWORD_OFFSET_MS) % 2 ^ 64)
    s.serial.length s

end BufferWrites

/-- A card that answers the poll as `classicCard` does (Classic, identifier `0x33`)
and holds other secrets: another key of the root domain and an application with a
data file. -/
def classicCardOther : Card ToyKey :=
  { classicCard with
    piccKey := { data := List.replicate 24 9, version := 1 }
    piccKeyVersion := 1
    app := some { id := 0xAA401F, key := { data := List.replicate 24 8, version := 2 },
                  settings := DESFireKeySettings.KS_CHANGE_KEY_FROZEN,
                  file := some (0, List.replicate 16 7) } }

/-! ## The check of the session in the passes of `ReadKeyboardInput` -/

section SessionChecks

variable {κ σ : Type}

/-- The values of `b_PasswordValid` in the passes of the loop of `ReadKeyboardInput`,
in their order: one for each character that is read. -/
def ReadKeyboardInput_loop_valid (E : Env κ σ) (u64_Now : Nat) :
    Nat → DoorOpener κ σ → List Bool
  | 0, _ => []
  | n + 1, s =>
    if SerialAvailable s then
      passwordValid u64_Now s.gu64_LastPasswd ::
        ReadKeyboardInput_loop_valid E u64_Now n (ReadKeyboardInput_pass E u64_Now s)
    else []

end SessionChecks

/-! ## Two cards at a reader that follows a script -/

theorem tail_getD (a : List Nat) (i : Nat) : a.tail.getD i 0 = a.getD (i + 1) 0 := by
  cases a <;> simp

theorem headD_getD (a : List Nat) : a.headD 0 = a.getD 0 0 := by
  cases a <;> simp

/-- `memcmp` gives `0` exactly when the first `n` bytes agree. -/
theorem memcmp_eq_zero : ∀ (n : Nat) (a b : List Nat),
    memcmp a b n = 0 ↔ ∀ i, i < n → a.getD i 0 = b.getD i 0 := by
  intro n
  induction n with
  | zero => intro a b; simp [memcmp]
  | succ n ih =>
    intro a b
    simp only [memcmp]
    by_cases h : a.headD 0 = b.headD 0
    · simp only [h, ne_eq, not_true_eq_false, if_false, ih]
      constructor
      · intro hh i hi
        cases i with
        | zero => rw [← headD_getD, ← headD_getD, h]
        | succ i => rw [← tail_getD, ← tail_getD]; exact hh i (by omega)
      · intro hh i hi
        rw [tail_getD, tail_getD]; exact hh (i + 1) (by omega)
    · simp only [ne_eq, h, not_false_eq_true, if_true]
      constructor
      · intro hh
        exfalso
        have : (a.headD 0 : Int) = (b.headD 0 : Int) := by omega
        exact h (by exact_mod_cast this)
      · intro hh
        exfalso
        apply h
        rw [headD_getD, headD_getD]
        exact hh 0 (by omega)

theorem fit_length (n : Nat) (l : List Nat) : (fit n l).length = n := by
  simp [fit]

theorem fit_of_length (n : Nat) (l : List Nat) (h : l.length = n) : fit n l = l := by
  subst h
  simp [fit]

theorem set_getD_ne (l : List Nat) (i v : Nat) (hi : i < l.length) (hv : v ≠ l.getD i 0) :
    (l.set i v).getD i 0 ≠ l.getD i 0 := by
  simp [List.getD_eq_getElem?_getD, List.getElem?_set, hi] at hv ⊢
  exact hv

/-! ## Lemmas on the registry -/

theorem readRec_in_range (db : EDB) (recno : Nat) (pk : kUser) (r : kUser)
    (h : db.recs.get? (recno - 1) = some r) (h1 : 1 ≤ recno) :
    db.readRec recno pk = (EDB_Status.EDB_OK, r) := by
  unfold EDB.readRec
  have : recno ≠ 0 := by omega
  rw [if_neg this, h]

theorem FindUser_id_loop_found (db : EDB) (id : Nat) :
    ∀ (k recno : Nat) (pk u : kUser) (s : Nat), 1 ≤ recno → recno + k = db.count + 1 →
      (FindUser_id_loop db id k recno pk = (true, u, s) ↔
        (recno ≤ s ∧ s ≤ db.count ∧ db.recs.get? (s - 1) = some u ∧ u.ID = id ∧
          ∀ t v, recno ≤ t → t < s → db.recs.get? (t - 1) = some v → v.ID ≠ id)) := by
  intro k
  induction k with
  | zero =>
    intro recno pk u s h1 hk
    simp only [FindUser_id_loop]
    constructor
    · intro h; simp at h
    · rintro ⟨h2, h3, _⟩; omega
  | succ k ih =>
    intro recno pk u s h1 hk
    have hlt : recno - 1 < db.recs.length := by unfold EDB.count at hk; omega
    obtain ⟨r, hr⟩ : ∃ r, db.recs.get? (recno - 1) = some r :=
      ⟨db.recs.get ⟨recno - 1, hlt⟩, List.get?_eq_get hlt⟩
    simp only [FindUser_id_loop, readRec_in_range db recno pk r hr h1, if_true]
    by_cases hid : r.ID = id
    · simp only [hid, if_true]
      constructor
      · intro h
        simp only [Prod.mk.injEq, true_and] at h
        obtain ⟨rfl, rfl⟩ := h
        refine ⟨le_refl _, by unfold EDB.count; omega, hr, hid, ?_⟩
        intro t v h2 h3; omega
      · rintro ⟨h2, h3, h4, h5, h6⟩
        have hs : s = recno := by
          by_contra hne
          exact h6 recno r (le_refl _) (by omega) hr hid
        subst hs
        rw [hr] at h4
        simp only [Option.some.injEq] at h4
        simp [h4]
    · simp only [hid, if_false]
      rw [ih (recno + 1) r u s (by omega) (by omega)]
      constructor
      · rintro ⟨h2, h3, h4, h5, h6⟩
        refine ⟨by omega, h3, h4, h5, ?_⟩
        intro t v h7 h8 h9
        by_cases ht : t = recno
        · subst ht; rw [hr] at h9; simp only [Option.some.injEq] at h9; subst h9; exact hid
        · exact h6 t v (by omega) h8 h9
      · rintro ⟨h2, h3, h4, h5, h6⟩
        have hs : s ≠ recno := by
          rintro rfl
          rw [hr] at h4; simp only [Option.some.injEq] at h4; subst h4; exact hid h5
        refine ⟨by omega, h3, h4, h5, ?_⟩
        intro t v h7 h8 h9
        exact h6 t v (by omega) h8 h9

theorem FindUser_id_loop_none (db : EDB) (id : Nat) :
    ∀ (k recno : Nat) (pk : kUser), 1 ≤ recno → recno + k = db.count + 1 →
      ((FindUser_id_loop db id k recno pk).1 = false ↔
        ∀ t v, recno ≤ t → db.recs.get? (t - 1) = some v → v.ID ≠ id) := by
  intro k
  induction k with
  | zero =>
    intro recno pk h1 hk
    simp only [FindUser_id_loop, true_iff]
    intro t v h2 h3
    have := List.get?_eq_some.mp h3
    obtain ⟨hlt, _⟩ := this
    unfold EDB.count at hk
    omega
  | succ k ih =>
    intro recno pk h1 hk
    have hlt : recno - 1 < db.recs.length := by unfold EDB.count at hk; omega
    obtain ⟨r, hr⟩ : ∃ r, db.recs.get? (recno - 1) = some r :=
      ⟨db.recs.get ⟨recno - 1, hlt⟩, List.get?_eq_get hlt⟩
    simp only [FindUser_id_loop, readRec_in_range db recno pk r hr h1, if_true]
    by_cases hid : r.ID = id
    · simp only [hid, if_true]
      constructor
      · intro h; simp at h
      · intro h; exact absurd hid (h recno r (le_refl _) hr)
    · simp only [hid, if_false]
      rw [ih (recno + 1) r (by omega) (by omega)]
      constructor
      · intro h t v h2 h3
        by_cases ht : t = recno
        · subst ht; rw [hr] at h3; simp only [Option.some.injEq] at h3; subst h3; exact hid
        · exact h t v (by omega) h3
      · intro h t v h2 h3
        exact h t v (by omega) h3

/-! ## Lemmas on the trace -/

section TraceLemmas

variable {κ σ : Type}

theorem pn532_trace (E : Env κ σ) (c : DesfireCmd κ) (s : DoorOpener κ σ) :
    (pn532 E c s).2.trace = s.trace ++ [Event.Reader c] := rfl

theorem Ext.ext_refl (P : Event κ → Prop) (s : DoorOpener κ σ) : Ext P s s :=
  ⟨rfl, rfl, rfl, [], by simp, by simp⟩

theorem Ext.ext_trans {P : Event κ → Prop} {s1 s2 s3 : DoorOpener κ σ} (h12 : Ext P s1 s2)
    (h23 : Ext P s2 s3) : Ext P s1 s3 := by
  obtain ⟨a1, a2, a3, t1, a4, a5⟩ := h12
  obtain ⟨b1, b2, b3, t2, b4, b5⟩ := h23
  refine ⟨b1.trans a1, b2.trans a2, b3.trans a3, t1 ++ t2, ?_, ?_⟩
  · rw [b4, a4, List.append_assoc]
  · intro e he
    rcases List.mem_append.mp he with h | h
    · exact a5 e h
    · exact b5 e h

theorem Ext.ext_emit {P : Event κ → Prop} {s s' : DoorOpener κ σ} (e : Event κ) (he : P e)
    (h : Ext P s s') : Ext P s (emit e s') :=
  h.ext_trans ⟨rfl, rfl, rfl, [e], rfl, by simpa using he⟩

theorem Ext.ext_pn532 {P : Event κ → Prop} {s s' : DoorOpener κ σ} (E : Env κ σ)
    (hP : ∀ c, P (Event.Reader c)) (c : DesfireCmd κ) (h : Ext P s s') :
    Ext P s (pn532 E c s').2 :=
  h.ext_trans ⟨rfl, rfl, rfl, [Event.Reader c], rfl, by simpa using hP c⟩

theorem Ext.ext_AuthenticatePICC {P : Event κ → Prop} {s s' : DoorOpener κ σ} (E : Env κ σ)
    (hP : ∀ c, P (Event.Reader c)) (v : Nat) (h : Ext P s s') :
    Ext P s (AuthenticatePICC E v s').2.2 := by
  unfold AuthenticatePICC
  simp only [apply_ite Prod.snd]
  split_ifs <;> with_reducible repeat (first | exact h | apply Ext.ext_pn532 E hP)

theorem Ext.ext_ReadCard {P : Event κ → Prop} {s s' : DoorOpener κ σ} (E : Env κ σ)
    (hP : ∀ c, P (Event.Reader c)) (buf : List Nat) (h : Ext P s s') :
    Ext P s (ReadCard E buf s').2.2.2 := by
  unfold ReadCard
  simp only [apply_ite Prod.snd]
  split_ifs <;>
    with_reducible repeat
      (first | exact h | apply Ext.ext_pn532 E hP | apply Ext.ext_AuthenticatePICC E hP)

theorem Ext.ext_CheckDesfireSecret {P : Event κ → Prop} {s s' : DoorOpener κ σ} (E : Env κ σ)
    (hP : ∀ c, P (Event.Reader c)) (u : kUser) (h : Ext P s s') :
    Ext P s (CheckDesfireSecret E u s').2 := by
  unfold CheckDesfireSecret
  split
  · exact h
  · simp only [apply_ite Prod.snd]
    split_ifs <;> with_reducible repeat (first | exact h | apply Ext.ext_pn532 E hP)

theorem Quiet.refl (E : Env κ σ) (s : DoorOpener κ σ) : Quiet E s s :=
  Ext.ext_refl _ s

theorem Quiet.trans {E : Env κ σ} {s1 s2 s3 : DoorOpener κ σ} (h12 : Quiet E s1 s2)
    (h23 : Quiet E s2 s3) : Quiet E s1 s3 :=
  Ext.ext_trans h12 h23

theorem Quiet.step_emit {E : Env κ σ} {s s' : DoorOpener κ σ} (e : Event κ)
    (he : doorActive E e = false) (h : Quiet E s s') : Quiet E s (emit e s') :=
  Ext.ext_emit e he h

theorem Quiet.pn532 {E : Env κ σ} {s s' : DoorOpener κ σ} (c : DesfireCmd κ)
    (h : Quiet E s s') : Quiet E s (DoorGuard.pn532 E c s').2 :=
  @Ext.ext_pn532 κ σ (fun e => doorActive E e = false) s s' E (fun _ => rfl) c h

theorem Quiet.Print {E : Env κ σ} {s s' : DoorOpener κ σ} (text : String)
    (h : Quiet E s s') : Quiet E s (DoorGuard.Print text s') :=
  h.step_emit _ rfl

theorem Quiet.DelayMilli {E : Env κ σ} {s s' : DoorOpener κ σ} (ms : Nat)
    (h : Quiet E s s') : Quiet E s (DoorGuard.DelayMilli ms s') :=
  h.trans ⟨rfl, rfl, rfl, [Event.DelayMilli ms], rfl, by simp [doorActive]⟩

theorem doorActive_led (E : Env κ σ) (h1 : E.LED_BUILTIN ≠ E.D1) (h2 : E.LED_BUILTIN ≠ E.D2)
    (level : PinLevel) : doorActive E (Event.WritePin E.LED_BUILTIN level) = false := by
  simp [doorActive, h1, h2]

theorem Quiet.SetLED {E : Env κ σ} {s s' : DoorOpener κ σ} (h1 : E.LED_BUILTIN ≠ E.D1)
    (h2 : E.LED_BUILTIN ≠ E.D2) (e_LED : eLED) (h : Quiet E s s') :
    Quiet E s (DoorGuard.SetLED E e_LED s') := by
  cases e_LED <;> simp only [DoorGuard.SetLED, WritePin] <;>
    first
      | exact (h.step_emit _ (doorActive_led E h1 h2 _)).step_emit _ (doorActive_led E h1 h2 _)
      | exact h.step_emit _ (doorActive_led E h1 h2 _)

theorem Quiet.FlashLED {E : Env κ σ} {s s' : DoorOpener κ σ} (h1 : E.LED_BUILTIN ≠ E.D1)
    (h2 : E.LED_BUILTIN ≠ E.D2) (e_LED : eLED) (ms : Nat) (h : Quiet E s s') :
    Quiet E s (DoorGuard.FlashLED E e_LED ms s') := by
  unfold DoorGuard.FlashLED
  exact ((h.SetLED h1 h2 e_LED).DelayMilli ms).SetLED h1 h2 _

theorem Quiet.IsDesfireTimeout {E : Env κ σ} {s s' : DoorOpener κ σ} (h1 : E.LED_BUILTIN ≠ E.D1)
    (h2 : E.LED_BUILTIN ≠ E.D2) (h : Quiet E s s') :
    Quiet E s (DoorGuard.IsDesfireTimeout E s').2 := by
  unfold DoorGuard.IsDesfireTimeout
  dsimp only
  split
  · exact ((h.pn532 _).Print _).FlashLED h1 h2 _ _
  · exact h.pn532 _

theorem Quiet.CheckDesfireSecret {E : Env κ σ} {s s' : DoorOpener κ σ} (u : kUser)
    (h : Quiet E s s') : Quiet E s (DoorGuard.CheckDesfireSecret E u s').2 :=
  @Ext.ext_CheckDesfireSecret κ σ (fun e => doorActive E e = false) s s' E (fun _ => rfl) u h

theorem Quiet.ReadCard {E : Env κ σ} {s s' : DoorOpener κ σ} (buf : List Nat)
    (h : Quiet E s s') : Quiet E s (DoorGuard.ReadCard E buf s').2.2.2 :=
  @Ext.ext_ReadCard κ σ (fun e => doorActive E e = false) s s' E (fun _ => rfl) buf h

theorem Quiet.actuations {E : Env κ σ} {s s' : DoorOpener κ σ} (h : Quiet E s s') :
    actuations E s'.trace = actuations E s.trace := by
  obtain ⟨_, _, _, t, a4, a5⟩ := h
  unfold DoorGuard.actuations
  rw [a4, List.countP_append]
  have : List.countP (doorActive E) t = 0 := by
    rw [List.countP_eq_zero]
    intro e he
    simp [a5 e he]
  omega

/-- What a quiet step means for the pins: the latch is unchanged and no event that
was added writes the active level to `D1` or to `D2`. -/
theorem Quiet.pins {E : Env κ σ} {s s' : DoorOpener κ σ} (h : Quiet E s s') :
    s'.gu64_LastID = s.gu64_LastID ∧
    ∃ t, s'.trace = s.trace ++ t ∧
      ∀ pin level, Event.WritePin pin level ∈ t → (pin = E.D1 ∨ pin = E.D2) →
        level ≠ RELAIS_ON := by
  obtain ⟨a1, _, _, t, a4, a5⟩ := h
  refine ⟨a1, t, a4, ?_⟩
  intro pin level hmem hpin hlev
  have := a5 _ hmem
  rcases hpin with h | h <;> simp [doorActive, h, hlev] at this

end TraceLemmas

/-! ## Lemmas on `OpenDoor` and `loop` -/

section LoopLemmas

variable {κ σ : Type}

theorem OpenDoor_grant_trace (E : Env κ σ) (id : Nat) (c : kCard) (u : kUser) (s : DoorOpener κ σ) :
    (OpenDoor_grant E id c u s).trace = s.trace ++
      [Event.Print (doorText u.u8_Flags), Event.PrintBuf (cstr u.s8_Name),
       Event.Print (cardText c.e_CardType), Event.WritePin E.D1 RELAIS_ON,
       Event.DelayMilli OPEN_INTERVAL, Event.WritePin E.D1 RELAIS_OFF] := by
  simp [OpenDoor_grant, ActivateRelais, WritePin, DelayMilli, Print, emit]

theorem OpenDoor_grant_actuations (E : Env κ σ) (id : Nat) (c : kCard) (u : kUser)
    (s : DoorOpener κ σ) :
    actuations E (OpenDoor_grant E id c u s).trace = actuations E s.trace + 1 := by
  rw [OpenDoor_grant_trace]
  simp [actuations, List.countP_append, List.countP_cons, doorActive, RELAIS_ON, RELAIS_OFF,
    OPEN_INVERT]

/-- What `OpenDoor` does: either access is denied and the call is quiet, or some
reader calls are made and then access is granted. -/
theorem OpenDoor_cases (E : Env κ σ) (id : Nat) (c : kCard) (tick : Nat) (s : DoorOpener κ σ)
    (hled1 : E.LED_BUILTIN ≠ E.D1) (hled2 : E.LED_BUILTIN ≠ E.D2) :
    Quiet E s (OpenDoor E id c tick s) ∨
      ∃ u s1, Quiet E s s1 ∧ OpenDoor E id c tick s = OpenDoor_grant E id c u s1 := by
  unfold OpenDoor
  dsimp only
  split_ifs
  · exact Or.inl ((((Quiet.refl E s).Print _).step_emit _ (by rfl)).FlashLED hled1 hled2 _ _)
  · exact Or.inl (((Quiet.refl E s).Print _).FlashLED hled1 hled2 _ _)
  · exact Or.inr ⟨_, s, Quiet.refl E s, rfl⟩
  · exact Or.inl (((Quiet.refl E s).Print _).FlashLED hled1 hled2 _ _)
  · exact Or.inr ⟨_, s, Quiet.refl E s, rfl⟩
  · exact Or.inl (((Quiet.refl E s).CheckDesfireSecret _).IsDesfireTimeout hled1 hled2)
  · exact Or.inl (((((Quiet.refl E s).CheckDesfireSecret _).IsDesfireTimeout hled1 hled2).Print
      _).FlashLED hled1 hled2 _ _)
  · exact Or.inr ⟨_, _, (Quiet.refl E s).CheckDesfireSecret _, rfl⟩

/-- A poll that observes the id in the latch: only the card is read and the field is
switched off. -/
theorem loop_poll_same (E : Env κ σ) (tick X : Nat) (s : DoorOpener κ σ)
    (hobs : observes E s X) (hlatch : s.gu64_LastID = X) :
    loop_poll E tick s =
      (pn532 E DesfireCmd.SwitchOffRfField (ReadCard E (List.replicate 8 0) s).2.2.2).2 := by
  obtain ⟨h1, h2, h3, h4⟩ := hobs
  have hq := (Quiet.refl E s).ReadCard (List.replicate 8 0)
  have hl : (ReadCard E (List.replicate 8 0) s).2.2.2.gu64_LastID = X := hq.1.trans hlatch
  unfold loop_poll
  simp only [h1, h2, h3, h4, hl, Bool.not_true, if_false, if_true, Bool.false_eq_true]

/-- A poll that observes an id that is not in the latch calls `OpenDoor`. -/
theorem loop_poll_new (E : Env κ σ) (tick X : Nat) (s : DoorOpener κ σ)
    (hobs : observes E s X) (hlatch : s.gu64_LastID ≠ X) :
    loop_poll E tick s =
      (pn532 E DesfireCmd.SwitchOffRfField
        (Print "> " (OpenDoor E X (ReadCard E (List.replicate 8 0) s).2.2.1 tick
          (ReadCard E (List.replicate 8 0) s).2.2.2))).2 := by
  obtain ⟨h1, h2, h3, h4⟩ := hobs
  have hq := (Quiet.refl E s).ReadCard (List.replicate 8 0)
  have hl : (ReadCard E (List.replicate 8 0) s).2.2.2.gu64_LastID ≠ X := by
    rw [hq.1]; exact hlatch
  unfold loop_poll
  simp only [h1, h2, h3, h4, hl, Bool.not_true, if_false, if_true, Bool.false_eq_true]

/-- One poll that observes `X`: either the latch stays and nothing is actuated, or the
latch was not `X`, the door is actuated once and the latch becomes `X`. -/
theorem loop_poll_step (E : Env κ σ) (tick X : Nat) (s : DoorOpener κ σ)
    (hled1 : E.LED_BUILTIN ≠ E.D1) (hled2 : E.LED_BUILTIN ≠ E.D2) (hobs : observes E s X) :
    ((loop_poll E tick s).gu64_LastID = s.gu64_LastID ∧
        actuations E (loop_poll E tick s).trace = actuations E s.trace) ∨
      (s.gu64_LastID ≠ X ∧ (loop_poll E tick s).gu64_LastID = X ∧
        actuations E (loop_poll E tick s).trace = actuations E s.trace + 1) := by
  have hq := (Quiet.refl E s).ReadCard (List.replicate 8 0)
  by_cases hlatch : s.gu64_LastID = X
  · left
    rw [loop_poll_same E tick X s hobs hlatch]
    have := hq.pn532 DesfireCmd.SwitchOffRfField
    exact ⟨this.1, this.actuations⟩
  · rw [loop_poll_new E tick X s hobs hlatch]
    rcases OpenDoor_cases E X (ReadCard E (List.replicate 8 0) s).2.2.1 tick
      (ReadCard E (List.replicate 8 0) s).2.2.2 hled1 hled2 with hd | ⟨u, s1, hq1, hg⟩
    · left
      have := ((hq.trans hd).Print "> ").pn532 DesfireCmd.SwitchOffRfField
      exact ⟨this.1, this.actuations⟩
    · right
      rw [hg]
      have h2 := ((Quiet.refl E (OpenDoor_grant E X (ReadCard E (List.replicate 8 0) s).2.2.1 u
        s1)).Print "> ").pn532 DesfireCmd.SwitchOffRfField
      refine ⟨hlatch, ?_, ?_⟩
      · rw [h2.1]; rfl
      · rw [h2.actuations, OpenDoor_grant_actuations, (hq.trans hq1).actuations]

end LoopLemmas

/-! ## Lemmas on the derivation of the secrets -/

theorem range64 : List.range 64 = [0,1,2,3,4,5,6,7,8,9,10,11,12,13,14,15,16,17,18,19,20,21,22,23,
    24,25,26,27,28,29,30,31,32,33,34,35,36,37,38,39,40,41,42,43,44,45,46,47,48,49,50,51,52,53,54,
    55,56,57,58,59,60,61,62,63] := by decide

theorem range24 : List.range 24 = [0,1,2,3,4,5,6,7,8,9,10,11,12,13,14,15,16,17,18,19,20,21,22,
    23] := by decide

theorem range7 : List.range 7 = [0,1,2,3,4,5,6] := by decide

set_option maxRecDepth 100000 in
set_option maxHeartbeats 4000000 in
/-- The buffer `u8_Data` in closed form: the loop of the source, run for the 64 bytes of
the name buffer. -/
theorem u8_Data_eq (u : Nat) (b : List Nat) (f : Nat) :
    u8_Data { ID := u, s8_Name := b, u8_Flags := f } =
      (List.range 24).map (fun j =>
        (if j < 7 then ID_u8 u j else 0) ^^^
          (if j < 16 then
            b.getD j 0 ^^^ b.getD (j + 16) 0 ^^^ b.getD (j + 32) 0 ^^^ b.getD (j + 48) 0
           else 0)) := by
  have z24 : List.replicate 24 0 = [0,0,0,0,0,0,0,0,0,0,0,0,0,0,0,0,0,0,0,0,0,0,0,0] := by decide
  unfold u8_Data
  simp only [NAME_BUF_SIZE, range64, range7, range24, z24, overwrite, List.map, List.length_cons,
    List.length_nil, List.take, List.drop, List.cons_append, List.nil_append, List.foldl_cons,
    List.foldl_nil, xorStep, List.getD_cons_zero, List.getD_cons_succ, List.set_cons_zero,
    List.set_cons_succ]
  simp [Nat.xor_assoc]

section SecretLemmas

variable {κ σ : Type}

/-- What a successful call of `GenerateDesfireSecrets` has computed. -/
theorem GenerateDesfireSecrets_some (E : Env κ σ) (u : kUser) (k key : κ)
    (sv : List Nat) (h : GenerateDesfireSecrets E u k = some (key, sv)) :
    (E.des.SetKeyData E.SECRET_APPLICATION_KEY 0 E.des.new).1 = true ∧
    ∃ out1 out2,
      (E.des.CryptDataCBC (u8_Data u)
        (E.des.SetKeyData E.SECRET_APPLICATION_KEY 0 E.des.new).2).1 = some out1 ∧
      (E.des.SetKeyData E.SECRET_STORE_VALUE_KEY 0
        (E.des.CryptDataCBC (u8_Data u)
          (E.des.SetKeyData E.SECRET_APPLICATION_KEY 0 E.des.new).2).2).1 = true ∧
      (E.des.CryptDataCBC ((u8_Data u).take 16)
        (E.des.SetKeyData E.SECRET_STORE_VALUE_KEY 0
          (E.des.CryptDataCBC (u8_Data u)
            (E.des.SetKeyData E.SECRET_APPLICATION_KEY 0 E.des.new).2).2).2).1 = some out2 ∧
      (E.des.SetKeyData (fit 24 out1) E.CARD_KEY_VERSION k).1 = true ∧
      key = (E.des.SetKeyData (fit 24 out1) E.CARD_KEY_VERSION k).2 ∧
      sv = fit 16 out2 := by
  unfold GenerateDesfireSecrets at h
  dsimp only at h
  by_cases h1 : (E.des.SetKeyData E.SECRET_APPLICATION_KEY 0 E.des.new).1 = true
  swap
  · simp [h1] at h
  simp only [h1, Bool.not_true, Bool.false_eq_true, if_false] at h
  refine ⟨h1, ?_⟩
  cases h2 : (E.des.CryptDataCBC (u8_Data u)
      (E.des.SetKeyData E.SECRET_APPLICATION_KEY 0 E.des.new).2).1 with
  | none => simp [h2] at h
  | some out1 =>
    simp only [h2] at h
    by_cases h3 : (E.des.SetKeyData E.SECRET_STORE_VALUE_KEY 0
        (E.des.CryptDataCBC (u8_Data u)
          (E.des.SetKeyData E.SECRET_APPLICATION_KEY 0 E.des.new).2).2).1 = true
    swap
    · simp [h3] at h
    simp only [h3, Bool.not_true, Bool.false_eq_true, if_false] at h
    cases h4 : (E.des.CryptDataCBC ((u8_Data u).take 16)
        (E.des.SetKeyData E.SECRET_STORE_VALUE_KEY 0
          (E.des.CryptDataCBC (u8_Data u)
            (E.des.SetKeyData E.SECRET_APPLICATION_KEY 0 E.des.new).2).2).2).1 with
    | none => simp [h4] at h
    | some out2 =>
      simp only [h4] at h
      by_cases h5 : (E.des.SetKeyData (fit 24 out1) E.CARD_KEY_VERSION k).1 = true
      swap
      · simp [h5] at h
      simp only [h5, Bool.not_true, Bool.false_eq_true, if_false, Option.some.injEq,
        Prod.mk.injEq] at h
      exact ⟨out1, out2, rfl, h3, rfl, h5, h.1.symm, h.2.symm⟩

/-- When the five calls on the cipher succeed, `GenerateDesfireSecrets` returns true
with the key object and the store value that they have made. -/
theorem GenerateDesfireSecrets_of_steps (E : Env κ σ) (u : kUser) (k : κ) (out1 out2 : List Nat)
    (h1 : (E.des.SetKeyData E.SECRET_APPLICATION_KEY 0 E.des.new).1 = true)
    (h2 : (E.des.CryptDataCBC (u8_Data u)
      (E.des.SetKeyData E.SECRET_APPLICATION_KEY 0 E.des.new).2).1 = some out1)
    (h3 : (E.des.SetKeyData E.SECRET_STORE_VALUE_KEY 0
      (E.des.CryptDataCBC (u8_Data u)
        (E.des.SetKeyData E.SECRET_APPLICATION_KEY 0 E.des.new).2).2).1 = true)
    (h4 : (E.des.CryptDataCBC ((u8_Data u).take 16)
      (E.des.SetKeyData E.SECRET_STORE_VALUE_KEY 0
        (E.des.CryptDataCBC (u8_Data u)
          (E.des.SetKeyData E.SECRET_APPLICATION_KEY 0 E.des.new).2).2).2).1 = some out2)
    (h5 : (E.des.SetKeyData (fit 24 out1) E.CARD_KEY_VERSION k).1 = true) :
    GenerateDesfireSecrets E u k =
      some ((E.des.SetKeyData (fit 24 out1) E.CARD_KEY_VERSION k).2, fit 16 out2) := by
  unfold GenerateDesfireSecrets
  simp only [h1, h2, h3, h4, h5, Bool.not_true, Bool.false_eq_true, if_false]

theorem GenerateDesfireSecrets_sv_length (E : Env κ σ) (u : kUser) (k key : κ)
    (sv : List Nat) (h : GenerateDesfireSecrets E u k = some (key, sv)) : sv.length = 16 := by
  obtain ⟨_, out1, out2, _, _, _, _, _, hsv⟩ := GenerateDesfireSecrets_some E u k key sv h
  rw [hsv]
  exact fit_length 16 _

theorem StoreDesfireSecret_ok (E : Env κ σ) (u : kUser) (s : DoorOpener κ σ)
    (h : (StoreDesfireSecret E u s).1 = true) :
    E.CARD_APPLICATION_ID ≠ 0 ∧ E.CARD_KEY_VERSION ≠ 0 ∧
      ∃ key sv, GenerateDesfireSecrets E u E.des.new = some (key, sv) := by
  unfold StoreDesfireSecret at h
  by_cases hguard : E.CARD_APPLICATION_ID = 0 ∨ E.CARD_KEY_VERSION = 0
  · simp [hguard] at h
  · cases hg : GenerateDesfireSecrets E u E.des.new with
    | none => simp [hguard, hg] at h
    | some p => exact ⟨fun h0 => hguard (Or.inl h0), fun h0 => hguard (Or.inr h0), p.1, p.2, rfl⟩

end SecretLemmas

/-! ## Lemmas on the model card -/

section ModelLemmas

variable {κ : Type} [DecidableEq κ]

/-- The card after `ChangePiccMasterKey` on a factory-fresh card. -/
theorem ChangePiccMasterKey_factory (E : Env κ (Card κ)) (d2 d3 : κ) (uid : List Nat)
    (s : DoorOpener κ (Card κ)) (hR : E.PN532 = modelReader E.des d2 d3)
    (hcard : s.gi_PN532 = factoryCard uid d2) (hv : E.CARD_KEY_VERSION ≠ 0) :
    (ChangePiccMasterKey E s).1 = true ∧
    (ChangePiccMasterKey E s).2.gi_PN532 =
      { factoryCard uid d2 with piccKey := s.gi_PiccMasterKey,
                                piccKeyVersion := E.des.GetKeyVersion s.gi_PiccMasterKey,
                                authenticated := true } := by
  have hv' : ¬ (0 = E.CARD_KEY_VERSION) := fun h => hv h.symm
  simp [ChangePiccMasterKey, AuthenticatePICC, pn532, hR, modelReader, hcard, factoryCard,
    Card.exec, Card.desfire, reply, hv, hv']

/-- The card after `StoreDesfireSecret` on a card that has no application and on
which the root domain is selected. -/
theorem StoreDesfireSecret_model (E : Env κ (Card κ)) (d2 d3 : κ) (u : kUser)
    (s : DoorOpener κ (Card κ)) (c : Card κ) (key : κ) (sv : List Nat)
    (hR : E.PN532 = modelReader E.des d2 d3) (hcard : s.gi_PN532 = c)
    (hp : c.present = true) (hk : c.kind = eCardType.CARD_Desfire) (happ : c.app = none)
    (hsel : c.selected = 0)
    (ha : E.CARD_APPLICATION_ID ≠ 0) (hv : E.CARD_KEY_VERSION ≠ 0)
    (hg : GenerateDesfireSecrets E u E.des.new = some (key, sv)) :
    (StoreDesfireSecret E u s).1 = true ∧
    (StoreDesfireSecret E u s).2.gi_PN532 =
      { c with app := some { id := E.CARD_APPLICATION_ID, key := key,
                             settings := DESFireKeySettings.KS_CHANGE_KEY_FROZEN,
                             file := some (E.CARD_FILE_ID, sv) },
               selected := E.CARD_APPLICATION_ID, authenticated := true } := by
  have hlen := GenerateDesfireSecrets_sv_length E u E.des.new key sv hg
  subst hcard
  simp [StoreDesfireSecret, hg, pn532, hR, modelReader, Card.exec, Card.desfire,
    Card.selectedApp, reply, hp, hk, happ, hsel, ha, hv, fit_of_length 16 sv hlen]

/-- `CheckDesfireSecret` on a personalized card that holds the application with the
derived key and a data file of 16 bytes: the result is the comparison of the file
with the derived value. -/
theorem CheckDesfireSecret_model (E : Env κ (Card κ)) (d2 d3 : κ) (u : kUser)
    (s : DoorOpener κ (Card κ)) (c : Card κ) (key : κ) (sv data : List Nat)
    (st : DESFireKeySettings)
    (hR : E.PN532 = modelReader E.des d2 d3) (hcard : s.gi_PN532 = c)
    (hp : c.present = true) (hk : c.kind = eCardType.CARD_Desfire)
    (happ : c.app = some { id := E.CARD_APPLICATION_ID, key := key, settings := st,
                           file := some (E.CARD_FILE_ID, data) })
    (hver : c.piccKeyVersion = E.CARD_KEY_VERSION) (hbyte : E.CARD_KEY_VERSION < 256)
    (ha : E.CARD_APPLICATION_ID ≠ 0) (hlen : data.length = 16)
    (hg : GenerateDesfireSecrets E u E.des.new = some (key, sv)) :
    ((CheckDesfireSecret E u s).1 = true ↔ ∀ i, i < 16 → data.getD i 0 = sv.getD i 0) := by
  subst hcard
  have hmod : E.CARD_KEY_VERSION % 256 = E.CARD_KEY_VERSION := Nat.mod_eq_of_lt hbyte
  have htake : List.take 16 data = data := List.take_of_length_le (by omega)
  rw [← memcmp_eq_zero]
  by_cases hm : memcmp data sv 16 = 0 <;>
    simp [CheckDesfireSecret, hg, pn532, hR, modelReader, Card.exec, Card.desfire,
      Card.selectedApp, reply, hp, hk, happ, hver, hmod, ha, hlen, htake,
      fit_of_length 16 data hlen, hm]

end ModelLemmas

/-! ## Properties of the specification -/

section Properties

variable {κ σ : Type}

/-- C1 is not met by the code: `ActivateRelais` does not read its argument. For the
door flags `DOOR_TWO` and for `NO_DOOR` it switches the relay on the pin `D1` (door 1)
on, waits `OPEN_INTERVAL` and switches it off; the write to `D1` is an actuation of a
door output, and no write to `D2` is made. On the concrete configuration, `OpenDoor`
for the registered user "Eve", whose flags are door 2 only, announces door 2 and
pulses pin 5 (`D1`), never pin 4 (`D2`). -/
theorem ActivateRelais_ignores_flags (E : Env κ σ) (s : DoorOpener κ σ) :
    (ActivateRelais E DOOR_TWO s).trace =
      s.trace ++ [Event.WritePin E.D1 RELAIS_ON, Event.DelayMilli OPEN_INTERVAL,
        Event.WritePin E.D1 RELAIS_OFF] ∧
    (ActivateRelais E NO_DOOR s).trace =
      s.trace ++ [Event.WritePin E.D1 RELAIS_ON, Event.DelayMilli OPEN_INTERVAL,
        Event.WritePin E.D1 RELAIS_OFF] ∧
    doorActive E (Event.WritePin E.D1 RELAIS_ON) = true ∧
    (OpenDoor toyEnv 0x33 classicSeen 0 (toyState classicCard [userEve])).trace =
      [Event.Print "Opening door 2 for ", Event.PrintBuf [69, 118, 101],
       Event.Print " (Classic card)", Event.WritePin 5 PinLevel.LOW, Event.DelayMilli 3000,
       Event.WritePin 5 PinLevel.HIGH] := by
  refine ⟨?_, ?_, ?_, ?_⟩
  · simp [ActivateRelais, WritePin, DelayMilli, emit]
  · simp [ActivateRelais, WritePin, DelayMilli, emit]
  · simp [doorActive]
  · decide

/-- C2: when `FindUser` does not find the id, `OpenDoor` leaves the latch as it is and
writes the active level neither to `D1` nor to `D2`, whatever the card kind and the key
version are. The LED pin is a pin of its own. -/
theorem OpenDoor_unknown_id (E : Env κ σ) (s : DoorOpener κ σ) (u64_ID : Nat) (pk_Card : kCard)
    (u64_StartTick : Nat) (hled1 : E.LED_BUILTIN ≠ E.D1) (hled2 : E.LED_BUILTIN ≠ E.D2)
    (hnf : (FindUser s.db u64_ID kUser.zero).1 = false) :
    (OpenDoor E u64_ID pk_Card u64_StartTick s).gu64_LastID = s.gu64_LastID ∧
    ∃ t, (OpenDoor E u64_ID pk_Card u64_StartTick s).trace = s.trace ++ t ∧
      ∀ pin level, Event.WritePin pin level ∈ t →
        (pin = E.D1 ∨ pin = E.D2) → level ≠ RELAIS_ON := by
  have hq : Quiet E s (OpenDoor E u64_ID pk_Card u64_StartTick s) := by
    unfold OpenDoor
    simp only [hnf, Bool.not_false, if_true]
    exact (((Quiet.refl E s).Print _).step_emit _ (by rfl)).FlashLED hled1 hled2 _ _
  exact hq.pins

/-- C2 on the concrete configuration: the card `0x33` with an empty table. -/
theorem OpenDoor_unknown_id_witness :
    toyEnv.LED_BUILTIN ≠ toyEnv.D1 ∧ toyEnv.LED_BUILTIN ≠ toyEnv.D2 ∧
    (FindUser (toyState classicCard []).db 0x33 kUser.zero).1 = false ∧
    (OpenDoor toyEnv 0x33 classicSeen 0 (toyState classicCard [])).gu64_LastID = 0 :=
  ⟨by decide, by decide, by decide,
    (OpenDoor_unknown_id toyEnv (toyState classicCard []) 0x33 classicSeen 0
      (by decide) (by decide) (by decide)).1⟩

/-- C3: for a registered user and a Desfire card that is not in random-id mode, when
`CheckDesfireSecret` on the record of the user returns false, `OpenDoor` leaves the
latch as it is and writes the active level neither to `D1` nor to `D2`. -/
theorem OpenDoor_secret_fails (E : Env κ σ) (s : DoorOpener κ σ) (u64_ID : Nat) (pk_Card : kCard)
    (u64_StartTick : Nat) (k_User : kUser)
    (hled1 : E.LED_BUILTIN ≠ E.D1) (hled2 : E.LED_BUILTIN ≠ E.D2)
    (hfound : FindUser s.db u64_ID kUser.zero = (true, k_User))
    (hkind : pk_Card.e_CardType = eCardType.CARD_Desfire)
    (hfail : (CheckDesfireSecret E k_User s).1 = false) :
    (OpenDoor E u64_ID pk_Card u64_StartTick s).gu64_LastID = s.gu64_LastID ∧
    ∃ t, (OpenDoor E u64_ID pk_Card u64_StartTick s).trace = s.trace ++ t ∧
      ∀ pin level, Event.WritePin pin level ∈ t →
        (pin = E.D1 ∨ pin = E.D2) → level ≠ RELAIS_ON := by
  have hq : Quiet E s (OpenDoor E u64_ID pk_Card u64_StartTick s) := by
    unfold OpenDoor
    simp only [hfound, hkind, eCardType.val, hfail, Bool.not_true, Bool.not_false, if_true,
      Bool.false_eq_true, if_false, Nat.and_self, Nat.one_ne_zero, eCardType.noConfusion]
    simp only [reduceCtorEq, if_false]
    split
    · exact ((Quiet.refl E s).CheckDesfireSecret _).IsDesfireTimeout hled1 hled2
    · exact (((((Quiet.refl E s).CheckDesfireSecret _).IsDesfireTimeout hled1 hled2).Print
        _).FlashLED hled1 hled2 _ _)
  exact hq.pins

/-- C3 on the concrete configuration: "Ann" is registered and presents a card that
has not been personalized. -/
theorem OpenDoor_secret_fails_witness :
    FindUser (toyState cardAnn [userAnn]).db 0x11 kUser.zero = (true, userAnn) ∧
    (CheckDesfireSecret toyEnv userAnn (toyState cardAnn [userAnn])).1 = false ∧
    (OpenDoor toyEnv 0x11 desfireSeen 0 (toyState cardAnn [userAnn])).gu64_LastID = 0 :=
  ⟨by decide, by decide,
    (OpenDoor_secret_fails toyEnv (toyState cardAnn [userAnn]) 0x11 desfireSeen 0 userAnn
      (by decide) (by decide) (by decide) rfl (by decide)).1⟩

/-- C5 as stated fails: with an empty table, two polls one after the other observe
the Classic card `0x33`; the first attempt is denied, the latch stays `0`, and the
second poll makes an open-attempt again (the message of `OpenDoor` for an unknown
id is in the trace once after the first poll and twice after the second). -/
theorem denied_attempt_is_repeated :
    observes toyEnv (toyState classicCard []) 0x33 ∧
    observes toyEnv (loop_poll toyEnv 1000 (toyState classicCard [])) 0x33 ∧
    (loop_poll toyEnv 1000 (toyState classicCard [])).gu64_LastID = 0 ∧
    (loop_poll toyEnv 1000 (toyState classicCard [])).trace.count unknownPerson = 1 ∧
    (loop_poll toyEnv 2300 (loop_poll toyEnv 1000 (toyState classicCard []))).trace.count
      unknownPerson = 2 := by
  refine ⟨?_, ?_, ?_, ?_, ?_⟩ <;> decide

/-- C5 as amended: a poll that observes the id `X` makes an open-attempt (it calls
`OpenDoor`) exactly when the latch is not `X`. An open-attempt either is denied, and
then the latch and the number of actuations stay as they are, so that the next poll
that observes `X` makes an open-attempt again; or it is granted, and then a door
output is driven active once and the latch becomes `X`, so that later polls that
observe `X` make no open-attempt. -/
theorem open_attempt_iff_latch_differs (E : Env κ σ) (X tick : Nat) (s : DoorOpener κ σ)
    (hled1 : E.LED_BUILTIN ≠ E.D1) (hled2 : E.LED_BUILTIN ≠ E.D2) (hobs : observes E s X) :
    (s.gu64_LastID = X →
      loop_poll E tick s =
        (pn532 E DesfireCmd.SwitchOffRfField (ReadCard E (List.replicate 8 0) s).2.2.2).2) ∧
    (s.gu64_LastID ≠ X →
      loop_poll E tick s =
        (pn532 E DesfireCmd.SwitchOffRfField
          (Print "> " (OpenDoor E X (ReadCard E (List.replicate 8 0) s).2.2.1 tick
            (ReadCard E (List.replicate 8 0) s).2.2.2))).2) ∧
    (∀ (c : kCard) (s' : DoorOpener κ σ),
      ((OpenDoor E X c tick s').gu64_LastID = s'.gu64_LastID ∧
        actuations E (OpenDoor E X c tick s').trace = actuations E s'.trace) ∨
      ((OpenDoor E X c tick s').gu64_LastID = X ∧
        actuations E (OpenDoor E X c tick s').trace = actuations E s'.trace + 1)) ∧
    (((loop_poll E tick s).gu64_LastID = s.gu64_LastID ∧
        actuations E (loop_poll E tick s).trace = actuations E s.trace) ∨
      (s.gu64_LastID ≠ X ∧ (loop_poll E tick s).gu64_LastID = X ∧
        actuations E (loop_poll E tick s).trace = actuations E s.trace + 1)) := by
  refine ⟨loop_poll_same E tick X s hobs, loop_poll_new E tick X s hobs, ?_,
    loop_poll_step E tick X s hled1 hled2 hobs⟩
  intro c s'
  rcases OpenDoor_cases E X c tick s' hled1 hled2 with hd | ⟨u, s1, hq1, hg⟩
  · exact Or.inl ⟨hd.1, hd.actuations⟩
  · right
    rw [hg]
    exact ⟨rfl, by rw [OpenDoor_grant_actuations, hq1.actuations]⟩

/-- C5 as amended, on the concrete configuration: the poll after a denied attempt
calls `OpenDoor` again. -/
theorem open_attempt_iff_latch_differs_witness :
    observes toyEnv (loop_poll toyEnv 1000 (toyState classicCard [])) 0x33 ∧
    (loop_poll toyEnv 1000 (toyState classicCard [])).gu64_LastID ≠ 0x33 ∧
    loop_poll toyEnv 2300 (loop_poll toyEnv 1000 (toyState classicCard [])) =
      (pn532 toyEnv DesfireCmd.SwitchOffRfField
        (Print "> " (OpenDoor toyEnv 0x33
          (ReadCard toyEnv (List.replicate 8 0)
            (loop_poll toyEnv 1000 (toyState classicCard []))).2.2.1 2300
          (ReadCard toyEnv (List.replicate 8 0)
            (loop_poll toyEnv 1000 (toyState classicCard []))).2.2.2))).2 :=
  ⟨by decide, by decide,
    (open_attempt_iff_latch_differs toyEnv 0x33 2300
      (loop_poll toyEnv 1000 (toyState classicCard [])) (by decide) (by decide)
      (by decide)).2.1 (by decide)⟩

end Properties

section CardProperties

variable {κ : Type} [DecidableEq κ]

/-- C6: round trip on the model card. When `ChangePiccMasterKey` and then
`StoreDesfireSecret` return true on a factory-fresh Desfire card, `CheckDesfireSecret`
with the same record returns true afterwards; the data file on the card has 16 bytes;
and when one of these bytes is replaced by another value, `CheckDesfireSecret` with the
same record returns false. The master key object of the device carries the key version
`CARD_KEY_VERSION`, which is a byte. -/
theorem Provision_CheckSecret_round_trip (E : Env κ (Card κ)) (d2 d3 : κ) (uid : List Nat)
    (pk_User : kUser) (s : DoorOpener κ (Card κ))
    (hR : E.PN532 = modelReader E.des d2 d3)
    (hcard : s.gi_PN532 = factoryCard uid d2)
    (hver : E.des.GetKeyVersion s.gi_PiccMasterKey = E.CARD_KEY_VERSION)
    (hbyte : E.CARD_KEY_VERSION < 256)
    (_h1 : (ChangePiccMasterKey E s).1 = true)
    (h2 : (StoreDesfireSecret E pk_User (ChangePiccMasterKey E s).2).1 = true) :
    (CheckDesfireSecret E pk_User
        (StoreDesfireSecret E pk_User (ChangePiccMasterKey E s).2).2).1 = true ∧
    (StoreDesfireSecret E pk_User (ChangePiccMasterKey E s).2).2.gi_PN532.fileData.length = 16 ∧
    ∀ i v, i < 16 →
      v ≠ (StoreDesfireSecret E pk_User
            (ChangePiccMasterKey E s).2).2.gi_PN532.fileData.getD i 0 →
      (CheckDesfireSecret E pk_User
        { (StoreDesfireSecret E pk_User (ChangePiccMasterKey E s).2).2 with
          gi_PN532 := (StoreDesfireSecret E pk_User
            (ChangePiccMasterKey E s).2).2.gi_PN532.setFileByte i v }).1 = false := by
  obtain ⟨ha, hv, key, sv, hg⟩ := StoreDesfireSecret_ok E pk_User _ h2
  have hlen := GenerateDesfireSecrets_sv_length E pk_User E.des.new key sv hg
  obtain ⟨-, hc1⟩ := ChangePiccMasterKey_factory E d2 d3 uid s hR hcard hv
  obtain ⟨-, hc2⟩ := StoreDesfireSecret_model E d2 d3 pk_User (ChangePiccMasterKey E s).2 _ key sv
    hR hc1 rfl rfl rfl rfl ha hv hg
  refine ⟨?_, ?_, ?_⟩
  · exact (CheckDesfireSecret_model E d2 d3 pk_User _ _ key sv sv _ hR hc2 rfl rfl rfl hver hbyte
      ha hlen hg).mpr (fun _ _ => rfl)
  · rw [hc2]; exact hlen
  · intro i v hi hne
    rw [hc2] at hne ⊢
    simp only [Card.fileData] at hne
    have hcheck := CheckDesfireSecret_model E d2 d3 pk_User
      { (StoreDesfireSecret E pk_User (ChangePiccMasterKey E s).2).2 with
        gi_PN532 := Card.setFileByte
          { factoryCard uid d2 with
            piccKey := s.gi_PiccMasterKey,
            piccKeyVersion := E.des.GetKeyVersion s.gi_PiccMasterKey,
            authenticated := true,
            app := some { id := E.CARD_APPLICATION_ID, key := key,
                          settings := DESFireKeySettings.KS_CHANGE_KEY_FROZEN,
                          file := some (E.CARD_FILE_ID, sv) },
            selected := E.CARD_APPLICATION_ID } i v } _ key sv (sv.set i v)
      DESFireKeySettings.KS_CHANGE_KEY_FROZEN hR rfl rfl rfl rfl hver hbyte ha
      (by simp [hlen]) hg
    cases hres : (CheckDesfireSecret E pk_User _).1 with
    | false => rfl
    | true =>
      exfalso
      have := hcheck.mp hres i hi
      exact set_getD_ne sv i v (by omega) hne this

end CardProperties

/-- C6 on the concrete configuration: the card of "Ann" is provisioned and then
checked. -/
theorem Provision_CheckSecret_round_trip_witness :
    (ChangePiccMasterKey toyEnv (toyState cardAnn [])).1 = true ∧
    (StoreDesfireSecret toyEnv userAnn (ChangePiccMasterKey toyEnv (toyState cardAnn [])).2).1 =
      true ∧
    (CheckDesfireSecret toyEnv userAnn
      (StoreDesfireSecret toyEnv userAnn
        (ChangePiccMasterKey toyEnv (toyState cardAnn [])).2).2).1 = true :=
  ⟨by decide, by decide,
    (Provision_CheckSecret_round_trip toyEnv toyDES2Default toyDES3Default [0x11, 0, 0, 0, 0, 0, 0]
      userAnn (toyState cardAnn []) rfl rfl rfl (by decide) (by decide) (by decide)).1⟩

section SecretProperties

variable {κ σ : Type}

/-- C7: `CheckDesfireSecret` returns true exactly when the derivation of the secrets
succeeds, the root domain is selected, the key version of the root key is read and is
`CARD_KEY_VERSION`, the application `CARD_APPLICATION_ID` is selected, the
authentication with the derived key succeeds, 16 bytes are read from the file
`CARD_FILE_ID`, and these 16 bytes are the derived store value in every position.
The steps are made in this order and the first one that fails ends the call: when the
derivation fails no reader call is made, else the reader calls that are made are the
first `n` of the five calls of `CheckDesfireSecret_cmds`; when the key version is
read and is not `CARD_KEY_VERSION`, the function returns false after these two
calls (no selection of the application, no authentication, no read of the file). -/
theorem CheckDesfireSecret_iff (E : Env κ σ) (pk_User : kUser) (s : DoorOpener κ σ) :
    ((CheckDesfireSecret E pk_User s).1 = true ↔
      ∃ key sv, GenerateDesfireSecrets E pk_User E.des.new = some (key, sv) ∧
        (pn532 E (DesfireCmd.SelectApplication 0) s).1.ok = true ∧
        (pn532 E (DesfireCmd.GetKeyVersion 0)
          (after E ((CheckDesfireSecret_cmds E key).take 1) s)).1.ok = true ∧
        (pn532 E (DesfireCmd.GetKeyVersion 0)
          (after E ((CheckDesfireSecret_cmds E key).take 1) s)).1.u8 % 256 = E.CARD_KEY_VERSION ∧
        (pn532 E (DesfireCmd.SelectApplication E.CARD_APPLICATION_ID)
          (after E ((CheckDesfireSecret_cmds E key).take 2) s)).1.ok = true ∧
        (pn532 E (DesfireCmd.Authenticate 0 key)
          (after E ((CheckDesfireSecret_cmds E key).take 3) s)).1.ok = true ∧
        (pn532 E (DesfireCmd.ReadFileData E.CARD_FILE_ID 0 16)
          (after E ((CheckDesfireSecret_cmds E key).take 4) s)).1.ok = true ∧
        ∀ i, i < 16 →
          (fit 16 (pn532 E (DesfireCmd.ReadFileData E.CARD_FILE_ID 0 16)
            (after E ((CheckDesfireSecret_cmds E key).take 4) s)).1.data).getD i 0 =
              sv.getD i 0) ∧
    (GenerateDesfireSecrets E pk_User E.des.new = none →
      (CheckDesfireSecret E pk_User s).2.trace = s.trace) ∧
    (∀ key sv, GenerateDesfireSecrets E pk_User E.des.new = some (key, sv) →
      (∃ n, 1 ≤ n ∧ n ≤ 5 ∧ (CheckDesfireSecret E pk_User s).2.trace =
          s.trace ++ ((CheckDesfireSecret_cmds E key).take n).map Event.Reader) ∧
      ((pn532 E (DesfireCmd.SelectApplication 0) s).1.ok = true →
        (pn532 E (DesfireCmd.GetKeyVersion 0)
          (after E ((CheckDesfireSecret_cmds E key).take 1) s)).1.ok = true →
        (pn532 E (DesfireCmd.GetKeyVersion 0)
          (after E ((CheckDesfireSecret_cmds E key).take 1) s)).1.u8 % 256 ≠ E.CARD_KEY_VERSION →
        (CheckDesfireSecret E pk_User s).1 = false ∧
        (CheckDesfireSecret E pk_User s).2.trace =
          s.trace ++ [Event.Reader (DesfireCmd.SelectApplication 0),
            Event.Reader (DesfireCmd.GetKeyVersion 0)])) := by
  refine ⟨?_, ?_, ?_⟩
  · unfold CheckDesfireSecret
    cases hg : GenerateDesfireSecrets E pk_User E.des.new with
    | none => simp
    | some p =>
      obtain ⟨key, sv⟩ := p
      simp only [CheckDesfireSecret_cmds, List.take, after, Option.some.injEq, Prod.mk.injEq,
        ← memcmp_eq_zero]
      constructor
      · intro h
        refine ⟨key, sv, ⟨rfl, rfl⟩, ?_⟩
        split_ifs at h
        all_goals simp_all
      · rintro ⟨key', sv', ⟨rfl, rfl⟩, h1, h2, h3, h4, h5, h6, h7⟩
        simp [h1, h2, h3, h4, h5, h6, h7]
  · intro hg
    unfold CheckDesfireSecret
    simp [hg]
  · intro key sv hg
    unfold CheckDesfireSecret
    simp only [hg, CheckDesfireSecret_cmds, List.take, after]
    constructor
    · simp only [apply_ite Prod.snd, apply_ite DoorOpener.trace, pn532_trace, List.append_assoc,
        List.singleton_append, List.cons_append, List.nil_append]
      split_ifs
      · exact ⟨1, by omega, by omega, rfl⟩
      · exact ⟨2, by omega, by omega, rfl⟩
      · exact ⟨2, by omega, by omega, rfl⟩
      · exact ⟨3, by omega, by omega, rfl⟩
      · exact ⟨4, by omega, by omega, rfl⟩
      · exact ⟨5, by omega, by omega, rfl⟩
      · exact ⟨5, by omega, by omega, rfl⟩
      · exact ⟨5, by omega, by omega, rfl⟩
    · intro h1 h2 h3
      simp [h1, h2, h3, pn532_trace]

/-- C7 on the concrete configuration: the card of "Ann" has the factory key, whose
version is `0`; the check ends after the key version has been read. -/
theorem CheckDesfireSecret_iff_witness :
    GenerateDesfireSecrets toyEnv userAnn toyEnv.des.new = some (keyAnn, storeValueAnn) ∧
    (CheckDesfireSecret toyEnv userAnn (toyState cardAnn [])).1 = false ∧
    (CheckDesfireSecret toyEnv userAnn (toyState cardAnn [])).2.trace =
      (toyState cardAnn []).trace ++ [Event.Reader (DesfireCmd.SelectApplication 0),
        Event.Reader (DesfireCmd.GetKeyVersion 0)] :=
  ⟨by decide,
    ((CheckDesfireSecret_iff toyEnv userAnn (toyState cardAnn [])).2.2 keyAnn storeValueAnn
      (by decide)).2 (by decide) (by decide) (by decide)⟩

/-- C8: the buffer `u8_Data` that `GenerateDesfireSecrets` encrypts has 24 bytes;
byte `j` is `uid[j] xor b[j] xor b[j+16] xor b[j+32] xor b[j+48]` for `j < 7`, it is
`b[j] xor b[j+16] xor b[j+32] xor b[j+48]` for `7 <= j < 16` and it is `0` for
`16 <= j < 24`, where `uid` are the bytes of the card id and `b` is the name buffer.
The function returns true exactly when its five calls on the cipher succeed, and it
returns then the key object that `SetKeyData` makes from the encryption of all 24
bytes of `u8_Data` (the application master key) and the encryption of the first 16
bytes of `u8_Data` (the store value). Two records with the same seven UID bytes and
the same name buffer give the same result. -/
theorem GenerateDesfireSecrets_work_buffer (E : Env κ σ) (pk_User : kUser)
    (pi_AppMasterKey : κ) :
    (u8_Data pk_User).length = 24 ∧
    (∀ j, j < 7 → (u8_Data pk_User).getD j 0 =
      ID_u8 pk_User.ID j ^^^ pk_User.s8_Name.getD j 0 ^^^ pk_User.s8_Name.getD (j + 16) 0 ^^^
        pk_User.s8_Name.getD (j + 32) 0 ^^^ pk_User.s8_Name.getD (j + 48) 0) ∧
    (∀ j, 7 ≤ j → j < 16 → (u8_Data pk_User).getD j 0 =
      pk_User.s8_Name.getD j 0 ^^^ pk_User.s8_Name.getD (j + 16) 0 ^^^
        pk_User.s8_Name.getD (j + 32) 0 ^^^ pk_User.s8_Name.getD (j + 48) 0) ∧
    (∀ j, 16 ≤ j → j < 24 → (u8_Data pk_User).getD j 0 = 0) ∧
    (∀ key sv, GenerateDesfireSecrets E pk_User pi_AppMasterKey = some (key, sv) ↔
      ((E.des.SetKeyData E.SECRET_APPLICATION_KEY 0 E.des.new).1 = true ∧
      ∃ out1 out2,
        (E.des.CryptDataCBC (u8_Data pk_User)
          (E.des.SetKeyData E.SECRET_APPLICATION_KEY 0 E.des.new).2).1 = some out1 ∧
        (E.des.SetKeyData E.SECRET_STORE_VALUE_KEY 0
          (E.des.CryptDataCBC (u8_Data pk_User)
            (E.des.SetKeyData E.SECRET_APPLICATION_KEY 0 E.des.new).2).2).1 = true ∧
        (E.des.CryptDataCBC ((u8_Data pk_User).take 16)
          (E.des.SetKeyData E.SECRET_STORE_VALUE_KEY 0
            (E.des.CryptDataCBC (u8_Data pk_User)
              (E.des.SetKeyData E.SECRET_APPLICATION_KEY 0 E.des.new).2).2).2).1 = some out2 ∧
        (E.des.SetKeyData (fit 24 out1) E.CARD_KEY_VERSION pi_AppMasterKey).1 = true ∧
        key = (E.des.SetKeyData (fit 24 out1) E.CARD_KEY_VERSION pi_AppMasterKey).2 ∧
        sv = fit 16 out2)) ∧
    (∀ other : kUser, (∀ j, j < 7 → ID_u8 other.ID j = ID_u8 pk_User.ID j) →
      other.s8_Name = pk_User.s8_Name →
      GenerateDesfireSecrets E other pi_AppMasterKey =
        GenerateDesfireSecrets E pk_User pi_AppMasterKey) := by
  obtain ⟨u, b, f⟩ := pk_User
  refine ⟨?_, ?_, ?_, ?_, ?_, ?_⟩
  · rw [u8_Data_eq]; simp
  · intro j hj
    rw [u8_Data_eq, range24]
    interval_cases j <;> simp [Nat.xor_assoc]
  · intro j h1 h2
    rw [u8_Data_eq, range24]
    interval_cases j <;> simp [Nat.xor_assoc]
  · intro j h1 h2
    rw [u8_Data_eq, range24]
    interval_cases j <;> simp
  · intro key sv
    constructor
    · intro h
      exact GenerateDesfireSecrets_some E _ pi_AppMasterKey key sv h
    · rintro ⟨h1, out1, out2, h2, h3, h4, h5, h6, h7⟩
      rw [h6, h7]
      exact GenerateDesfireSecrets_of_steps E _ pi_AppMasterKey out1 out2 h1 h2 h3 h4 h5
  · intro other hid hname
    obtain ⟨u', b', f'⟩ := other
    simp only at hid hname
    subst hname
    have hd : u8_Data { ID := u', s8_Name := b', u8_Flags := f' } =
        u8_Data { ID := u, s8_Name := b', u8_Flags := f } := by
      rw [u8_Data_eq, u8_Data_eq, range24]
      simp [hid 0, hid 1, hid 2, hid 3, hid 4, hid 5, hid 6]
    unfold GenerateDesfireSecrets
    rw [hd]

/-- C8 on the concrete configuration: byte 0 and byte 7 of the buffer of "Ann", and
the key and the store value that the function returns for her record. -/
theorem GenerateDesfireSecrets_work_buffer_witness :
    (u8_Data userAnn).getD 0 0 =
      ID_u8 userAnn.ID 0 ^^^ userAnn.s8_Name.getD 0 0 ^^^ userAnn.s8_Name.getD (0 + 16) 0 ^^^
        userAnn.s8_Name.getD (0 + 32) 0 ^^^ userAnn.s8_Name.getD (0 + 48) 0 ∧
    (u8_Data userAnn).getD 7 0 =
      userAnn.s8_Name.getD 7 0 ^^^ userAnn.s8_Name.getD (7 + 16) 0 ^^^
        userAnn.s8_Name.getD (7 + 32) 0 ^^^ userAnn.s8_Name.getD (7 + 48) 0 ∧
    (u8_Data userAnn).getD 0 0 = 87 ∧
    GenerateDesfireSecrets toyEnv userAnn toyEnv.des.new = some (keyAnn, storeValueAnn) :=
  ⟨(GenerateDesfireSecrets_work_buffer toyEnv userAnn toyEnv.des.new).2.1 0 (by decide),
    (GenerateDesfireSecrets_work_buffer toyEnv userAnn toyEnv.des.new).2.2.1 7 (by decide)
      (by decide),
    by decide,
    ((GenerateDesfireSecrets_work_buffer toyEnv userAnn toyEnv.des.new).2.2.2.2.1 keyAnn
      storeValueAnn).mpr
      ⟨by decide, keyAnn.data, storeValueAnn, by decide, by decide, by decide, by decide,
        by decide, by decide⟩⟩

end SecretProperties

/-- C9 is not met by the code: the table holds the one record "Ann". The lookup of
the name "Ann" returns false, and the lookup of the name "Bob", which is not in the
table, returns true with the record of "Ann" and slot 1: the condition
`if (strcmp(pk_User->s8_Name, name))` is true when the names differ. -/
theorem FindUser_name_inverted :
    (FindUser_name { recs := [userAnn], capacity := 32 } nameAnn kUser.zero).1 = false ∧
    FindUser_name { recs := [userAnn], capacity := 32 } nameBob kUser.zero =
      (true, userAnn, 1) ∧
    strcmp userAnn.s8_Name nameAnn = 0 ∧ cstr userAnn.s8_Name = nameAnn := by
  refine ⟨?_, ?_, ?_, ?_⟩ <;> decide

/-- C10: for an id that is not `0`, `FindUser(u64_ID, ...)` returns true with the
record `u` and the slot `s` exactly when `s` is the smallest slot in `1..count` whose
card id is the id, and `u` is the record in that slot; it returns false exactly when
no record has that card id. For the id `0` it returns false, whatever the table holds. -/
theorem FindUser_id_first_match (db : EDB) (u64_ID : Nat) (pk_User : kUser) :
    (u64_ID ≠ 0 →
      (∀ u s, FindUser_id db u64_ID pk_User = (true, u, s) ↔
        (1 ≤ s ∧ s ≤ db.count ∧ db.recs.get? (s - 1) = some u ∧ u.ID = u64_ID ∧
          ∀ t v, 1 ≤ t → t < s → db.recs.get? (t - 1) = some v → v.ID ≠ u64_ID)) ∧
      ((FindUser_id db u64_ID pk_User).1 = false ↔ ∀ v, v ∈ db.recs → v.ID ≠ u64_ID)) ∧
    (u64_ID = 0 → (FindUser_id db u64_ID pk_User).1 = false) := by
  refine ⟨?_, ?_⟩
  · intro hne
    unfold FindUser_id
    simp only [hne, if_false]
    refine ⟨fun u s => FindUser_id_loop_found db u64_ID db.count 1 pk_User u s (le_refl _)
      (by omega), ?_⟩
    rw [FindUser_id_loop_none db u64_ID db.count 1 pk_User (le_refl _) (by omega)]
    constructor
    · intro h v hv
      obtain ⟨n, hn⟩ := List.mem_iff_get?.mp hv
      exact h (n + 1) v (by omega) hn
    · intro h t v _ h2
      exact h v (List.get?_mem h2)
  · intro h0
    unfold FindUser_id
    simp [h0]

/-- C10 on the concrete configuration: the table holds "Ann" (card `0x11`) and "Bob"
(card `0x22`); the lookup of `0x22` gives "Bob" in slot 2. -/
theorem FindUser_id_first_match_witness :
    (0x22 : Nat) ≠ 0 ∧
    FindUser_id { recs := [userAnn, userBob], capacity := 32 } 0x22 kUser.zero =
      (true, userBob, 2) ∧
    ((1 : Nat) ≤ 2 ∧ 2 ≤ (EDB.count { recs := [userAnn, userBob], capacity := 32 }) ∧
      (EDB.recs { recs := [userAnn, userBob], capacity := 32 }).get? (2 - 1) = some userBob ∧
      userBob.ID = 0x22 ∧
      ∀ t v, 1 ≤ t → t < 2 →
        (EDB.recs { recs := [userAnn, userBob], capacity := 32 }).get? (t - 1) = some v →
        v.ID ≠ 0x22) :=
  ⟨by decide, by decide,
    (((FindUser_id_first_match { recs := [userAnn, userBob], capacity := 32 } 0x22
      kUser.zero).1 (by decide)).1 userBob 2).mp (by decide)⟩

/-! ## Lemmas on strings in buffers -/

theorem cstr_nil : cstr [] = [] := rfl

theorem cstr_cons (c : Nat) (l : List Nat) :
    cstr (c :: l) = if c = 0 then [] else c :: cstr l := by
  unfold cstr
  by_cases h : c = 0 <;> simp [List.takeWhile_cons, h]

theorem skipSpaces_eq : ∀ (l : List Nat) (P : Nat),
    skipSpaces l P = P + (l.takeWhile (fun c => c == 32)).length := by
  intro l
  induction l with
  | nil => intro P; simp [skipSpaces]
  | cons c rest ih =>
    intro P
    by_cases h : c = 32
    · simp [skipSpaces, h, ih, List.takeWhile_cons]; omega
    · simp [skipSpaces, h, List.takeWhile_cons]

theorem cstr_drop_spaces : ∀ (l : List Nat),
    cstr (l.drop (l.takeWhile (fun c => c == 32)).length) =
      (cstr l).dropWhile (fun c => c == 32) := by
  intro l
  induction l with
  | nil => simp [cstr_nil]
  | cons c rest ih =>
    by_cases h : c = 32
    · subst h
      simp [List.takeWhile_cons, cstr_cons, List.dropWhile_cons, ih]
    · by_cases h0 : c = 0
      · simp [List.takeWhile_cons, cstr_cons, h, h0]
      · simp [List.takeWhile_cons, cstr_cons, h, h0, List.dropWhile_cons]

theorem cstr_getD : ∀ (p : List Nat) (i : Nat), i < (cstr p).length →
    p.getD i 0 = (cstr p).getD i 0 := by
  intro p
  induction p with
  | nil => intro i h; simp [cstr_nil] at h
  | cons c rest ih =>
    intro i h
    by_cases h0 : c = 0
    · simp [cstr_cons, h0] at h
    · simp only [cstr_cons, h0, if_false, List.length_cons] at h ⊢
      cases i with
      | zero => simp
      | succ i => simpa using ih i (by omega)

theorem cstr_set_zero : ∀ (p : List Nat) (i : Nat), i < (cstr p).length →
    cstr (p.set i 0) = (cstr p).take i := by
  intro p
  induction p with
  | nil => intro i h; simp [cstr_nil] at h
  | cons c rest ih =>
    intro i h
    by_cases h0 : c = 0
    · simp [cstr_cons, h0] at h
    · simp only [cstr_cons, h0, if_false, List.length_cons] at h ⊢
      cases i with
      | zero => simp [cstr_cons]
      | succ i => simp [cstr_cons, h0, ih i (by omega)]

theorem cstr_split_last (p : List Nat) (n : Nat) (h : (cstr p).length = n + 1) :
    cstr p = (cstr p).take n ++ [p.getD n 0] := by
  rw [cstr_getD p n (by omega)]
  apply List.ext_getElem?
  intro i
  by_cases hi : i < n
  · rw [List.getElem?_append_left (by simp; omega), List.getElem?_take_of_lt hi]
  · by_cases hi2 : i = n
    · subst hi2
      rw [List.getElem?_append_right (by simp)]
      have : i < (cstr p).length := by omega
      simp [List.getD_eq_getElem?_getD, h, List.getElem?_eq_getElem this]
    · rw [List.getElem?_append_right (by simp; omega)]
      have h1 : (cstr p).length ≤ i := by omega
      have h2 : 1 ≤ i - min n (cstr p).length := by
        rw [Nat.min_eq_left (by omega)]; omega
      simp [List.getElem?_eq_none h1]
      omega

theorem trimSpaces_spec : ∀ (n : Nat) (p : List Nat), (cstr p).length = n →
    (trimSpaces p n).1 = ((cstr p).reverse.dropWhile (fun c => c == 32)).length ∧
    cstr (trimSpaces p n).2 = ((cstr p).reverse.dropWhile (fun c => c == 32)).reverse := by
  intro n
  induction n with
  | zero =>
    intro p h
    have : cstr p = [] := List.length_eq_zero.mp h
    simp [trimSpaces, this]
  | succ n ih =>
    intro p h
    have hsplit := cstr_split_last p n h
    have hrev : (cstr p).reverse = p.getD n 0 :: ((cstr p).take n).reverse := by
      conv_lhs => rw [hsplit]
      rw [List.reverse_append]
      rfl
    have htl : ((cstr p).take n).length = n := by
      rw [List.length_take, h]; omega
    by_cases hsp : p.getD n 0 = 32
    · have hcs := cstr_set_zero p n (by omega)
      have hlen : (cstr (p.set n 0)).length = n := by rw [hcs]; exact htl
      have := ih (p.set n 0) hlen
      simp only [trimSpaces, hsp, if_true]
      rw [this.1, this.2, hcs, hrev, hsp]
      simp [List.dropWhile_cons]
    · simp only [trimSpaces, hsp, if_false]
      rw [hrev]
      have hd : List.dropWhile (fun c => c == 32) (p.getD n 0 :: ((cstr p).take n).reverse) =
          p.getD n 0 :: ((cstr p).take n).reverse := by
        rw [List.dropWhile_cons]
        have : (p.getD n 0 == 32) = false := by simpa using hsp
        rw [this]
        rfl
      rw [hd, ← hrev]
      simp [h]

/-! ## Lemmas on the terminal: what the steps leave as it is -/

section KeepsLemmas

variable {κ σ : Type}

theorem Keeps.keeps_refl (s : DoorOpener κ σ) : Keeps s s := ⟨rfl, rfl, rfl⟩

theorem Keeps.keeps_trans {s1 s2 s3 : DoorOpener κ σ} (h12 : Keeps s1 s2) (h23 : Keeps s2 s3) :
    Keeps s1 s3 :=
  ⟨h23.1.trans h12.1, h23.2.1.trans h12.2.1, h23.2.2.trans h12.2.2⟩

theorem Keeps.keeps_ite {s : DoorOpener κ σ} {c : Prop} [Decidable c] {a b : DoorOpener κ σ}
    (ha : Keeps s a) (hb : Keeps s b) : Keeps s (if c then a else b) := by
  split_ifs <;> assumption

theorem Keeps.keeps_ite2 {s : DoorOpener κ σ} {α : Type} {c : Prop} [Decidable c]
    {a b : α × DoorOpener κ σ} (ha : Keeps s a.2) (hb : Keeps s b.2) :
    Keeps s (if c then a else b).2 := by
  split_ifs <;> assumption

theorem Keeps.keeps_ite3 {s : DoorOpener κ σ} {α β : Type} {c : Prop} [Decidable c]
    {a b : α × β × DoorOpener κ σ} (ha : Keeps s a.2.2) (hb : Keeps s b.2.2) :
    Keeps s (if c then a else b).2.2 := by
  split_ifs <;> assumption

theorem Keeps.keeps_ite4 {s : DoorOpener κ σ} {α β γ : Type} {c : Prop} [Decidable c]
    {a b : α × β × γ × DoorOpener κ σ} (ha : Keeps s a.2.2.2) (hb : Keeps s b.2.2.2) :
    Keeps s (if c then a else b).2.2.2 := by
  split_ifs <;> assumption

theorem Keeps.keeps_emit {s s' : DoorOpener κ σ} (e : Event κ) (h : Keeps s s') :
    Keeps s (emit e s') := h

theorem Keeps.keeps_emits {s s' : DoorOpener κ σ} (es : List (Event κ)) (h : Keeps s s') :
    Keeps s (emits es s') := h

theorem Keeps.keeps_Print {s s' : DoorOpener κ σ} (t : String) (h : Keeps s s') :
    Keeps s (Print t s') := h

theorem Keeps.keeps_DelayMilli {s s' : DoorOpener κ σ} (ms : Nat) (h : Keeps s s') :
    Keeps s (DelayMilli ms s') := h

theorem Keeps.keeps_pn532 {s s' : DoorOpener κ σ} (E : Env κ σ) (c : DesfireCmd κ)
    (h : Keeps s s') : Keeps s (pn532 E c s').2 := h

theorem Keeps.keeps_set_InitSuccess {s s' : DoorOpener κ σ} (b : Bool)
    (h : Keeps s s') : Keeps s { s' with gb_InitSuccess := b } := h

theorem Keeps.keeps_set_LastID {s s' : DoorOpener κ σ} (v : Nat)
    (h : Keeps s s') : Keeps s { s' with gu64_LastID := v } := h

theorem Keeps.keeps_SerialRead {s s' : DoorOpener κ σ} (h : Keeps s s') :
    Keeps s (SerialRead s').2 := by
  unfold SerialRead
  split
  · exact h
  · exact h

theorem Keeps.keeps_InitReader {s s' : DoorOpener κ σ} (E : Env κ σ) (h : Keeps s s') :
    Keeps s (InitReader E false s') := by
  unfold InitReader
  simp only [Bool.false_eq_true, if_false]
  with_reducible repeat
    (first | exact h | apply Keeps.keeps_ite | apply Keeps.keeps_pn532 | apply Keeps.keeps_emit
           | apply Keeps.keeps_set_InitSuccess)

theorem Keeps.keeps_AuthenticatePICC {s s' : DoorOpener κ σ} (E : Env κ σ) (v : Nat)
    (h : Keeps s s') : Keeps s (AuthenticatePICC E v s').2.2 := by
  unfold AuthenticatePICC
  dsimp only
  with_reducible repeat (first | exact h | apply Keeps.keeps_ite3 | apply Keeps.keeps_pn532)

theorem Keeps.keeps_ReadCard {s s' : DoorOpener κ σ} (E : Env κ σ) (buf : List Nat)
    (h : Keeps s s') : Keeps s (ReadCard E buf s').2.2.2 := by
  unfold ReadCard
  dsimp only
  with_reducible repeat
    (first | exact h | apply Keeps.keeps_ite4 | apply Keeps.keeps_pn532
           | apply Keeps.keeps_AuthenticatePICC)

theorem Keeps.keeps_ChangePiccMasterKey {s s' : DoorOpener κ σ} (E : Env κ σ)
    (h : Keeps s s') : Keeps s (ChangePiccMasterKey E s').2 := by
  unfold ChangePiccMasterKey
  dsimp only
  with_reducible repeat
    (first | exact h | apply Keeps.keeps_ite2 | apply Keeps.keeps_pn532
           | apply Keeps.keeps_AuthenticatePICC)

theorem Keeps.keeps_StoreDesfireSecret {s s' : DoorOpener κ σ} (E : Env κ σ) (u : kUser)
    (h : Keeps s s') : Keeps s (StoreDesfireSecret E u s').2 := by
  unfold StoreDesfireSecret
  apply Keeps.keeps_ite2
  · exact h
  · split
    · exact h
    · dsimp only
      with_reducible repeat (first | exact h | apply Keeps.keeps_ite2 | apply Keeps.keeps_pn532)

theorem Keeps.keeps_ListAllUsers {s s' : DoorOpener κ σ} (h : Keeps s s') :
    Keeps s (ListAllUsers s') := by
  unfold ListAllUsers
  dsimp only
  with_reducible repeat
    (first | exact h | apply Keeps.keeps_ite | apply Keeps.keeps_Print | apply Keeps.keeps_emits)

theorem Keeps.keeps_footer {s s' : DoorOpener κ σ} (h : Keeps s s') :
    Keeps s (OnCommandReceived_footer s') := by
  unfold OnCommandReceived_footer
  dsimp only
  with_reducible repeat
    (first | exact h | apply Keeps.keeps_ite | apply Keeps.keeps_Print | apply Keeps.keeps_emit)

theorem Keeps.keeps_usage {s s' : DoorOpener κ σ} (h : Keeps s s') :
    Keeps s (OnCommandReceived_usage s') := by
  unfold OnCommandReceived_usage
  dsimp only
  with_reducible repeat (first | exact h | apply Keeps.keeps_Print)

theorem Keeps.keeps_WaitForKeyYesNo_loop (u64_Start : Nat) :
    ∀ (n : Nat) {s s' : DoorOpener κ σ}, Keeps s s' →
      Keeps s (WaitForKeyYesNo_loop u64_Start n s').2 := by
  intro n
  induction n with
  | zero => intro s s' h; exact h
  | succ n ih =>
    intro s s' h
    unfold WaitForKeyYesNo_loop
    dsimp only
    apply Keeps.keeps_ite2
    · exact (h.keeps_SerialRead).keeps_Print _
    · apply Keeps.keeps_ite2
      · exact h.keeps_SerialRead
      · exact ih ((h.keeps_SerialRead).keeps_DelayMilli 200)

theorem Keeps.keeps_WaitForKeyYesNo {s s' : DoorOpener κ σ} (h : Keeps s s') :
    Keeps s (WaitForKeyYesNo s').2 :=
  Keeps.keeps_WaitForKeyYesNo_loop _ _ h

theorem Keeps.keeps_WaitForCard_loop (E : Env κ σ) (u64_Start : Nat) :
    ∀ (n : Nat) (u : kUser) {s s' : DoorOpener κ σ}, Keeps s s' →
      Keeps s (WaitForCard_loop E u64_Start n u s').2.2.2 := by
  intro n
  induction n with
  | zero => intro u s s' h; exact h
  | succ n ih =>
    intro u s s' h
    unfold WaitForCard_loop
    dsimp only
    apply Keeps.keeps_ite4
    · exact ((h.keeps_ReadCard E _).keeps_set_LastID _).keeps_Print _
    · apply Keeps.keeps_ite4
      · exact (h.keeps_ReadCard E _).keeps_Print _
      · apply Keeps.keeps_ite4
        · exact ((h.keeps_ReadCard E _).keeps_SerialRead).keeps_Print _
        · exact ih _ (h.keeps_ReadCard E _).keeps_SerialRead

theorem Keeps.keeps_WaitForCard {s s' : DoorOpener κ σ} (E : Env κ σ) (u : kUser)
    (h : Keeps s s') : Keeps s (WaitForCard E u s').2.2.2 :=
  Keeps.keeps_WaitForCard_loop E _ _ u (h.keeps_Print _)

theorem Keeps.keeps_RestoreDesfireCard_revert {s s' : DoorOpener κ σ} (E : Env κ σ) (b : Bool)
    (h : Keeps s s') : Keeps s (RestoreDesfireCard_revert E b s').2 := by
  unfold RestoreDesfireCard_revert
  dsimp only
  with_reducible repeat (first | exact h | apply Keeps.keeps_ite2 | apply Keeps.keeps_pn532)

theorem Keeps.keeps_MakeRandomCard {s s' : DoorOpener κ σ} (E : Env κ σ)
    (h : Keeps s s') : Keeps s (MakeRandomCard E s').2 := by
  unfold MakeRandomCard
  dsimp only
  with_reducible repeat
    (first | exact h | apply Keeps.keeps_ite2 | apply Keeps.keeps_pn532
           | apply Keeps.keeps_AuthenticatePICC | apply Keeps.keeps_WaitForCard
           | apply Keeps.keeps_WaitForKeyYesNo | apply Keeps.keeps_Print)

end KeepsLemmas

/-! ## Lemmas on the terminal: the invariant of the table -/

section SessionLemmas

variable {κ σ : Type} {P : Nat → Prop}

theorem idsSatisfy_appendRec (db : EDB) (u : kUser) (hu : P u.ID) (h : idsSatisfy P db) :
    idsSatisfy P (db.appendRec u).2 := by
  unfold EDB.appendRec
  split_ifs
  · exact h
  · intro v hv
    rcases List.mem_append.mp hv with hv | hv
    · exact h v hv
    · rw [List.mem_singleton.mp hv]; exact hu

theorem idsSatisfy_deleteRec (db : EDB) (recno : Nat) (h : idsSatisfy P db) :
    idsSatisfy P (db.deleteRec recno).2 := by
  unfold EDB.deleteRec
  split_ifs
  · exact h
  · intro v hv
    exact h v (List.mem_of_mem_eraseIdx hv)

theorem idsSatisfy_updateRec (db : EDB) (recno : Nat) (u : kUser) (hu : P u.ID)
    (h : idsSatisfy P db) : idsSatisfy P (db.updateRec recno u).2 := by
  unfold EDB.updateRec
  split_ifs
  · exact h
  · intro v hv
    rcases List.mem_or_eq_of_mem_set hv with hv | hv
    · exact h v hv
    · rw [hv]; exact hu

theorem idsSatisfy_clear (db : EDB) : idsSatisfy P db.clear := by
  intro v hv
  simp [EDB.clear] at hv

theorem readRec_mem (db : EDB) (recno : Nat) (rec : kUser)
    (h : (db.readRec recno rec).1 = EDB_Status.EDB_OK) : (db.readRec recno rec).2 ∈ db.recs := by
  unfold EDB.readRec at h ⊢
  by_cases h0 : recno = 0
  · simp [h0] at h
  · simp only [h0, if_false] at h ⊢
    cases hg : db.recs.get? (recno - 1) with
    | none => rw [hg] at h; simp at h
    | some r => exact List.get?_mem hg

theorem FindUser_name_loop_mem (db : EDB) (name : List Nat) :
    ∀ (k recno : Nat) (u : kUser), (FindUser_name_loop db name k recno u).1 = true →
      (FindUser_name_loop db name k recno u).2.1 ∈ db.recs := by
  intro k
  induction k with
  | zero => intro recno u h; simp [FindUser_name_loop] at h
  | succ k ih =>
    intro recno u h
    unfold FindUser_name_loop at h ⊢
    cases hr : db.readRec recno u with
    | mk result rec =>
      rw [hr] at h
      dsimp only at h ⊢
      split_ifs at h ⊢ with h1 h2
      · have := readRec_mem db recno u (by rw [hr]; exact h1)
        rw [hr] at this
        exact this
      · exact ih _ _ h
      · exact ih _ _ h

theorem idsSatisfy_DeleteUser_id (db : EDB) (id : Nat) (h : idsSatisfy P db) :
    idsSatisfy P (DeleteUser_id db id).2 := by
  unfold DeleteUser_id
  dsimp only
  split_ifs
  · exact idsSatisfy_deleteRec db _ h
  · exact h

theorem idsSatisfy_DeleteUser_name (db : EDB) (name : List Nat) (h : idsSatisfy P db) :
    idsSatisfy P (DeleteUser_name db name).2 := by
  unfold DeleteUser_name
  dsimp only
  split_ifs
  · exact idsSatisfy_deleteRec db _ h
  · exact h

theorem idsSatisfy_SetUserFlags (db : EDB) (name : List Nat) (flags : Nat) (h : idsSatisfy P db) :
    idsSatisfy P (SetUserFlags db name flags).2 := by
  unfold SetUserFlags
  dsimp only
  split_ifs with hf
  · have hid : P (FindUser_name db name kUser.zero).2.1.ID :=
      h _ (FindUser_name_loop_mem db name _ _ _ hf)
    exact idsSatisfy_updateRec db _ _ hid h
  · exact h

theorem Keeps.session {s s' : DoorOpener κ σ} (h : Keeps s s') :
    Session P s s' :=
  ⟨fun hi => by rw [h.1]; exact hi, h.2.1⟩

theorem Session.sess_trans {s1 s2 s3 : DoorOpener κ σ} (h12 : Session P s1 s2)
    (h23 : Session P s2 s3) : Session P s1 s3 :=
  ⟨fun hi => h23.1 (h12.1 hi), h23.2.trans h12.2⟩

theorem Session.sess_ite {s : DoorOpener κ σ} {c : Prop} [Decidable c] {a b : DoorOpener κ σ}
    (ha : Session P s a) (hb : Session P s b) : Session P s (if c then a else b) := by
  split_ifs <;> assumption

theorem Session.sess_ite2 {s : DoorOpener κ σ} {α : Type} {c : Prop} [Decidable c]
    {a b : α × DoorOpener κ σ} (ha : Session P s a.2) (hb : Session P s b.2) :
    Session P s (if c then a else b).2 := by
  split_ifs <;> assumption

theorem Session.sess_StoreNewUser_call {s s' : DoorOpener κ σ} (u : kUser) (hu : P u.ID)
    (h : Session P s s') : Session P s (StoreNewUser_call u s').2 := by
  unfold StoreNewUser_call
  dsimp only
  split_ifs
  · exact h
  · refine h.sess_trans ⟨fun hi => ?_, rfl⟩
    show idsSatisfy P (StoreNewUser s'.db u).2
    unfold StoreNewUser
    dsimp only
    split_ifs <;> exact idsSatisfy_appendRec _ _ hu hi

theorem Session.sess_Print {s s' : DoorOpener κ σ} (t : String) (h : Session P s s') :
    Session P s (Print t s') := h

theorem Session.sess_pn532 {s s' : DoorOpener κ σ} (E : Env κ σ) (c : DesfireCmd κ)
    (h : Session P s s') : Session P s (pn532 E c s').2 := h

theorem WaitForCard_loop_id (E : Env κ σ)
    (hreader : ∀ (buf : List Nat) (s : DoorOpener κ σ), buf.length = 8 →
      (ReadCard E buf s).1 = true → (ReadCard E buf s).2.2.1.u8_UidLength ≠ 0 →
      P (ID_u64 (ReadCard E buf s).2.1))
    (u64_Start : Nat) :
    ∀ (n : Nat) (u : kUser) (s : DoorOpener κ σ),
      (WaitForCard_loop E u64_Start n u s).1 = true →
      P (WaitForCard_loop E u64_Start n u s).2.1.ID := by
  intro n
  induction n with
  | zero => intro u s h; simp [WaitForCard_loop] at h
  | succ n ih =>
    intro u s h
    unfold WaitForCard_loop at h ⊢
    dsimp only at h ⊢
    split_ifs at h ⊢ with h1 h2 h3
    · simp only [Bool.and_eq_true, decide_eq_true_eq] at h1
      exact hreader _ s (by simp) h1.1 (by omega)
    · exact ih _ _ h

theorem AddCard_session (E : Env κ σ)
    (hreader : ∀ (buf : List Nat) (s : DoorOpener κ σ), buf.length = 8 →
      (ReadCard E buf s).1 = true → (ReadCard E buf s).2.2.1.u8_UidLength ≠ 0 →
      P (ID_u64 (ReadCard E buf s).2.1))
    (name : List Nat) (s : DoorOpener κ σ) : Session P s (AddCard E name s) := by
  have hw : Keeps s (WaitForCard E kUser.zero s).2.2.2 :=
    Keeps.keeps_WaitForCard E _ (Keeps.keeps_refl s)
  unfold AddCard
  dsimp only
  by_cases hc : (WaitForCard E kUser.zero s).1 = true
  · have hid : P (WaitForCard E kUser.zero s).2.1.ID :=
      WaitForCard_loop_id E hreader _ _ _ _ hc
    have hs : Session P s { (WaitForCard E kUser.zero s).2.2.2 with
        random := (WaitForCard E kUser.zero s).2.2.2.random.drop NAME_BUF_SIZE } :=
      Keeps.session hw
    rw [if_neg (by simp [hc])]
    apply Session.sess_ite
    · exact hs
    · apply Session.sess_ite
      · apply Session.sess_ite
        · exact hs
        · exact Session.sess_StoreNewUser_call _ hid hs
      · apply Session.sess_ite
        · exact hs.sess_trans (Keeps.session (Keeps.keeps_ChangePiccMasterKey E (Keeps.keeps_refl _)))
        · apply Session.sess_ite
          · apply Session.sess_ite
            · exact hs.sess_trans (Keeps.session
                (Keeps.keeps_StoreDesfireSecret E _
                  (Keeps.keeps_ChangePiccMasterKey E (Keeps.keeps_refl _))))
            · exact Session.sess_StoreNewUser_call _ hid (hs.sess_trans (Keeps.session
                (Keeps.keeps_StoreDesfireSecret E _
                  (Keeps.keeps_ChangePiccMasterKey E (Keeps.keeps_refl _)))))
          · exact Session.sess_StoreNewUser_call _ hid (hs.sess_trans (Keeps.session
              (Keeps.keeps_ChangePiccMasterKey E (Keeps.keeps_refl _))))
  · rw [if_pos (by simpa using hc)]
    exact Keeps.session hw

theorem Clear_session (s : DoorOpener κ σ) : Session P s (Clear s) := by
  have hw : Keeps s (WaitForKeyYesNo (Print
      "\r\nATTENTION: ALL cards and users will be erased.\r\nIf you are really sure hit 'Y' otherwise hit 'N'.\r\n\r\n"
      s)).2 :=
    Keeps.keeps_WaitForKeyYesNo (Keeps.keeps_Print _ (Keeps.keeps_refl s))
  unfold Clear
  dsimp only
  apply Session.sess_ite
  · exact Keeps.session hw
  · exact ⟨fun _ => idsSatisfy_clear _, hw.2.1⟩

theorem RestoreDesfireCard_session (E : Env κ σ) (s : DoorOpener κ σ) :
    Session P s (RestoreDesfireCard E s).2 := by
  have hw : Keeps s (WaitForCard E kUser.zero s).2.2.2 :=
    Keeps.keeps_WaitForCard E _ (Keeps.keeps_refl s)
  have hs : Session P s { (WaitForCard E kUser.zero s).2.2.2 with
      db := (DeleteUser_id (WaitForCard E kUser.zero s).2.2.2.db
        (WaitForCard E kUser.zero s).2.1.ID).2 } :=
    ⟨fun hi => idsSatisfy_DeleteUser_id _ _ (by rw [hw.1]; exact hi), hw.2.1⟩
  unfold RestoreDesfireCard
  dsimp only
  apply Session.sess_ite2
  · exact Keeps.session hw
  · apply Session.sess_ite2
    · exact hs
    · refine hs.sess_trans (Keeps.session ?_)
      with_reducible repeat
        (first | exact Keeps.keeps_refl _ | apply Keeps.keeps_ite2 | apply Keeps.keeps_pn532
               | apply Keeps.keeps_AuthenticatePICC | apply Keeps.keeps_RestoreDesfireCard_revert)

theorem OnCommandReceived_ready_session (E : Env κ σ)
    (hreader : ∀ (buf : List Nat) (s : DoorOpener κ σ), buf.length = 8 →
      (ReadCard E buf s).1 = true → (ReadCard E buf s).2.2.1.u8_UidLength ≠ 0 →
      P (ID_u64 (ReadCard E buf s).2.1))
    (s : DoorOpener κ σ) : Session P s (OnCommandReceived_ready E s) := by
  have hdel : ∀ (o : Nat) (a b : Int),
      Session P s { (ParseParameter_at o a b s).2.2 with
        db := (DeleteUser_name (ParseParameter_at o a b s).2.2.db
          (ParseParameter_at o a b s).2.1).2 } :=
    fun o a b => ⟨fun hi => idsSatisfy_DeleteUser_name _ _ hi, rfl⟩
  have hset : ∀ (o : Nat) (a b : Int) (f : Nat),
      Session P s { (ParseParameter_at o a b s).2.2 with
        db := (SetUserFlags (ParseParameter_at o a b s).2.2.db
          (ParseParameter_at o a b s).2.1 f).2 } :=
    fun o a b f => ⟨fun hi => idsSatisfy_SetUserFlags _ _ _ hi, rfl⟩
  have hp : ∀ (o : Nat) (a b : Int), Session P s (ParseParameter_at o a b s).2.2 :=
    fun o a b => ⟨fun hi => hi, rfl⟩
  unfold OnCommandReceived_ready
  dsimp only
  apply Session.sess_ite
  · exact Clear_session s
  apply Session.sess_ite
  · exact Keeps.session (Keeps.keeps_ListAllUsers (Keeps.keeps_refl s))
  apply Session.sess_ite
  · apply Session.sess_pn532
    apply Session.sess_ite <;> exact (RestoreDesfireCard_session E s).sess_Print _
  apply Session.sess_ite
  · apply Session.sess_pn532
    apply Session.sess_ite <;>
      exact Keeps.session (Keeps.keeps_Print _ (Keeps.keeps_MakeRandomCard E (Keeps.keeps_refl s)))
  apply Session.sess_ite
  · apply Session.sess_ite
    · exact hp _ _ _
    · exact ((hp _ _ _).sess_trans (AddCard_session E hreader _ _)).sess_pn532 E _
  apply Session.sess_ite
  · apply Session.sess_ite
    · exact hp _ _ _
    · apply Session.sess_ite
      · exact (hdel _ _ _).sess_Print _
      · exact hdel _ _ _
  apply Session.sess_ite
  · apply Session.sess_ite
    · exact hp _ _ _
    · apply Session.sess_ite
      · exact (hset _ _ _ _).sess_Print _
      · exact hset _ _ _ _
  apply Session.sess_ite
  · apply Session.sess_ite
    · exact hp _ _ _
    · apply Session.sess_ite
      · exact (hset _ _ _ _).sess_Print _
      · exact hset _ _ _ _
  apply Session.sess_ite
  · apply Session.sess_ite
    · exact hp _ _ _
    · apply Session.sess_ite
      · exact (hset _ _ _ _).sess_Print _
      · exact hset _ _ _ _
  · refine Keeps.session (Keeps.keeps_footer (Keeps.keeps_usage ?_))
    apply Keeps.keeps_ite
    · exact Keeps.keeps_Print _ (Keeps.keeps_refl s)
    · exact Keeps.keeps_refl s

end SessionLemmas

/-! ## Lemmas on the terminal: keywords and the command line -/

section CommandLemmas

variable {κ σ : Type} {P : Nat → Prop}

theorem strnicmp_head_ne (a kw : List Nat) (n : Nat)
    (h : toUpper (a.headD 0) ≠ toUpper (kw.headD 0)) : strnicmp a kw (n + 1) ≠ 0 := by
  unfold strnicmp
  rw [if_pos h]
  split_ifs <;> decide

theorem stricmp_head_ne (a kw : List Nat)
    (h : toUpper (a.headD 0) ≠ toUpper (kw.headD 0)) : stricmp a kw ≠ 0 := by
  cases a with
  | nil =>
    unfold stricmp
    have : (0 : Nat) ≠ toUpper (kw.headD 0) := by simpa [toUpper] using h
    rw [if_pos this]
    decide
  | cons c rest =>
    unfold stricmp
    rw [if_pos (by simpa using h)]
    split_ifs <;> decide

theorem strnicmp_head (a kw : List Nat) (n : Nat) (h : strnicmp a kw (n + 1) = 0) :
    toUpper (a.headD 0) = toUpper (kw.headD 0) := by
  by_contra hne
  exact strnicmp_head_ne a kw n hne h

theorem stricmp_head (a kw : List Nat) (h : stricmp a kw = 0) :
    toUpper (a.headD 0) = toUpper (kw.headD 0) := by
  by_contra hne
  exact stricmp_head_ne a kw hne h

theorem strnicmp_tail (a kw : List Nat) (n : Nat) (h : strnicmp a kw (n + 1) = 0)
    (hk : toUpper (kw.headD 0) ≠ 0) : strnicmp a.tail kw.tail n = 0 := by
  have hh := strnicmp_head a kw n h
  unfold strnicmp at h
  rw [if_neg (by simpa using hh), if_neg (by rw [hh]; exact hk)] at h
  exact h

theorem OnCommandReceived_commands_session (E : Env κ σ)
    (hreader : ∀ (buf : List Nat) (s : DoorOpener κ σ), buf.length = 8 →
      (ReadCard E buf s).1 = true → (ReadCard E buf s).2.2.1.u8_UidLength ≠ 0 →
      P (ID_u64 (ReadCard E buf s).2.1))
    (s : DoorOpener κ σ) :
    (idsSatisfy P s.db → idsSatisfy P (OnCommandReceived_commands E s).db) ∧
    (stricmp s.gs8_CommandBuffer kwEXIT ≠ 0 →
      (OnCommandReceived_commands E s).gu64_LastPasswd = s.gu64_LastPasswd) := by
  unfold OnCommandReceived_commands
  dsimp only
  by_cases hD : strnicmp s.gs8_CommandBuffer kwDEBUG 5 = 0
  · rw [if_pos hD]
    have hp : Session P s (ParseParameter_at 5 1 1 s).2.2 := ⟨fun hi => hi, rfl⟩
    have : Session P s
        (if (!(ParseParameter_at 5 1 1 s).1) = true then (ParseParameter_at 5 1 1 s).2.2
         else if (ParseParameter_at 5 1 1 s).2.1.getD 0 0 < 48 ∨
              (ParseParameter_at 5 1 1 s).2.1.getD 0 0 > 51 then
            Print "Invalid debug level.\r\n" (ParseParameter_at 5 1 1 s).2.2
         else (pn532 E (DesfireCmd.SetDebugLevel ((ParseParameter_at 5 1 1 s).2.1.getD 0 0 - 48))
            (ParseParameter_at 5 1 1 s).2.2).2) := by
      apply Session.sess_ite
      · exact hp
      · apply Session.sess_ite
        · exact hp
        · exact hp
    exact ⟨this.1, fun _ => this.2⟩
  · rw [if_neg hD]
    have hk : Keeps s (if decide (stricmp s.gs8_CommandBuffer kwRESET = 0) = true then
        InitReader E false s else s) :=
      Keeps.keeps_ite (Keeps.keeps_InitReader E (Keeps.keeps_refl s)) (Keeps.keeps_refl s)
    generalize (if decide (stricmp s.gs8_CommandBuffer kwRESET = 0) = true then
        InitReader E false s else s) = s1 at hk ⊢
    by_cases h1 : (decide (stricmp s.gs8_CommandBuffer kwRESET = 0) && s1.gb_InitSuccess) = true
    · rw [if_pos h1]
      exact ⟨(Keeps.session hk).1, fun _ => hk.2.1⟩
    · rw [if_neg h1]
      by_cases h2 : PASSWORD.headD 0 ≠ 0 ∧ stricmp s1.gs8_CommandBuffer kwEXIT = 0
      · rw [if_pos h2]
        refine ⟨(Keeps.session hk).1, fun hne => ?_⟩
        rw [hk.2.2] at h2
        exact absurd h2.2 hne
      · rw [if_neg h2]
        have : Session P s (if s1.gb_InitSuccess = true then OnCommandReceived_ready E s1
            else OnCommandReceived_footer (Print "Usage:\r\n" (Print
              "FATAL ERROR: The PN532 did not respond. (Board initialization failed)\r\n" s1))) := by
          apply Session.sess_ite
          · exact (Keeps.session hk).sess_trans (OnCommandReceived_ready_session E hreader s1)
          · exact Keeps.session (Keeps.keeps_footer (Keeps.keeps_Print _ (Keeps.keeps_Print _ hk)))
        exact ⟨this.1, fun _ => this.2⟩

end CommandLemmas

/-! ## Lemmas on `strcmp`, the keywords and `ParseParameter` -/

section ParseLemmas

variable {κ σ : Type}

theorem strcmp_eq_zero_iff : ∀ (a b : List Nat), strcmp a b = 0 ↔ cstr a = cstr b := by
  intro a
  induction a with
  | nil =>
    intro b
    cases b with
    | nil => simp [strcmp]
    | cons b bs =>
      by_cases hb : b = 0
      · simp [strcmp, cstr_cons, cstr_nil, hb]
      · have : (0 : Int) - (b : Int) ≠ 0 := by omega
        simp [strcmp, cstr_cons, cstr_nil, hb, this]
  | cons a as ih =>
    intro b
    cases b with
    | nil =>
      by_cases ha : a = 0
      · simp [strcmp, cstr_cons, cstr_nil, ha]
      · have : (a : Int) ≠ 0 := by omega
        simp [strcmp, cstr_cons, cstr_nil, ha, this]
    | cons b bs =>
      unfold strcmp
      by_cases hab : a = b
      · subst hab
        by_cases ha : a = 0
        · simp [cstr_cons, ha]
        · simp [cstr_cons, ha, ih bs]
      · have hne : (a : Int) - (b : Int) ≠ 0 := by omega
        rw [if_pos hab]
        simp only [hne, false_iff]
        rw [cstr_cons, cstr_cons]
        by_cases ha : a = 0
        · have hb : b ≠ 0 := fun h => hab (by rw [ha, h])
          simp [ha, hb]
        · by_cases hb : b = 0
          · simp [ha, hb]
          · simp [ha, hb, hab]

theorem cstr_drop : ∀ (n : Nat) (l : List Nat), n ≤ (cstr l).length →
    cstr (l.drop n) = (cstr l).drop n := by
  intro n
  induction n with
  | zero => intro l _; rfl
  | succ n ih =>
    intro l h
    cases l with
    | nil => simp [cstr_nil] at h
    | cons c rest =>
      by_cases hc : c = 0
      · simp [cstr_cons, hc] at h
      · simp only [cstr_cons, hc, if_false, List.length_cons] at h ⊢
        simpa using ih rest (by omega)

theorem cstr_headD (l : List Nat) : (cstr l).headD 0 = l.headD 0 := by
  cases l with
  | nil => rfl
  | cons c rest =>
    by_cases hc : c = 0
    · simp [cstr_cons, hc]
    · simp [cstr_cons, hc]

theorem cstr_tail (l : List Nat) (h : l.headD 0 ≠ 0) : cstr l.tail = (cstr l).tail := by
  cases l with
  | nil => rfl
  | cons c rest =>
    have hc : c ≠ 0 := by simpa using h
    simp [cstr_cons, hc]

theorem strnicmp_cstr : ∀ (n : Nat) (a kw : List Nat),
    strnicmp (cstr a) kw n = strnicmp a kw n := by
  intro n
  induction n with
  | zero => intro a kw; rfl
  | succ n ih =>
    intro a kw
    unfold strnicmp
    rw [cstr_headD]
    by_cases h0 : a.headD 0 = 0
    · have : toUpper (a.headD 0) = 0 := by rw [h0]; rfl
      split_ifs <;> rfl
    · rw [← cstr_tail a h0, ih]

theorem stricmp_cstr : ∀ (a kw : List Nat), stricmp (cstr a) kw = stricmp a kw := by
  intro a
  induction a with
  | nil => intro kw; rfl
  | cons c rest ih =>
    intro kw
    by_cases hc : c = 0
    · subst hc
      rw [cstr_cons, if_pos rfl]
      unfold stricmp
      have : toUpper 0 = 0 := rfl
      rw [this]
      split_ifs <;> first | rfl | omega
    · rw [cstr_cons, if_neg hc]
      unfold stricmp
      rw [ih]

theorem ParseParameter_cons (r : List Nat) (a b : Int) :
    ((ParseParameter (32 :: r) a b).1 = true ↔
      a ≤ ((stripSpaces (cstr r)).length : Int) ∧ ((stripSpaces (cstr r)).length : Int) ≤ b) ∧
    ((ParseParameter (32 :: r) a b).1 = true →
      (ParseParameter (32 :: r) a b).2.1 = stripSpaces (cstr r) ∧
      (ParseParameter (32 :: r) a b).2.2.2 = []) := by
  have hP : skipSpaces r 1 = 1 + (r.takeWhile (fun c => c == 32)).length := skipSpaces_eq r 1
  have hd : (32 :: r).drop (1 + (r.takeWhile (fun c => c == 32)).length) =
      r.drop (r.takeWhile (fun c => c == 32)).length := by
    rw [Nat.add_comm]; rfl
  have ht := trimSpaces_spec _ (r.drop (r.takeWhile (fun c => c == 32)).length) rfl
  rw [cstr_drop_spaces] at ht
  have hlen : (trimSpaces (r.drop (r.takeWhile (fun c => c == 32)).length)
      ((cstr r).dropWhile (fun c => c == 32)).length).1 = (stripSpaces (cstr r)).length := by
    rw [ht.1]; simp [stripSpaces]
  unfold ParseParameter
  simp only [List.getD_cons_zero, ne_eq, not_true_eq_false, if_false, List.drop_succ_cons,
    List.drop_zero]
  rw [hP, hd, cstr_drop_spaces, hlen]
  constructor
  · split_ifs with h1 h2
    · simp; omega
    · simp; omega
    · simp; omega
  · split_ifs with h1 h2
    · simp
    · simp
    · intro _
      exact ⟨ht.2, rfl⟩

theorem ParseParameter_no_space (mem : List Nat) (a b : Int) (h : mem.getD 0 0 ≠ 32) :
    ParseParameter mem a b = (false, [], mem, ["Invalid command\r\n"]) := by
  unfold ParseParameter
  rw [if_pos h]

end ParseLemmas

/-! ## Lemmas on `OnCommandReceived` -/

section ReceivedLemmas

variable {κ σ : Type}

theorem strnicmp_getD : ∀ (n : Nat) (a kw : List Nat), strnicmp a kw n = 0 →
    (∀ i, i < n → toUpper (kw.getD i 0) ≠ 0) →
    ∀ i, i < n → toUpper (a.getD i 0) = toUpper (kw.getD i 0) := by
  intro n
  induction n with
  | zero => intro a kw _ _ i hi; omega
  | succ n ih =>
    intro a kw h hk i hi
    cases i with
    | zero =>
      rw [← headD_getD, ← headD_getD]
      exact strnicmp_head a kw n h
    | succ i =>
      have ht := strnicmp_tail a kw n h (by rw [headD_getD]; exact hk 0 (by omega))
      have := ih a.tail kw.tail ht
        (fun j hj => by rw [tail_getD]; exact hk (j + 1) (by omega)) i (by omega)
      rw [tail_getD, tail_getD] at this
      exact this

theorem OnCommandReceived_true (E : Env κ σ) (s : DoorOpener κ σ) :
    OnCommandReceived E true s = OnCommandReceived_commands E (lineAccepted s) := by
  simp [OnCommandReceived, lineAccepted, receivedLine, Print, emit, GetMillis64]

theorem OnCommandReceived_wrong (E : Env κ σ) (s : DoorOpener κ σ)
    (h : cstr (receivedLine s) ≠ PASSWORD) :
    OnCommandReceived E false s =
      { s with gs8_CommandBuffer := receivedLine s, gu32_CommandPos := 0,
               millis := s.millis + 500,
               trace := s.trace ++ [Event.Print "\r\n", Event.Print "Invalid password.\r\n",
                 Event.DelayMilli 500] } := by
  have h1 : strcmp (receivedLine s) PASSWORD ≠ 0 := by
    rw [Ne, strcmp_eq_zero_iff]
    exact h
  unfold receivedLine at h1
  simp [OnCommandReceived, receivedLine, Print, emit, DelayMilli, h1]

theorem OnCommandReceived_login (E : Env κ σ) (s : DoorOpener κ σ)
    (h : cstr (receivedLine s) = PASSWORD) :
    OnCommandReceived E false s = OnCommandReceived_commands E (loggedIn s) := by
  have h1 : strcmp (receivedLine s) PASSWORD = 0 := by
    rw [strcmp_eq_zero_iff]
    exact h
  unfold receivedLine at h1
  simp [OnCommandReceived, loggedIn, receivedLine, Print, emit, GetMillis64, h1]

theorem cstr_of_head_zero (l : List Nat) (h : l.headD 0 = 0) : cstr l = [] := by
  cases l with
  | nil => rfl
  | cons c rest =>
    have : c = 0 := by simpa using h
    simp [cstr_cons, this]

/-- With an empty command line, `OnCommandReceived` prints the usage text. -/
theorem OnCommandReceived_commands_empty (E : Env κ σ) (s : DoorOpener κ σ)
    (h : s.gs8_CommandBuffer.headD 0 = 0) :
    OnCommandReceived_commands E s =
      OnCommandReceived_footer
        (if s.gb_InitSuccess then OnCommandReceived_usage s
         else Print "Usage:\r\n" (Print
          "FATAL ERROR: The PN532 did not respond. (Board initialization failed)\r\n" s)) := by
  have hn : ∀ (kw : List Nat) (n : Nat), toUpper (kw.headD 0) ≠ 0 →
      strnicmp s.gs8_CommandBuffer kw (n + 1) ≠ 0 := fun kw n hk =>
    strnicmp_head_ne _ _ _ (by rw [h]; exact fun e => hk e.symm)
  have hs : ∀ (kw : List Nat), toUpper (kw.headD 0) ≠ 0 →
      stricmp s.gs8_CommandBuffer kw ≠ 0 := fun kw hk =>
    stricmp_head_ne _ _ (by rw [h]; exact fun e => hk e.symm)
  have hc : (cstr s.gs8_CommandBuffer).length = 0 := by rw [cstr_of_head_zero _ h]; rfl
  have hP : PASSWORD.headD 0 ≠ 0 := by decide
  unfold OnCommandReceived_commands
  dsimp only
  rw [if_neg (hn kwDEBUG 4 (by decide))]
  simp only [hs kwRESET (by decide), decide_False, Bool.false_and, Bool.false_eq_true, if_false,
    hs kwEXIT (by decide), and_false]
  by_cases hg : s.gb_InitSuccess = true
  · rw [if_pos hg, if_pos hg]
    unfold OnCommandReceived_ready
    rw [if_neg (hs kwCLEAR (by decide)), if_neg (hs kwLIST (by decide)),
      if_neg (hs kwRESTORE (by decide)), if_neg (hs kwMAKERANDOM (by decide)),
      if_neg (hn kwADD 2 (by decide)), if_neg (hn kwDEL 2 (by decide)),
      if_neg (hn kwDOOR12 5 (by decide)), if_neg (hn kwDOOR1 4 (by decide)),
      if_neg (hn kwDOOR2 4 (by decide))]
    simp only [hc, ne_eq, not_true_eq_false, if_false]
  · rw [if_neg hg, if_neg hg]

/-- The command EXIT. -/
theorem OnCommandReceived_commands_EXIT (E : Env κ σ) (s : DoorOpener κ σ)
    (h : stricmp s.gs8_CommandBuffer kwEXIT = 0) :
    OnCommandReceived_commands E s =
      Print "You have logged out.\r\n" { s with gu64_LastPasswd := 0 } := by
  have hh := stricmp_head _ _ h
  have hD : strnicmp s.gs8_CommandBuffer kwDEBUG 5 ≠ 0 :=
    strnicmp_head_ne _ _ _ (by rw [hh]; decide)
  have hR : stricmp s.gs8_CommandBuffer kwRESET ≠ 0 :=
    stricmp_head_ne _ _ (by rw [hh]; decide)
  have hP : PASSWORD.headD 0 ≠ 0 := by decide
  unfold OnCommandReceived_commands
  dsimp only
  rw [if_neg hD]
  simp only [hR, decide_False, Bool.false_and, Bool.false_eq_true, if_false]
  rw [if_pos ⟨hP, h⟩]

/-- The command RESET. -/
theorem OnCommandReceived_commands_RESET (E : Env κ σ) (s : DoorOpener κ σ)
    (h : stricmp s.gs8_CommandBuffer kwRESET = 0) :
    OnCommandReceived_commands E s =
      if (InitReader E false s).gb_InitSuccess then
        Print "PN532 initialized successfully\r\n" (InitReader E false s)
      else OnCommandReceived_footer (Print "Usage:\r\n" (Print
        "FATAL ERROR: The PN532 did not respond. (Board initialization failed)\r\n"
        (InitReader E false s))) := by
  have hh := stricmp_head _ _ h
  have hD : strnicmp s.gs8_CommandBuffer kwDEBUG 5 ≠ 0 :=
    strnicmp_head_ne _ _ _ (by rw [hh]; decide)
  have hb : (InitReader E false s).gs8_CommandBuffer = s.gs8_CommandBuffer :=
    (Keeps.keeps_InitReader E (Keeps.keeps_refl s)).2.2
  have hE : stricmp (InitReader E false s).gs8_CommandBuffer kwEXIT ≠ 0 := by
    rw [hb]
    exact stricmp_head_ne _ _ (by rw [hh]; decide)
  unfold OnCommandReceived_commands
  dsimp only
  rw [if_neg hD]
  simp only [h, decide_True, Bool.true_and, if_true]
  by_cases hg : (InitReader E false s).gb_InitSuccess = true
  · rw [if_pos hg, if_pos hg]
  · rw [if_neg hg, if_neg hg, if_neg (fun hc => hE hc.2), if_neg hg]

/-- The command DEBUG. -/
theorem OnCommandReceived_commands_DEBUG (E : Env κ σ) (s : DoorOpener κ σ)
    (h : strnicmp s.gs8_CommandBuffer kwDEBUG 5 = 0) :
    OnCommandReceived_commands E s =
      if !(ParseParameter_at 5 1 1 s).1 then (ParseParameter_at 5 1 1 s).2.2
      else if (ParseParameter_at 5 1 1 s).2.1.getD 0 0 < 48 ∨
          (ParseParameter_at 5 1 1 s).2.1.getD 0 0 > 51 then
        Print "Invalid debug level.\r\n" (ParseParameter_at 5 1 1 s).2.2
      else (pn532 E (DesfireCmd.SetDebugLevel ((ParseParameter_at 5 1 1 s).2.1.getD 0 0 - 48))
        (ParseParameter_at 5 1 1 s).2.2).2 := by
  unfold OnCommandReceived_commands
  dsimp only
  rw [if_pos h]

/-- A line that is none of DEBUG, RESET and EXIT goes to the commands that need the
reader, when the reader is initialized. -/
theorem OnCommandReceived_commands_ready (E : Env κ σ) (s : DoorOpener κ σ)
    (hg : s.gb_InitSuccess = true)
    (hD : strnicmp s.gs8_CommandBuffer kwDEBUG 5 ≠ 0)
    (hR : stricmp s.gs8_CommandBuffer kwRESET ≠ 0)
    (hE : stricmp s.gs8_CommandBuffer kwEXIT ≠ 0) :
    OnCommandReceived_commands E s = OnCommandReceived_ready E s := by
  unfold OnCommandReceived_commands
  dsimp only
  rw [if_neg hD]
  simp only [hR, decide_False, Bool.false_and, Bool.false_eq_true, if_false]
  rw [if_neg (fun hc => hE hc.2), if_pos hg]

end ReceivedLemmas

/-! ## Lemmas on the parameter of a command and on the commands without the reader -/

section SiteLemmas

variable {κ σ : Type}

theorem cstr_eq_cons (mem rest : List Nat) (c : Nat) (h : cstr mem = c :: rest) :
    ∃ r, mem = c :: r ∧ cstr r = rest := by
  cases mem with
  | nil => simp [cstr_nil] at h
  | cons a r =>
    by_cases ha : a = 0
    · simp [cstr_cons, ha] at h
    · simp only [cstr_cons, ha, if_false, List.cons.injEq] at h
      exact ⟨r, by rw [h.1], h.2⟩

theorem ParseParameter_of_cstr (mem rest : List Nat) (a b : Int) (h : cstr mem = 32 :: rest) :
    ((ParseParameter mem a b).1 = true ↔
      a ≤ ((stripSpaces rest).length : Int) ∧ ((stripSpaces rest).length : Int) ≤ b) ∧
    ((ParseParameter mem a b).1 = true →
      (ParseParameter mem a b).2.1 = stripSpaces rest ∧ (ParseParameter mem a b).2.2.2 = []) := by
  obtain ⟨r, hm, hr⟩ := cstr_eq_cons mem rest 32 h
  subst hm
  subst hr
  exact ParseParameter_cons r a b

theorem ParseParameter_false_of_cstr (mem : List Nat) (a b : Int)
    (h : ∀ rest, cstr mem ≠ 32 :: rest) : (ParseParameter mem a b).1 = false := by
  have : mem.getD 0 0 ≠ 32 := by
    intro h32
    cases mem with
    | nil => simp at h32
    | cons c r =>
      have hc : c = 32 := by simpa using h32
      exact h (cstr r) (by rw [cstr_cons, hc]; rfl)
  rw [ParseParameter_no_space mem a b this]

theorem dropWhile_head_ne (l : List Nat) :
    (l.dropWhile (fun c => c == 32)).head? ≠ some 32 := by
  induction l with
  | nil => simp
  | cons c rest ih =>
    by_cases hc : c = 32
    · simpa [List.dropWhile_cons, hc] using ih
    · simp [List.dropWhile_cons, hc]

theorem stripSpaces_ends (l : List Nat) :
    (stripSpaces l).head? ≠ some 32 ∧ (stripSpaces l).getLast? ≠ some 32 := by
  constructor
  · have hpre : stripSpaces l <+: l.dropWhile (fun c => c == 32) := by
      unfold stripSpaces
      exact List.rdropWhile_prefix _ _
    obtain ⟨t, ht⟩ := hpre
    intro hh
    cases hs : stripSpaces l with
    | nil => rw [hs] at hh; simp at hh
    | cons c r =>
      rw [hs] at hh ht
      have hc : c = 32 := by simpa using hh
      have := dropWhile_head_ne l
      rw [← ht] at this
      simp [hc] at this
  · unfold stripSpaces
    rw [List.getLast?_reverse]
    exact dropWhile_head_ne _

theorem Ext.ext_ite {P : Event κ → Prop} {s : DoorOpener κ σ} {c : Prop} [Decidable c]
    {a b : DoorOpener κ σ} (ha : Ext P s a) (hb : Ext P s b) : Ext P s (if c then a else b) := by
  split_ifs <;> assumption

theorem Ext.ext_Print {s s' : DoorOpener κ σ} (t : String) (h : Ext noCardOperation s s') :
    Ext noCardOperation s (Print t s') :=
  Ext.ext_emit _ (by simp [noCardOperation]) h

theorem Ext.ext_Printf {s s' : DoorOpener κ σ} (f : String) (args : List Nat)
    (h : Ext noCardOperation s s') : Ext noCardOperation s (emit (Event.Printf f args) s') :=
  Ext.ext_emit _ (by simp [noCardOperation]) h

theorem Ext.ext_init {s s' : DoorOpener κ σ} (E : Env κ σ) (c : DesfireCmd κ)
    (hc : noCardOperation (Event.Reader c)) (h : Ext noCardOperation s s') :
    Ext noCardOperation s (pn532 E c s').2 :=
  h.ext_trans ⟨rfl, rfl, rfl, [Event.Reader c], rfl, by simpa using hc⟩

theorem Ext.ext_set_InitSuccess {P : Event κ → Prop} {s s' : DoorOpener κ σ} (b : Bool)
    (h : Ext P s s') : Ext P s { s' with gb_InitSuccess := b } := h

theorem Ext.ext_set_LastPasswd {P : Event κ → Prop} {s s' : DoorOpener κ σ} (v : Nat)
    (h : Ext P s s') : Ext P s { s' with gu64_LastPasswd := v } := h

theorem Ext.ext_begin {s s' : DoorOpener κ σ} (E : Env κ σ)
    (h : Ext noCardOperation s s') : Ext noCardOperation s (pn532 E DesfireCmd.begin s').2 :=
  h.ext_init E _ (by simp [noCardOperation, isInitCmd])

theorem Ext.ext_GetFirmwareVersion {s s' : DoorOpener κ σ} (E : Env κ σ)
    (h : Ext noCardOperation s s') :
    Ext noCardOperation s (pn532 E DesfireCmd.GetFirmwareVersion s').2 :=
  h.ext_init E _ (by simp [noCardOperation, isInitCmd])

theorem Ext.ext_SetPassiveActivationRetries {s s' : DoorOpener κ σ} (E : Env κ σ)
    (h : Ext noCardOperation s s') :
    Ext noCardOperation s (pn532 E DesfireCmd.SetPassiveActivationRetries s').2 :=
  h.ext_init E _ (by simp [noCardOperation, isInitCmd])

theorem Ext.ext_SamConfig {s s' : DoorOpener κ σ} (E : Env κ σ)
    (h : Ext noCardOperation s s') : Ext noCardOperation s (pn532 E DesfireCmd.SamConfig s').2 :=
  h.ext_init E _ (by simp [noCardOperation, isInitCmd])

theorem Ext.ext_InitReader {s s' : DoorOpener κ σ} (E : Env κ σ)
    (h : Ext noCardOperation s s') : Ext noCardOperation s (InitReader E false s') := by
  unfold InitReader
  simp only [Bool.false_eq_true, if_false]
  with_reducible repeat
    (first | exact h | apply Ext.ext_ite | apply Ext.ext_begin | apply Ext.ext_GetFirmwareVersion
           | apply Ext.ext_SetPassiveActivationRetries | apply Ext.ext_SamConfig
           | apply Ext.ext_Printf | apply Ext.ext_set_InitSuccess)

theorem Ext.ext_footer {s s' : DoorOpener κ σ} (h : Ext noCardOperation s s') :
    Ext noCardOperation s (OnCommandReceived_footer s') := by
  unfold OnCommandReceived_footer
  dsimp only
  with_reducible repeat
    (first | exact h | apply Ext.ext_ite | apply Ext.ext_Print | apply Ext.ext_Printf)

theorem Ext.ext_ParseParameter_at {s s' : DoorOpener κ σ} (o : Nat) (a b : Int)
    (h : Ext noCardOperation s s') : Ext noCardOperation s (ParseParameter_at o a b s').2.2 :=
  h.ext_trans ⟨rfl, rfl, rfl, _, rfl, by
    intro e he
    obtain ⟨t, _, rfl⟩ := List.mem_map.mp he
    simp [noCardOperation]⟩

/-- While the reader is not initialized, a command line changes neither the latch,
the table nor the master key, and sends no command to a card. -/
theorem OnCommandReceived_commands_not_ready (E : Env κ σ) (s : DoorOpener κ σ)
    (hg : s.gb_InitSuccess = false) :
    Ext noCardOperation s (OnCommandReceived_commands E s) := by
  have h0 : Ext noCardOperation s s := Ext.ext_refl _ s
  by_cases hD : strnicmp s.gs8_CommandBuffer kwDEBUG 5 = 0
  · rw [OnCommandReceived_commands_DEBUG E s hD]
    apply Ext.ext_ite
    · exact h0.ext_ParseParameter_at _ _ _
    · apply Ext.ext_ite
      · exact (h0.ext_ParseParameter_at _ _ _).ext_Print _
      · exact (h0.ext_ParseParameter_at _ _ _).ext_init E _ (by simp [noCardOperation])
  · by_cases hR : stricmp s.gs8_CommandBuffer kwRESET = 0
    · rw [OnCommandReceived_commands_RESET E s hR]
      apply Ext.ext_ite
      · exact (h0.ext_InitReader E).ext_Print _
      · exact (((h0.ext_InitReader E).ext_Print _).ext_Print _).ext_footer
    · by_cases hE : stricmp s.gs8_CommandBuffer kwEXIT = 0
      · rw [OnCommandReceived_commands_EXIT E s hE]
        exact (h0.ext_set_LastPasswd 0).ext_Print _
      · unfold OnCommandReceived_commands
        dsimp only
        rw [if_neg hD]
        simp only [hR, decide_False, Bool.false_and, Bool.false_eq_true, if_false]
        rw [if_neg (fun hc => hE hc.2), if_neg (by simp [hg])]
        exact ((h0.ext_Print _).ext_Print _).ext_footer

end SiteLemmas

/-! ## Lemmas on the keyboard and on the keywords that exclude each other -/

section KeyboardLemmas

variable {κ σ : Type}

theorem ReadKeyboardInput_pass_enter (E : Env κ σ) (u64_Now : Nat) (s : DoorOpener κ σ)
    (c : Nat) (rest : List Nat) (hs : s.serial = c :: rest) (hc : c = 13 ∨ c = 10) :
    ReadKeyboardInput_pass E u64_Now s =
      Print "\r\n> "
        (OnCommandReceived E (passwordValid u64_Now s.gu64_LastPasswd) { s with serial := rest }) := by
  have hr : SerialRead s = ((c : Int), { s with serial := rest }) := by
    unfold SerialRead
    rw [hs]
  unfold ReadKeyboardInput_pass
  rw [hr]
  rcases hc with h | h <;> subst h <;> simp

theorem ReadKeyboardInput_enter (E : Env κ σ) (s : DoorOpener κ σ) (c : Nat)
    (hs : s.serial = [c]) (hc : c = 13 ∨ c = 10) :
    (ReadKeyboardInput E s).2 =
      Print "\r\n> "
        (OnCommandReceived E
          (passwordValid ((GetMillis64 s + PASSWORD_OFFSET_MS) % 2 ^ 64) s.gu64_LastPasswd)
          { s with serial := [] }) := by
  unfold ReadKeyboardInput
  dsimp only
  rw [hs]
  have ha : SerialAvailable s = true := by simp [SerialAvailable, hs]
  simp only [List.length_singleton, ReadKeyboardInput_loop, ha, if_true]
  exact ReadKeyboardInput_pass_enter E _ s c [] hs hc

theorem passwordValid_window (t tLast : Nat) (hle : tLast ≤ t)
    (ht : t + PASSWORD_OFFSET_MS < 2 ^ 64) :
    passwordValid ((t + PASSWORD_OFFSET_MS) % 2 ^ 64) (tLast + PASSWORD_OFFSET_MS) =
      decide (t - tLast < 300000) := by
  have hP : PASSWORD.headD 0 ≠ 0 := by decide
  unfold passwordValid
  simp only [hP, decide_False, Bool.false_or]
  have h1 : (t + PASSWORD_OFFSET_MS) % 2 ^ 64 = t + PASSWORD_OFFSET_MS := Nat.mod_eq_of_lt ht
  have h2 : (t + PASSWORD_OFFSET_MS + 2 ^ 64 - (tLast + PASSWORD_OFFSET_MS)) % 2 ^ 64 =
      t - tLast := by
    have : t + PASSWORD_OFFSET_MS + 2 ^ 64 - (tLast + PASSWORD_OFFSET_MS) =
        (t - tLast) + 2 ^ 64 := by omega
    rw [this, Nat.add_mod_right]
    apply Nat.mod_eq_of_lt
    omega
  rw [h1, h2]
  have : PASSWORD_TIMEOUT * 60 * 1000 = 300000 := by decide
  rw [this]

theorem passwordValid_zero (now : Nat) (h : now + PASSWORD_OFFSET_MS < 2 ^ 64) :
    passwordValid ((now + PASSWORD_OFFSET_MS) % 2 ^ 64) 0 = false := by
  have hP : PASSWORD.headD 0 ≠ 0 := by decide
  have hO : PASSWORD_OFFSET_MS = 600000 := by decide
  have hT : PASSWORD_TIMEOUT * 60 * 1000 = 300000 := by decide
  unfold passwordValid
  simp only [hP, decide_False, Bool.false_or, Nat.sub_zero, decide_eq_false_iff_not, not_lt]
  rw [Nat.mod_eq_of_lt h, Nat.add_mod_right, Nat.mod_eq_of_lt h, hT, hO]
  omega

theorem footer_reader (s : DoorOpener κ σ) :
    (OnCommandReceived_footer s).gi_PN532 = s.gi_PN532 ∧
    (OnCommandReceived_footer s).gb_InitSuccess = s.gb_InitSuccess := by
  unfold OnCommandReceived_footer
  simp only [Print, emit]
  split_ifs <;> exact ⟨rfl, rfl⟩

theorem strnicmp_excl (buf kw1 kw2 : List Nat) (n1 n2 i : Nat) (h1 : strnicmp buf kw1 n1 = 0)
    (hk1 : ∀ j, j < n1 → toUpper (kw1.getD j 0) ≠ 0)
    (hk2 : ∀ j, j < n2 → toUpper (kw2.getD j 0) ≠ 0) (hi1 : i < n1) (hi2 : i < n2)
    (hne : toUpper (kw1.getD i 0) ≠ toUpper (kw2.getD i 0)) : strnicmp buf kw2 n2 ≠ 0 := by
  intro h2
  have a := strnicmp_getD n1 buf kw1 h1 hk1 i hi1
  have b := strnicmp_getD n2 buf kw2 h2 hk2 i hi2
  exact hne (a.symm.trans b)

theorem stricmp_excl (buf kw1 kw2 : List Nat) (n1 : Nat) (h1 : strnicmp buf kw1 (n1 + 1) = 0)
    (hne : toUpper (kw1.headD 0) ≠ toUpper (kw2.headD 0)) : stricmp buf kw2 ≠ 0 := by
  intro h2
  exact hne ((strnicmp_head buf kw1 n1 h1).symm.trans (stricmp_head buf kw2 h2))

theorem ParseParameter_at_false (o : Nat) (a b : Int) (s : DoorOpener κ σ)
    (h : (ParseParameter (s.gs8_CommandBuffer.drop o) a b).1 = false) :
    (!(ParseParameter_at o a b s).1) = true := by
  simp [ParseParameter_at, h]

/-- When `ParseParameter` returns false at one of its calls in `OnCommandReceived`,
the function ends right after the call. -/
theorem OnCommandReceived_commands_rejected (E : Env κ σ) (s : DoorOpener κ σ)
    (kw : List Nat) (n : Nat) (a b : Int) (hmem : (kw, n, a, b) ∈ parameterSites)
    (hg : kw ≠ kwDEBUG → s.gb_InitSuccess = true)
    (hkw : strnicmp s.gs8_CommandBuffer kw n = 0)
    (h12 : kw = kwDOOR1 → strnicmp s.gs8_CommandBuffer kwDOOR12 6 ≠ 0)
    (hp : (ParseParameter (s.gs8_CommandBuffer.drop n) a b).1 = false) :
    OnCommandReceived_commands E s = (ParseParameter_at n a b s).2.2 := by
  have hpf := ParseParameter_at_false n a b s hp
  simp only [parameterSites, List.mem_cons, Prod.mk.injEq, List.mem_singleton, List.not_mem_nil,
    or_false] at hmem
  rcases hmem with ⟨rfl, rfl, rfl, rfl⟩ | ⟨rfl, rfl, rfl, rfl⟩ | ⟨rfl, rfl, rfl, rfl⟩ |
    ⟨rfl, rfl, rfl, rfl⟩ | ⟨rfl, rfl, rfl, rfl⟩ | ⟨rfl, rfl, rfl, rfl⟩
  · rw [OnCommandReceived_commands_DEBUG E s hkw, if_pos hpf]
  · have hgb := hg (by decide)
    rw [OnCommandReceived_commands_ready E s hgb
      (strnicmp_excl _ _ _ _ _ 0 hkw (by decide) (by decide) (by decide) (by decide) (by decide))
      (stricmp_excl _ _ _ _ hkw (by decide)) (stricmp_excl _ _ _ _ hkw (by decide))]
    unfold OnCommandReceived_ready
    rw [if_neg (stricmp_excl _ _ _ _ hkw (by decide)),
      if_neg (stricmp_excl _ _ _ _ hkw (by decide)),
      if_neg (stricmp_excl _ _ _ _ hkw (by decide)),
      if_neg (stricmp_excl _ _ _ _ hkw (by decide)), if_pos hkw]
    dsimp only
    rw [if_pos hpf]
  · have hgb := hg (by decide)
    rw [OnCommandReceived_commands_ready E s hgb
      (strnicmp_excl _ _ _ _ _ 2 hkw (by decide) (by decide) (by decide) (by decide) (by decide))
      (stricmp_excl _ _ _ _ hkw (by decide)) (stricmp_excl _ _ _ _ hkw (by decide))]
    unfold OnCommandReceived_ready
    rw [if_neg (stricmp_excl _ _ _ _ hkw (by decide)),
      if_neg (stricmp_excl _ _ _ _ hkw (by decide)),
      if_neg (stricmp_excl _ _ _ _ hkw (by decide)),
      if_neg (stricmp_excl _ _ _ _ hkw (by decide)),
      if_neg (strnicmp_excl _ _ _ _ _ 0 hkw (by decide) (by decide) (by decide) (by decide)
        (by decide)),
      if_pos hkw]
    dsimp only
    rw [if_pos hpf]
  · have hgb := hg (by decide)
    rw [OnCommandReceived_commands_ready E s hgb
      (strnicmp_excl _ _ _ _ _ 1 hkw (by decide) (by decide) (by decide) (by decide) (by decide))
      (stricmp_excl _ _ _ _ hkw (by decide)) (stricmp_excl _ _ _ _ hkw (by decide))]
    unfold OnCommandReceived_ready
    rw [if_neg (stricmp_excl _ _ _ _ hkw (by decide)),
      if_neg (stricmp_excl _ _ _ _ hkw (by decide)),
      if_neg (stricmp_excl _ _ _ _ hkw (by decide)),
      if_neg (stricmp_excl _ _ _ _ hkw (by decide)),
      if_neg (strnicmp_excl _ _ _ _ _ 0 hkw (by decide) (by decide) (by decide) (by decide)
        (by decide)),
      if_neg (strnicmp_excl _ _ _ _ _ 1 hkw (by decide) (by decide) (by decide) (by decide)
        (by decide)),
      if_pos hkw]
    dsimp only
    rw [if_pos hpf]
  · have hgb := hg (by decide)
    rw [OnCommandReceived_commands_ready E s hgb
      (strnicmp_excl _ _ _ _ _ 1 hkw (by decide) (by decide) (by decide) (by decide) (by decide))
      (stricmp_excl _ _ _ _ hkw (by decide)) (stricmp_excl _ _ _ _ hkw (by decide))]
    unfold OnCommandReceived_ready
    rw [if_neg (stricmp_excl _ _ _ _ hkw (by decide)),
      if_neg (stricmp_excl _ _ _ _ hkw (by decide)),
      if_neg (stricmp_excl _ _ _ _ hkw (by decide)),
      if_neg (stricmp_excl _ _ _ _ hkw (by decide)),
      if_neg (strnicmp_excl _ _ _ _ _ 0 hkw (by decide) (by decide) (by decide) (by decide)
        (by decide)),
      if_neg (strnicmp_excl _ _ _ _ _ 1 hkw (by decide) (by decide) (by decide) (by decide)
        (by decide)),
      if_neg (h12 rfl), if_pos hkw]
    dsimp only
    rw [if_pos hpf]
  · have hgb := hg (by decide)
    rw [OnCommandReceived_commands_ready E s hgb
      (strnicmp_excl _ _ _ _ _ 1 hkw (by decide) (by decide) (by decide) (by decide) (by decide))
      (stricmp_excl _ _ _ _ hkw (by decide)) (stricmp_excl _ _ _ _ hkw (by decide))]
    unfold OnCommandReceived_ready
    rw [if_neg (stricmp_excl _ _ _ _ hkw (by decide)),
      if_neg (stricmp_excl _ _ _ _ hkw (by decide)),
      if_neg (stricmp_excl _ _ _ _ hkw (by decide)),
      if_neg (stricmp_excl _ _ _ _ hkw (by decide)),
      if_neg (strnicmp_excl _ _ _ _ _ 0 hkw (by decide) (by decide) (by decide) (by decide)
        (by decide)),
      if_neg (strnicmp_excl _ _ _ _ _ 1 hkw (by decide) (by decide) (by decide) (by decide)
        (by decide)),
      if_neg (strnicmp_excl _ _ _ _ _ 4 hkw (by decide) (by decide) (by decide) (by decide)
        (by decide)),
      if_neg (strnicmp_excl _ _ _ _ _ 4 hkw (by decide) (by decide) (by decide) (by decide)
        (by decide)),
      if_pos hkw]
    dsimp only
    rw [if_pos hpf]

end KeyboardLemmas


/-! ## Lemmas on the changes of the table -/

/-- The lookup by id finds slot `k` when slot `k` holds the id and no slot before it
does. -/
theorem FindUser_id_of_first (db : EDB) (k : Nat) (u pk : kUser) (hk : 1 ≤ k)
    (hslot : db.recs.get? (k - 1) = some u) (hne : u.ID ≠ 0)
    (hfirst : ∀ t v, 1 ≤ t → t < k → db.recs.get? (t - 1) = some v → v.ID ≠ u.ID) :
    FindUser_id db u.ID pk = (true, u, k) := by
  unfold FindUser_id
  simp only [hne, if_false]
  have hlen : k - 1 < db.recs.length := (List.get?_eq_some.mp hslot).1
  exact (FindUser_id_loop_found db u.ID db.count 1 pk u k (le_refl _) (by omega)).mpr
    ⟨hk, by unfold EDB.count; omega, hslot, rfl, hfirst⟩

/-- The lookup by id returns false when no record has the id. -/
theorem FindUser_id_of_absent (db : EDB) (id : Nat) (pk : kUser)
    (h : ∀ v, v ∈ db.recs → v.ID ≠ id) : (FindUser_id db id pk).1 = false := by
  unfold FindUser_id
  split
  · rfl
  · rw [FindUser_id_loop_none db id db.count 1 pk (le_refl _) (by omega)]
    intro t v _ h2
    exact h v (List.get?_mem h2)

/-! ## Properties of the specification: the table of users -/

section TableProperties

/-- C11 is not met by the code: `DeleteUser(const char*)` looks the record up with
`FindUser(const char*)`, whose condition is true when the names differ (the defect
of C9). From the table [Ann (0x11, door 1), Bob (0x22, door 1 + 2)] the call
`DeleteUser("Ann")` removes "Bob" and leaves [Ann]; from the table [Ann] it returns
false and leaves the table as it is; and from the table [Ann, Bob] the call
`DeleteUser("Eve")`, a name that is not in the table, removes "Ann". -/
theorem DeleteUser_name_removes_other :
    DeleteUser_name { recs := [userAnn, userBob], capacity := 2 } nameAnn =
      (true, { recs := [userAnn], capacity := 2 }) ∧
    ListAll (DeleteUser_name { recs := [userAnn, userBob], capacity := 2 } nameAnn).2 =
      [userAnn] ∧
    DeleteUser_name { recs := [userAnn], capacity := 2 } nameAnn =
      (false, { recs := [userAnn], capacity := 2 }) ∧
    DeleteUser_name { recs := [userAnn, userBob], capacity := 2 } [69, 118, 101] =
      (true, { recs := [userBob], capacity := 2 }) := by
  refine ⟨?_, ?_, ?_, ?_⟩ <;> decide

/-- C12: when slot `k` of the table holds a card id that is not `0` and that no slot
before `k` holds, `DeleteUser(uint64_t)` with this id returns true; the table has
one record less; the slots before `k` are as they were; and every record that was in
a slot `j > k` is in slot `j - 1`, the same in every field. -/
theorem DeleteUser_id_compacts (db : EDB) (k : Nat) (u : kUser) (hk : 1 ≤ k)
    (hslot : db.recs.get? (k - 1) = some u) (hne : u.ID ≠ 0)
    (hfirst : ∀ t v, 1 ≤ t → t < k → db.recs.get? (t - 1) = some v → v.ID ≠ u.ID) :
    (DeleteUser_id db u.ID).1 = true ∧
    (DeleteUser_id db u.ID).2.count + 1 = db.count ∧
    (DeleteUser_id db u.ID).2.capacity = db.capacity ∧
    (∀ j, 1 ≤ j → j < k →
      (DeleteUser_id db u.ID).2.recs.get? (j - 1) = db.recs.get? (j - 1)) ∧
    (∀ j, k < j → j ≤ db.count →
      (DeleteUser_id db u.ID).2.recs.get? (j - 1 - 1) = db.recs.get? (j - 1)) := by
  have hlen : k - 1 < db.recs.length := (List.get?_eq_some.mp hslot).1
  have hfind := FindUser_id_of_first db k u kUser.zero hk hslot hne hfirst
  have hk0 : ¬ (k = 0 ∨ k > db.count) := by unfold EDB.count; omega
  have hdel : DeleteUser_id db u.ID =
      (true, { db with recs := db.recs.eraseIdx (k - 1) }) := by
    unfold DeleteUser_id EDB.deleteRec
    simp only [hfind, if_true, hk0, if_false]
  rw [hdel]
  refine ⟨rfl, ?_, rfl, ?_, ?_⟩
  · simp only [EDB.count, List.length_eraseIdx, hlen, if_true]
    omega
  · intro j h1 h2
    simp only [List.get?_eq_getElem?]
    rw [List.getElem?_eraseIdx_of_lt _ _ _ (by omega)]
  · intro j h1 h2
    simp only [List.get?_eq_getElem?]
    rw [List.getElem?_eraseIdx_of_ge _ _ _ (by omega)]
    congr 1
    omega

/-- C12 on the concrete table [Ann, Bob]: the card of "Ann" is deleted and "Bob"
moves from slot 2 to slot 1. -/
theorem DeleteUser_id_compacts_witness :
    (EDB.recs { recs := [userAnn, userBob], capacity := 2 }).get? (1 - 1) = some userAnn ∧
    userAnn.ID ≠ 0 ∧
    (DeleteUser_id { recs := [userAnn, userBob], capacity := 2 } userAnn.ID).1 = true ∧
    (DeleteUser_id { recs := [userAnn, userBob], capacity := 2 } userAnn.ID).2.recs.get?
      (2 - 1 - 1) = some userBob :=
  ⟨by decide, by decide,
    (DeleteUser_id_compacts { recs := [userAnn, userBob], capacity := 2 } 1 userAnn
      (le_refl _) (by decide) (by decide) (fun t v h1 h2 => by omega)).1,
    ((DeleteUser_id_compacts { recs := [userAnn, userBob], capacity := 2 } 1 userAnn
      (le_refl _) (by decide) (by decide) (fun t v h1 h2 => by omega)).2.2.2.2 2
      (by decide) (by decide)).trans (by decide)⟩

/-- C13 as stated fails. When the table already holds a record with the card id of
the new record (`StoreNewUser` does not look for it), `DeleteUser(uint64_t)` removes
the record that was there before and the lookup of the id still finds the new one.
When the card id of the new record is `0`, `DeleteUser(uint64_t)` returns false and
the table keeps the new record, one record more than before. -/
theorem StoreNewUser_DeleteUser_id_fails :
    (EDB.count { recs := [userAnn], capacity := 2 } < 2 ∧
      (FindUser_id
        (DeleteUser_id (StoreNewUser { recs := [userAnn], capacity := 2 }
          { userBob with ID := 0x11 }).2 0x11).2 0x11 kUser.zero).1 = true) ∧
    ((DeleteUser_id (StoreNewUser { recs := [userAnn], capacity := 2 }
        { userBob with ID := 0 }).2 0).1 = false ∧
      (DeleteUser_id (StoreNewUser { recs := [userAnn], capacity := 2 }
        { userBob with ID := 0 }).2 0).2.count = 2 ∧
      EDB.count { recs := [userAnn], capacity := 2 } = 1) := by
  refine ⟨⟨?_, ?_⟩, ?_, ?_, ?_⟩ <;> decide

/-- C13 as amended: when the table has room, the card id of the record `u` is not `0`
and no record of the table has this card id, then `StoreNewUser(u)` returns true,
`DeleteUser(uint64_t)` with the card id of `u` returns true and gives back the table
as it was before the insert (so `count` has its value from before), and the lookup of
the card id returns false afterwards. -/
theorem StoreNewUser_DeleteUser_id (db : EDB) (u pk : kUser) (hcap : db.count < db.capacity)
    (hne : u.ID ≠ 0) (hfresh : ∀ v, v ∈ db.recs → v.ID ≠ u.ID) :
    (StoreNewUser db u).1 = true ∧
    (StoreNewUser db u).2.count = db.count + 1 ∧
    (DeleteUser_id (StoreNewUser db u).2 u.ID).1 = true ∧
    (DeleteUser_id (StoreNewUser db u).2 u.ID).2 = db ∧
    (DeleteUser_id (StoreNewUser db u).2 u.ID).2.count = db.count ∧
    (FindUser_id (DeleteUser_id (StoreNewUser db u).2 u.ID).2 u.ID pk).1 = false := by
  have hcap' : ¬ (db.count ≥ db.capacity) := by omega
  have hstore : StoreNewUser db u = (true, { db with recs := db.recs ++ [u] }) := by
    unfold StoreNewUser EDB.appendRec
    simp [hcap']
  have hslot : (db.recs ++ [u]).get? (db.recs.length + 1 - 1) = some u := by
    simp
  have hfind := FindUser_id_of_first { db with recs := db.recs ++ [u] } (db.recs.length + 1) u
    kUser.zero (by omega) hslot hne (by
      intro t v h1 h2 h3
      have ht : t - 1 < db.recs.length := by omega
      simp only [List.get?_eq_getElem?] at h3
      rw [List.getElem?_append_left ht] at h3
      exact hfresh v (List.getElem?_mem h3))
  have hdel : DeleteUser_id { db with recs := db.recs ++ [u] } u.ID = (true, db) := by
    unfold DeleteUser_id EDB.deleteRec
    simp only [hfind, if_true, EDB.count, List.length_append, List.length_singleton]
    have : ¬ (db.recs.length + 1 = 0 ∨ db.recs.length + 1 > db.recs.length + 1) := by omega
    simp only [this, if_false, Nat.add_sub_cancel]
    rw [List.eraseIdx_append_of_length_le (le_refl _)]
    simp
  rw [hstore]
  refine ⟨rfl, ?_, ?_, ?_, ?_, ?_⟩
  · simp [EDB.count]
  · rw [hdel]
  · rw [hdel]
  · rw [hdel]
  · rw [hdel]
    exact FindUser_id_of_absent db u.ID pk hfresh

/-- C13 as amended, on the concrete table [Ann]: "Bob" is stored and deleted again. -/
theorem StoreNewUser_DeleteUser_id_witness :
    EDB.count { recs := [userAnn], capacity := 2 } < 2 ∧ userBob.ID ≠ 0 ∧
    (DeleteUser_id (StoreNewUser { recs := [userAnn], capacity := 2 } userBob).2
      userBob.ID).2 = { recs := [userAnn], capacity := 2 } :=
  ⟨by decide, by decide,
    (StoreNewUser_DeleteUser_id { recs := [userAnn], capacity := 2 } userBob kUser.zero
      (by decide) (by decide) (by decide)).2.2.2.1⟩

/-- C14 is not met by the code: `SetUserFlags` looks the record up with
`FindUser(const char*)`, whose condition is true when the names differ (the defect
of C9). On the table [Ann (door 1), Bob (door 1 + 2)] the call
`SetUserFlags("Ann", DOOR_TWO)` leaves "Ann" as she is and sets the flags of "Bob";
on the table [Ann] it returns false and leaves the table as it is; and on the table
[Ann, Bob] the call for the name "Eve", which is not in the table, returns true and
sets the flags of "Ann". -/
theorem SetUserFlags_changes_other :
    SetUserFlags { recs := [userAnn, userBob], capacity := 2 } nameAnn DOOR_TWO =
      (true, { recs := [userAnn, { userBob with u8_Flags := DOOR_TWO }], capacity := 2 }) ∧
    SetUserFlags { recs := [userAnn], capacity := 2 } nameAnn DOOR_TWO =
      (false, { recs := [userAnn], capacity := 2 }) ∧
    SetUserFlags { recs := [userAnn, userBob], capacity := 2 } [69, 118, 101] DOOR_TWO =
      (true, { recs := [{ userAnn with u8_Flags := DOOR_TWO }, userBob], capacity := 2 }) := by
  refine ⟨?_, ?_, ?_⟩ <;> decide

end TableProperties

/-! ## Properties of the specification: the terminal -/

section RegistryInvariant

variable {κ σ : Type}

theorem ReadKeyboardInput_pass_ids (E : Env κ σ)
    (hcmd : ∀ (b : Bool) (s : DoorOpener κ σ), nonzeroIds s.db →
      nonzeroIds (OnCommandReceived E b s).db)
    (now : Nat) (s : DoorOpener κ σ) (h : nonzeroIds s.db) :
    nonzeroIds (ReadKeyboardInput_pass E now s).db := by
  have hr : (SerialRead s).2.db = s.db := (Keeps.keeps_SerialRead (Keeps.keeps_refl s)).1
  have h' : nonzeroIds (SerialRead s).2.db := by rw [hr]; exact h
  unfold ReadKeyboardInput_pass
  dsimp only
  split_ifs <;> first | exact hcmd _ _ h' | exact h'

theorem ReadKeyboardInput_loop_ids (E : Env κ σ)
    (hcmd : ∀ (b : Bool) (s : DoorOpener κ σ), nonzeroIds s.db →
      nonzeroIds (OnCommandReceived E b s).db)
    (now : Nat) : ∀ (n : Nat) (s : DoorOpener κ σ), nonzeroIds s.db →
      nonzeroIds (ReadKeyboardInput_loop E now n s).db := by
  intro n
  induction n with
  | zero => intro s h; exact h
  | succ n ih =>
    intro s h
    unfold ReadKeyboardInput_loop
    split_ifs
    · exact ih _ (ReadKeyboardInput_pass_ids E hcmd now s h)
    · exact h

theorem fixedReader_reports (buf : List Nat) (s : DoorOpener ToyKey Unit) (hb : buf.length = 8) :
    ID_u64 (ReadCard fixedEnv buf s).2.1 ≠ 0 := by
  have : (ReadCard fixedEnv buf s).2.1 = overwrite buf [0x33, 0, 0, 0] := by
    simp [ReadCard, pn532, fixedEnv, fixedReader]
  rw [this]
  unfold overwrite
  rw [hb]
  simp only [List.take, ID_u64, List.cons_append]
  omega

set_option maxRecDepth 1000000 in
/-- C15 (as stated, refuted): the reader of the model reports a Classic card as
present (`ReadCard` returns true, the UID length is 4) whose UID bytes are all zero;
the table holds one record, with the card id `0x11`. The command `ADD Zed` stores a
record with the card id `0`: the invariant holds before the command and not after
it. -/
theorem ADD_stores_zero_id :
    nonzeroIds (toyTyped zeroCard [userAnn] (kwADD ++ [32] ++ nameZed)).db ∧
    (ReadCard toyEnv (List.replicate 8 0)
      (toyTyped zeroCard [userAnn] (kwADD ++ [32] ++ nameZed))).1 = true ∧
    (ReadCard toyEnv (List.replicate 8 0)
      (toyTyped zeroCard [userAnn] (kwADD ++ [32] ++ nameZed))).2.2.1.u8_UidLength = 4 ∧
    (ReadCard toyEnv (List.replicate 8 0)
      (toyTyped zeroCard [userAnn] (kwADD ++ [32] ++ nameZed))).2.1 = List.replicate 8 0 ∧
    (OnCommandReceived toyEnv true
      (toyTyped zeroCard [userAnn] (kwADD ++ [32] ++ nameZed))).db.recs.map (fun u => u.ID) =
        [0x11, 0] ∧
    ¬ nonzeroIds (OnCommandReceived toyEnv true
      (toyTyped zeroCard [userAnn] (kwADD ++ [32] ++ nameZed))).db := by
  have h5 : (OnCommandReceived toyEnv true
      (toyTyped zeroCard [userAnn] (kwADD ++ [32] ++ nameZed))).db.recs.map (fun u => u.ID) =
        [0x11, 0] := by decide
  refine ⟨?_, by decide, by decide, by decide, h5, ?_⟩
  · have : ∀ u ∈ (toyTyped zeroCard [userAnn] (kwADD ++ [32] ++ nameZed)).db.recs, u.ID ≠ 0 := by
      decide
    exact this
  · intro h
    have hmem : (0 : Nat) ∈ (OnCommandReceived toyEnv true
        (toyTyped zeroCard [userAnn] (kwADD ++ [32] ++ nameZed))).db.recs.map (fun u => u.ID) := by
      rw [h5]; simp
    obtain ⟨u, hu, hid⟩ := List.mem_map.mp hmem
    exact h u hu hid

/-- C15 (amended): provided that the reader never reports a present card whose id
is zero (whenever `ReadCard` returns true with a UID length that is not zero, the
eight bytes of the id are not all zero), the invariant "every stored record has a
card id that is not zero" holds for the empty table and is kept by
`OnCommandReceived` for every line, so by each of the commands ADD, DEL, DOOR1,
DOOR2, DOOR12, CLEAR and RESTORE, and it is kept by `ReadKeyboardInput`. -/
theorem registry_ids_stay_nonzero (E : Env κ σ)
    (hreader : ∀ (buf : List Nat) (s : DoorOpener κ σ), buf.length = 8 →
      (ReadCard E buf s).1 = true → (ReadCard E buf s).2.2.1.u8_UidLength ≠ 0 →
      ID_u64 (ReadCard E buf s).2.1 ≠ 0) :
    (∀ capacity : Nat, nonzeroIds { recs := [], capacity := capacity }) ∧
    (∀ (b_PasswordValid : Bool) (s : DoorOpener κ σ), nonzeroIds s.db →
      nonzeroIds (OnCommandReceived E b_PasswordValid s).db) ∧
    (∀ s : DoorOpener κ σ, nonzeroIds s.db → nonzeroIds (ReadKeyboardInput E s).2.db) := by
  have hcmd : ∀ (b : Bool) (s : DoorOpener κ σ), nonzeroIds s.db →
      nonzeroIds (OnCommandReceived E b s).db := by
    intro b s h
    cases b with
    | true =>
      rw [OnCommandReceived_true]
      exact (OnCommandReceived_commands_session E hreader (lineAccepted s)).1 h
    | false =>
      by_cases hp : cstr (receivedLine s) = PASSWORD
      · rw [OnCommandReceived_login E s hp]
        exact (OnCommandReceived_commands_session E hreader (loggedIn s)).1 h
      · rw [OnCommandReceived_wrong E s hp]
        exact h
  refine ⟨?_, hcmd, ?_⟩
  · intro capacity u hu
    simp at hu
  · intro s h
    exact ReadKeyboardInput_loop_ids E hcmd _ _ s h

set_option maxRecDepth 1000000 in
/-- C15 (amended), at a reader that reports the card `0x33` at every poll and a table
with the record of Ann: the command `ADD Zed` keeps the invariant. -/
theorem registry_ids_stay_nonzero_witness :
    (∀ (buf : List Nat) (s : DoorOpener ToyKey Unit), buf.length = 8 →
      (ReadCard fixedEnv buf s).1 = true → (ReadCard fixedEnv buf s).2.2.1.u8_UidLength ≠ 0 →
      ID_u64 (ReadCard fixedEnv buf s).2.1 ≠ 0) ∧
    nonzeroIds (fixedTyped [userAnn] (kwADD ++ [32] ++ nameZed)).db ∧
    nonzeroIds (OnCommandReceived fixedEnv true
      (fixedTyped [userAnn] (kwADD ++ [32] ++ nameZed))).db :=
  have hr : ∀ (buf : List Nat) (s : DoorOpener ToyKey Unit), buf.length = 8 →
      (ReadCard fixedEnv buf s).1 = true → (ReadCard fixedEnv buf s).2.2.1.u8_UidLength ≠ 0 →
      ID_u64 (ReadCard fixedEnv buf s).2.1 ≠ 0 :=
    fun buf s hb _ _ => fixedReader_reports buf s hb
  have h0 : nonzeroIds (fixedTyped [userAnn] (kwADD ++ [32] ++ nameZed)).db := by
    have : ∀ u ∈ (fixedTyped [userAnn] (kwADD ++ [32] ++ nameZed)).db.recs, u.ID ≠ 0 := by decide
    exact this
  ⟨hr, h0, (registry_ids_stay_nonzero fixedEnv hr).2.1 true _ h0⟩

end RegistryInvariant

section PasswordGate

variable {κ σ : Type}

/-- C16: while the session is expired (`b_PasswordValid` is false), a line that is
not exactly the password executes no command: the table, the state of the reader
(the debug level is part of it), `gb_InitSuccess` and the time stamp
`gu64_LastPasswd` are as before and the trace gets the line feed, the message
"Invalid password." and the delay of 500 ms only, whatever the line contains. A line
that is the password sets the time stamp to the tick count plus the offset and
prints the usage text only: the table and the state of the reader are as before.
`ReadKeyboardInput` gives a line that ends while the check of the session is false
to `OnCommandReceived` with `b_PasswordValid` false. -/
theorem password_gate (E : Env κ σ) (s : DoorOpener κ σ) :
    (cstr (receivedLine s) ≠ PASSWORD →
      (OnCommandReceived E false s).db = s.db ∧
      (OnCommandReceived E false s).gi_PN532 = s.gi_PN532 ∧
      (OnCommandReceived E false s).gb_InitSuccess = s.gb_InitSuccess ∧
      (OnCommandReceived E false s).gu64_LastPasswd = s.gu64_LastPasswd ∧
      (OnCommandReceived E false s).trace =
        s.trace ++ [Event.Print "\r\n", Event.Print "Invalid password.\r\n",
          Event.DelayMilli 500]) ∧
    (cstr (receivedLine s) = PASSWORD →
      OnCommandReceived E false s =
        OnCommandReceived_footer
          (if s.gb_InitSuccess then OnCommandReceived_usage (loggedIn s)
           else Print "Usage:\r\n" (Print
            "FATAL ERROR: The PN532 did not respond. (Board initialization failed)\r\n"
            (loggedIn s))) ∧
      (OnCommandReceived E false s).db = s.db ∧
      (OnCommandReceived E false s).gi_PN532 = s.gi_PN532 ∧
      (OnCommandReceived E false s).gb_InitSuccess = s.gb_InitSuccess ∧
      (OnCommandReceived E false s).gu64_LastPasswd =
        (GetMillis64 s + PASSWORD_OFFSET_MS) % 2 ^ 64) ∧
    (∀ (u64_Now c : Nat) (rest : List Nat), passwordValid u64_Now s.gu64_LastPasswd = false →
      s.serial = c :: rest → c = 13 ∨ c = 10 →
      ReadKeyboardInput_pass E u64_Now s =
        Print "\r\n> " (OnCommandReceived E false { s with serial := rest })) := by
  refine ⟨?_, ?_, ?_⟩
  · intro h
    rw [OnCommandReceived_wrong E s h]
    exact ⟨rfl, rfl, rfl, rfl, rfl⟩
  · intro h
    have hempty : (loggedIn s).gs8_CommandBuffer.headD 0 = 0 := by
      show ((receivedLine s).set 0 0).headD 0 = 0
      cases receivedLine s <;> rfl
    have heq := (OnCommandReceived_login E s h).trans
      (OnCommandReceived_commands_empty E (loggedIn s) hempty)
    have hgb : (loggedIn s).gb_InitSuccess = s.gb_InitSuccess := rfl
    rw [hgb] at heq
    refine ⟨heq, ?_, ?_, ?_, ?_⟩
    · rw [heq]
      have k : Keeps (loggedIn s) (OnCommandReceived_footer
          (if s.gb_InitSuccess = true then OnCommandReceived_usage (loggedIn s)
           else Print "Usage:\r\n" (Print
            "FATAL ERROR: The PN532 did not respond. (Board initialization failed)\r\n"
            (loggedIn s)))) :=
        Keeps.keeps_footer (Keeps.keeps_ite (Keeps.keeps_usage (Keeps.keeps_refl _))
          (Keeps.keeps_Print _ (Keeps.keeps_Print _ (Keeps.keeps_refl _))))
      exact k.1
    · rw [heq, (footer_reader _).1]
      split_ifs <;> rfl
    · rw [heq, (footer_reader _).2]
      split_ifs <;> rfl
    · rw [heq]
      have k : Keeps (loggedIn s) (OnCommandReceived_footer
          (if s.gb_InitSuccess = true then OnCommandReceived_usage (loggedIn s)
           else Print "Usage:\r\n" (Print
            "FATAL ERROR: The PN532 did not respond. (Board initialization failed)\r\n"
            (loggedIn s)))) :=
        Keeps.keeps_footer (Keeps.keeps_ite (Keeps.keeps_usage (Keeps.keeps_refl _))
          (Keeps.keeps_Print _ (Keeps.keeps_Print _ (Keeps.keeps_refl _))))
      exact k.2.1
  · intro u64_Now c rest hv hs hc
    rw [ReadKeyboardInput_pass_enter E u64_Now s c rest hs hc, hv]

set_option maxRecDepth 1000000 in
/-- C16 at a device with an expired session where the line `CLEAR` was typed: the
line is not the password, and nothing but the three events of the refusal
happens. -/
theorem password_gate_witness :
    cstr (receivedLine (toyTyped classicCard [userAnn] kwCLEAR)) ≠ PASSWORD ∧
    (OnCommandReceived toyEnv false (toyTyped classicCard [userAnn] kwCLEAR)).db =
      (toyTyped classicCard [userAnn] kwCLEAR).db ∧
    (OnCommandReceived toyEnv false (toyTyped classicCard [userAnn] kwCLEAR)).gi_PN532 =
      (toyTyped classicCard [userAnn] kwCLEAR).gi_PN532 ∧
    (OnCommandReceived toyEnv false (toyTyped classicCard [userAnn] kwCLEAR)).gb_InitSuccess =
      (toyTyped classicCard [userAnn] kwCLEAR).gb_InitSuccess ∧
    (OnCommandReceived toyEnv false (toyTyped classicCard [userAnn] kwCLEAR)).gu64_LastPasswd =
      (toyTyped classicCard [userAnn] kwCLEAR).gu64_LastPasswd ∧
    (OnCommandReceived toyEnv false (toyTyped classicCard [userAnn] kwCLEAR)).trace =
      (toyTyped classicCard [userAnn] kwCLEAR).trace ++
        [Event.Print "\r\n", Event.Print "Invalid password.\r\n", Event.DelayMilli 500] :=
  ⟨by decide,
    (password_gate toyEnv (toyTyped classicCard [userAnn] kwCLEAR)).1 (by decide)⟩

end PasswordGate

section SessionWindow

variable {κ σ : Type}

/-- C17: `t` is the tick count that `ReadKeyboardInput` reads at its start
(`u64_Now` is `t + PASSWORD_OFFSET_MS`) and `tLast` is the tick count at which the
last line was accepted, so that `gu64_LastPasswd` is `tLast + PASSWORD_OFFSET_MS`.
With `t >= tLast`, a line that ends (with the character CR or LF) goes to
`OnCommandReceived` with `b_PasswordValid` true exactly when `t - tLast < 300000`.
With `b_PasswordValid` true the line is looked up as a command without a check of
the password; with `b_PasswordValid` false a line that is not the password leaves
the time stamp as it is. Every line that is accepted and is not EXIT sets the time
stamp to the tick count of that moment plus the offset, also a line that is not the
login: the window starts anew with every accepted command. -/
theorem session_window (E : Env κ σ) (s : DoorOpener κ σ) (t tLast c : Nat) (rest : List Nat)
    (hclock : t + PASSWORD_OFFSET_MS < 2 ^ 64)
    (hlast : s.gu64_LastPasswd = tLast + PASSWORD_OFFSET_MS)
    (hle : tLast ≤ t) (hser : s.serial = c :: rest) (hc : c = 13 ∨ c = 10) :
    ReadKeyboardInput_pass E ((t + PASSWORD_OFFSET_MS) % 2 ^ 64) s =
      Print "\r\n> "
        (OnCommandReceived E (decide (t - tLast < 300000)) { s with serial := rest }) ∧
    (∀ s' : DoorOpener κ σ, (ReadKeyboardInput E s').2 =
      ReadKeyboardInput_loop E ((GetMillis64 s' + PASSWORD_OFFSET_MS) % 2 ^ 64)
        s'.serial.length s') ∧
    (s.millis = t → rest = [] →
      (ReadKeyboardInput E s).2 =
        Print "\r\n> "
          (OnCommandReceived E (decide (t - tLast < 300000)) { s with serial := [] })) ∧
    (∀ s' : DoorOpener κ σ,
      OnCommandReceived E true s' = OnCommandReceived_commands E (lineAccepted s')) ∧
    (∀ s' : DoorOpener κ σ, cstr (receivedLine s') ≠ PASSWORD →
      (OnCommandReceived E false s').gu64_LastPasswd = s'.gu64_LastPasswd) ∧
    (∀ s' : DoorOpener κ σ, stricmp (receivedLine s') kwEXIT ≠ 0 →
      (OnCommandReceived E true s').gu64_LastPasswd =
        (GetMillis64 s' + PASSWORD_OFFSET_MS) % 2 ^ 64) := by
  refine ⟨?_, fun _ => rfl, ?_, fun s' => OnCommandReceived_true E s', ?_, ?_⟩
  · rw [ReadKeyboardInput_pass_enter E _ s c rest hser hc, hlast,
      passwordValid_window t tLast hle hclock]
  · intro hm hrest
    subst hrest
    rw [ReadKeyboardInput_enter E s c hser hc, hlast]
    have hm' : GetMillis64 s = t := by
      unfold GetMillis64
      rw [hm]
      exact Nat.mod_eq_of_lt (by omega)
    rw [hm', passwordValid_window t tLast hle hclock]
  · intro s' h
    rw [OnCommandReceived_wrong E s' h]
  · intro s' h
    rw [OnCommandReceived_true]
    have hr : ∀ (buf : List Nat) (s0 : DoorOpener κ σ), buf.length = 8 →
        (ReadCard E buf s0).1 = true → (ReadCard E buf s0).2.2.1.u8_UidLength ≠ 0 →
        (fun _ : Nat => True) (ID_u64 (ReadCard E buf s0).2.1) := fun _ _ _ _ _ => trivial
    exact (OnCommandReceived_commands_session (P := fun _ => True) E hr (lineAccepted s')).2 h

set_option maxRecDepth 1000000 in
/-- C17 at a device whose last line was accepted at the tick count 100000 and where
the line `LIST` ends at the tick count 399999: the line is taken as a command. -/
theorem session_window_witness :
    ReadKeyboardInput_pass toyEnv ((399999 + PASSWORD_OFFSET_MS) % 2 ^ 64)
      { toyTyped classicCard [userAnn] kwLIST with
        millis := 399999, gu64_LastPasswd := 700000, serial := [13] } =
      Print "\r\n> "
        (OnCommandReceived toyEnv (decide (399999 - 100000 < 300000))
          { toyTyped classicCard [userAnn] kwLIST with
            millis := 399999, gu64_LastPasswd := 700000, serial := [] }) :=
  (session_window toyEnv
    { toyTyped classicCard [userAnn] kwLIST with
      millis := 399999, gu64_LastPasswd := 700000, serial := [13] }
    399999 100000 13 [] (by decide) (by decide) (by decide) rfl (Or.inl rfl)).1

end SessionWindow

section UnsetSession

variable {κ σ : Type}

/-- C18: the time stamp `gu64_LastPasswd` is `0` when the object is made and after
the command EXIT. With the time stamp `0` the check of the session,
`(now + PASSWORD_OFFSET_MS) - 0 < PASSWORD_TIMEOUT * 60 * 1000`, is false for every
tick count `now` for which `now + PASSWORD_OFFSET_MS` does not overflow 64 bits: the
offset is 600000 ms and the window is 300000 ms. So a line that ends then goes to
`OnCommandReceived` with `b_PasswordValid` false: it is a password attempt. -/
theorem unset_session_is_expired (E : Env κ σ) :
    PASSWORD_OFFSET_MS = 600000 ∧ PASSWORD_TIMEOUT * 60 * 1000 = 300000 ∧
    (∀ (buf : List Nat) (reader : σ) (key : κ) (db : EDB),
      (powerOn buf reader key db).gu64_LastPasswd = 0) ∧
    (∀ s : DoorOpener κ σ, stricmp (receivedLine s) kwEXIT = 0 →
      (OnCommandReceived E true s).gu64_LastPasswd = 0) ∧
    (∀ now : Nat, now + PASSWORD_OFFSET_MS < 2 ^ 64 →
      passwordValid ((now + PASSWORD_OFFSET_MS) % 2 ^ 64) 0 = false) ∧
    (∀ (s : DoorOpener κ σ) (c : Nat), s.gu64_LastPasswd = 0 →
      s.millis + PASSWORD_OFFSET_MS < 2 ^ 64 → s.serial = [c] → c = 13 ∨ c = 10 →
      (ReadKeyboardInput E s).2 =
        Print "\r\n> " (OnCommandReceived E false { s with serial := [] })) := by
  refine ⟨by decide, by decide, fun _ _ _ _ => rfl, ?_, passwordValid_zero, ?_⟩
  · intro s h
    rw [OnCommandReceived_true, OnCommandReceived_commands_EXIT E (lineAccepted s) h]
    rfl
  · intro s c h0 hclock hser hc
    rw [ReadKeyboardInput_enter E s c hser hc, h0]
    have hm : GetMillis64 s = s.millis := by
      unfold GetMillis64
      exact Nat.mod_eq_of_lt (by omega)
    rw [hm, passwordValid_zero s.millis hclock]

set_option maxRecDepth 1000000 in
/-- C18 at a device right after the start (tick count 0, time stamp 0) where the line
`LIST` ends: the line is a password attempt. -/
theorem unset_session_is_expired_witness :
    (ReadKeyboardInput toyEnv { toyTyped classicCard [userAnn] kwLIST with serial := [13] }).2 =
      Print "\r\n> "
        (OnCommandReceived toyEnv false
          { toyTyped classicCard [userAnn] kwLIST with serial := [] }) :=
  (unset_session_is_expired toyEnv).2.2.2.2.2
    { toyTyped classicCard [userAnn] kwLIST with serial := [13] } 13 rfl (by decide) rfl
    (Or.inl rfl)

end UnsetSession

section ReaderGating

variable {κ σ : Type}

/-- C19: while the reader is not initialized (`gb_InitSuccess` is false), a line
that is taken as a command leaves the table as it is and sends no command to a
card, whatever the line is: the calls on the reader that it can make are
`SetDebugLevel` and the four calls of `InitReader`. The line `DEBUG d` with a digit
`d` from 0 to 3 still makes the call `SetDebugLevel(d)`, the line RESET still runs
`InitReader` and after it prints only, and the line EXIT still sets the time stamp
`gu64_LastPasswd` to zero. -/
theorem commands_need_ready_reader (E : Env κ σ) (s : DoorOpener κ σ)
    (h : s.gb_InitSuccess = false) :
    (OnCommandReceived E true s).db = s.db ∧
    (∃ t, (OnCommandReceived E true s).trace = s.trace ++ t ∧ ∀ e ∈ t, noCardOperation e) ∧
    (∀ d : Nat, d ≤ 3 → cstr (receivedLine s) = kwDEBUG ++ [32, 48 + d] →
      (OnCommandReceived E true s).gi_PN532 =
        (E.PN532.exec (DesfireCmd.SetDebugLevel d) s.gi_PN532).2 ∧
      (OnCommandReceived E true s).trace =
        s.trace ++ [Event.Print "\r\n", Event.Reader (DesfireCmd.SetDebugLevel d)]) ∧
    (stricmp (receivedLine s) kwRESET = 0 →
      OnCommandReceived E true s =
        if (InitReader E false (lineAccepted s)).gb_InitSuccess then
          Print "PN532 initialized successfully\r\n" (InitReader E false (lineAccepted s))
        else OnCommandReceived_footer (Print "Usage:\r\n" (Print
          "FATAL ERROR: The PN532 did not respond. (Board initialization failed)\r\n"
          (InitReader E false (lineAccepted s))))) ∧
    (stricmp (receivedLine s) kwEXIT = 0 →
      (OnCommandReceived E true s).gu64_LastPasswd = 0 ∧
      (OnCommandReceived E true s).trace =
        s.trace ++ [Event.Print "\r\n", Event.Print "You have logged out.\r\n"]) := by
  have hx := OnCommandReceived_commands_not_ready E (lineAccepted s) h
  rw [OnCommandReceived_true]
  refine ⟨hx.2.1, ?_, ?_, ?_, ?_⟩
  · obtain ⟨_, _, _, t, ht, hP⟩ := hx
    refine ⟨Event.Print "\r\n" :: t, ?_, ?_⟩
    · rw [ht]
      show (s.trace ++ [Event.Print "\r\n"]) ++ t = s.trace ++ Event.Print "\r\n" :: t
      simp
    · intro e he
      rcases List.mem_cons.mp he with he | he
      · rw [he]; simp [noCardOperation]
      · exact hP e he
  · intro d hd hline
    have hline' : cstr (lineAccepted s).gs8_CommandBuffer = kwDEBUG ++ [32, 48 + d] := hline
    have hD : strnicmp (lineAccepted s).gs8_CommandBuffer kwDEBUG 5 = 0 := by
      rw [← strnicmp_cstr, hline']
      simp [kwDEBUG, strnicmp, toUpper]
    have hdrop : cstr ((lineAccepted s).gs8_CommandBuffer.drop 5) = 32 :: [48 + d] := by
      rw [cstr_drop 5 _ (by rw [hline']; simp [kwDEBUG]), hline']
      rfl
    have hstrip : stripSpaces [48 + d] = [48 + d] := by
      interval_cases d <;> decide
    have hpp := ParseParameter_of_cstr _ _ 1 1 hdrop
    rw [hstrip] at hpp
    have hp1 : (ParseParameter ((lineAccepted s).gs8_CommandBuffer.drop 5) 1 1).1 = true :=
      hpp.1.mpr (by simp)
    have hp2 := hpp.2 hp1
    have ha1 : (ParseParameter_at 5 1 1 (lineAccepted s)).1 = true := hp1
    have ha2 : (ParseParameter_at 5 1 1 (lineAccepted s)).2.1 = [48 + d] := hp2.1
    have ha3 : (ParseParameter_at 5 1 1 (lineAccepted s)).2.2.trace =
        s.trace ++ [Event.Print "\r\n"] := by
      show (s.trace ++ [Event.Print "\r\n"]) ++
        (ParseParameter ((lineAccepted s).gs8_CommandBuffer.drop 5) 1 1).2.2.2.map Event.Print = _
      rw [hp2.2]
      simp
    rw [OnCommandReceived_commands_DEBUG E _ hD, ha1, ha2]
    have hlev : ¬ (([48 + d] : List Nat).getD 0 0 < 48 ∨ ([48 + d] : List Nat).getD 0 0 > 51) := by
      simp; omega
    simp only [Bool.not_true, Bool.false_eq_true, if_false, hlev]
    have hsub : ([48 + d] : List Nat).getD 0 0 - 48 = d := by simp
    rw [hsub]
    refine ⟨rfl, ?_⟩
    rw [pn532_trace, ha3]
    simp
  · intro hR
    exact OnCommandReceived_commands_RESET E (lineAccepted s) hR
  · intro hE
    rw [OnCommandReceived_commands_EXIT E (lineAccepted s) hE]
    refine ⟨rfl, ?_⟩
    show (s.trace ++ [Event.Print "\r\n"]) ++ [Event.Print "You have logged out.\r\n"] = _
    simp

set_option maxRecDepth 1000000 in
/-- C19 at a device whose reader is not initialized and where the line `CLEAR` was
typed: the table is as before. -/
theorem commands_need_ready_reader_witness :
    ({ toyTyped classicCard [userAnn] kwCLEAR with gb_InitSuccess := false } :
      DoorOpener ToyKey (Card ToyKey)).gb_InitSuccess = false ∧
    (OnCommandReceived toyEnv true
      { toyTyped classicCard [userAnn] kwCLEAR with gb_InitSuccess := false }).db =
      ({ toyTyped classicCard [userAnn] kwCLEAR with gb_InitSuccess := false } :
        DoorOpener ToyKey (Card ToyKey)).db :=
  ⟨rfl, (commands_need_ready_reader toyEnv
    { toyTyped classicCard [userAnn] kwCLEAR with gb_InitSuccess := false } rfl).1⟩

end ReaderGating

section Parameter

variable {κ σ : Type}

/-- C20: `ParseParameter` returns true exactly when the string at `s8_Command` begins
with a space and the rest of it, with all leading and all trailing spaces removed,
has a length `L` with `minLength <= L <= maxLength`. When it returns true, the
parameter is that stripped string, which neither begins nor ends with a space. When
it returns false at one of its six calls in `OnCommandReceived` (after DEBUG, ADD,
DEL, DOOR12, DOOR1, DOOR2), `OnCommandReceived` ends right after the call: the
table, the state of the reader, the latch and the time stamp are as before the call
and the trace gets only the message of `ParseParameter`. -/
theorem ParseParameter_accepts_iff :
    (∀ (s8_Command : List Nat) (minLength maxLength : Int),
      (ParseParameter s8_Command minLength maxLength).1 = true ↔
        ∃ rest, cstr s8_Command = 32 :: rest ∧ minLength ≤ ((stripSpaces rest).length : Int) ∧
          ((stripSpaces rest).length : Int) ≤ maxLength) ∧
    (∀ (s8_Command rest : List Nat) (minLength maxLength : Int),
      cstr s8_Command = 32 :: rest →
      (ParseParameter s8_Command minLength maxLength).1 = true →
      (ParseParameter s8_Command minLength maxLength).2.1 = stripSpaces rest) ∧
    (∀ l : List Nat, (stripSpaces l).head? ≠ some 32 ∧ (stripSpaces l).getLast? ≠ some 32) ∧
    (∀ (E : Env κ σ) (s : DoorOpener κ σ) (kw : List Nat) (n : Nat) (minLength maxLength : Int),
      (kw, n, minLength, maxLength) ∈ parameterSites →
      (kw ≠ kwDEBUG → s.gb_InitSuccess = true) →
      strnicmp s.gs8_CommandBuffer kw n = 0 →
      (kw = kwDOOR1 → strnicmp s.gs8_CommandBuffer kwDOOR12 6 ≠ 0) →
      (ParseParameter (s.gs8_CommandBuffer.drop n) minLength maxLength).1 = false →
      (OnCommandReceived_commands E s).db = s.db ∧
      (OnCommandReceived_commands E s).gi_PN532 = s.gi_PN532 ∧
      (OnCommandReceived_commands E s).gu64_LastID = s.gu64_LastID ∧
      (OnCommandReceived_commands E s).gu64_LastPasswd = s.gu64_LastPasswd ∧
      (OnCommandReceived_commands E s).trace =
        s.trace ++ (ParseParameter (s.gs8_CommandBuffer.drop n) minLength maxLength).2.2.2.map
          Event.Print ∧
      (ParseParameter (s.gs8_CommandBuffer.drop n) minLength maxLength).2.2.2 ∈
        [["Invalid command\r\n"], ["Parameter too long.\r\n"], ["Parameter too short.\r\n"]]) := by
  refine ⟨?_, ?_, stripSpaces_ends, ?_⟩
  · intro mem a b
    constructor
    · intro h
      by_cases h32 : ∃ rest, cstr mem = 32 :: rest
      · obtain ⟨rest, hr⟩ := h32
        exact ⟨rest, hr, (ParseParameter_of_cstr mem rest a b hr).1.mp h⟩
      · have := ParseParameter_false_of_cstr mem a b (fun rest hr => h32 ⟨rest, hr⟩)
        rw [this] at h
        cases h
    · rintro ⟨rest, hr, hL⟩
      exact (ParseParameter_of_cstr mem rest a b hr).1.mpr hL
  · intro mem rest a b hr h
    exact ((ParseParameter_of_cstr mem rest a b hr).2 h).1
  · intro E s kw n a b hmem hg hkw h12 hp
    rw [OnCommandReceived_commands_rejected E s kw n a b hmem hg hkw h12 hp]
    refine ⟨rfl, rfl, rfl, rfl, rfl, ?_⟩
    unfold ParseParameter at hp ⊢
    dsimp only at hp ⊢
    split_ifs at hp ⊢ <;> simp at hp ⊢

set_option maxRecDepth 1000000 in
/-- C20 at a device where the line `ADD ab` was received: the parameter is too
short, and the command changes neither the table nor the state of the reader. -/
theorem ParseParameter_accepts_iff_witness :
    (ParseParameter ((toyLine (kwADD ++ [32, 97, 98])).drop 3) 3 63).1 = false ∧
    (OnCommandReceived_commands toyEnv
      { toyState classicCard [userAnn] with
        gs8_CommandBuffer := toyLine (kwADD ++ [32, 97, 98]) }).db =
      (toyState classicCard [userAnn]).db ∧
    (OnCommandReceived_commands toyEnv
      { toyState classicCard [userAnn] with
        gs8_CommandBuffer := toyLine (kwADD ++ [32, 97, 98]) }).gi_PN532 = classicCard :=
  have h := (ParseParameter_accepts_iff (κ := ToyKey) (σ := Card ToyKey)).2.2.2 toyEnv
    { toyState classicCard [userAnn] with
      gs8_CommandBuffer := toyLine (kwADD ++ [32, 97, 98]) }
    kwADD 3 3 63 (by decide) (fun _ => rfl) (by decide) (fun h => absurd h (by decide))
    (by decide)
  ⟨by decide, h.1, h.2.1⟩

end Parameter

/-! ## Lemmas on `AddCard` -/

section AddCardLemmas

variable {κ σ : Type}

theorem StoreNewUser_call_db (u : kUser) (s : DoorOpener κ σ) :
    (StoreNewUser_call u s).2.db = (StoreNewUser s.db u).2 := by
  unfold StoreNewUser_call
  dsimp only
  split_ifs with h
  · show s.db = (StoreNewUser s.db u).2
    unfold StoreNewUser at h ⊢
    dsimp only at h ⊢
    split_ifs at h ⊢ with h1
    · unfold EDB.appendRec at h1 ⊢
      split_ifs at h1 ⊢
      · rfl
      · exact absurd rfl h1
    · simp at h
  · rfl

theorem StoreNewUser_cases (db : EDB) (u : kUser) :
    (db.capacity ≤ db.count ∧ StoreNewUser db u = (false, db)) ∨
    (db.count < db.capacity ∧
      StoreNewUser db u = (true, { recs := db.recs ++ [u], capacity := db.capacity })) := by
  unfold StoreNewUser EDB.appendRec
  by_cases h : db.count ≥ db.capacity
  · left
    exact ⟨h, by simp [h]⟩
  · right
    exact ⟨by omega, by simp [h]⟩

theorem cstr_append_zero (name rest : List Nat) (h : ∀ c ∈ name, c ≠ 0) :
    cstr (name ++ 0 :: rest) = name := by
  induction name with
  | nil => simp [cstr_cons]
  | cons c r ih =>
    have hc : c ≠ 0 := h c (List.mem_cons_self _ _)
    simp only [List.cons_append, cstr_cons, hc, if_false]
    rw [ih (fun x hx => h x (List.mem_cons_of_mem _ hx))]

theorem cstr_name_buffer (buf name : List Nat) (hb : buf.length = NAME_BUF_SIZE)
    (hl : name.length < NAME_BUF_SIZE) (h : ∀ c ∈ name, c ≠ 0) :
    cstr (overwrite buf (name ++ [0])) = name := by
  unfold overwrite
  have : (name ++ [0]).take buf.length = name ++ [0] := by
    apply List.take_of_length_le
    simp
    omega
  rw [this, List.append_assoc]
  exact cstr_append_zero name _ h

theorem cstr_nonzero (l : List Nat) : ∀ c ∈ cstr l, c ≠ 0 := by
  intro c hc
  have := List.mem_takeWhile_imp hc
  simpa using this

end AddCardLemmas

section AddCardShape

variable {κ σ : Type}

theorem AddCard_state_keeps (E : Env κ σ) (s : DoorOpener κ σ) : Keeps s (AddCard_state E s) :=
  Keeps.keeps_WaitForCard E _ (Keeps.keeps_refl s)

theorem AddCard_cardOps_keeps (E : Env κ σ) (name : List Nat) (s : DoorOpener κ σ) :
    Keeps s (AddCard_cardOps E name s).2 := by
  have h := AddCard_state_keeps E s
  unfold AddCard_cardOps
  dsimp only
  with_reducible repeat
    (first | exact h | apply Keeps.keeps_ite2 | apply Keeps.keeps_StoreDesfireSecret
           | apply Keeps.keeps_ChangePiccMasterKey)

theorem AddCard_eq (E : Env κ σ) (name : List Nat) (s : DoorOpener κ σ) :
    AddCard E name s =
      if !(WaitForCard E kUser.zero s).1 then (WaitForCard E kUser.zero s).2.2.2
      else if (FindUser (AddCard_state E s).db (AddCard_user E name s).ID kUser.zero).1 then
        emit (Event.PrintBuf (cstr
            (FindUser (AddCard_state E s).db (AddCard_user E name s).ID kUser.zero).2.s8_Name))
          (Print "This card has already been stored for user " (AddCard_state E s))
      else if (WaitForCard E kUser.zero s).2.2.1.e_CardType.val &&&
          eCardType.CARD_Desfire.val = 0 then
        if !ALLOW_ALSO_CLASSIC then Print "The card is not a Desfire card.\r\n" (AddCard_state E s)
        else (StoreNewUser_call { AddCard_user E name s with u8_Flags := DOOR_ONE }
          (AddCard_state E s)).2
      else
        if !(ChangePiccMasterKey E (AddCard_state E s)).1 then
          (ChangePiccMasterKey E (AddCard_state E s)).2
        else if (WaitForCard E kUser.zero s).2.2.1.e_CardType ≠ eCardType.CARD_DesRandom then
          if !(StoreDesfireSecret E (AddCard_user E name s)
              (ChangePiccMasterKey E (AddCard_state E s)).2).1 then
            Print "Could not personalize the card.\r\n"
              (StoreDesfireSecret E (AddCard_user E name s)
                (ChangePiccMasterKey E (AddCard_state E s)).2).2
          else (StoreNewUser_call { AddCard_user E name s with u8_Flags := DOOR_ONE }
            (StoreDesfireSecret E (AddCard_user E name s)
              (ChangePiccMasterKey E (AddCard_state E s)).2).2).2
        else (StoreNewUser_call { AddCard_user E name s with u8_Flags := DOOR_ONE }
          (ChangePiccMasterKey E (AddCard_state E s)).2).2 := rfl

/-- The paths of `AddCard`. -/
theorem AddCard_cases (E : Env κ σ) (name : List Nat) (s : DoorOpener κ σ) :
    ((WaitForCard E kUser.zero s).1 = true ∧
      (FindUser s.db (AddCard_user E name s).ID kUser.zero).1 = false ∧
      (AddCard_cardOps E name s).1 = true ∧
      AddCard E name s =
        (StoreNewUser_call { AddCard_user E name s with u8_Flags := DOOR_ONE }
          (AddCard_cardOps E name s).2).2) ∨
    (((WaitForCard E kUser.zero s).1 = false ∨
      (FindUser s.db (AddCard_user E name s).ID kUser.zero).1 = true ∨
      (AddCard_cardOps E name s).1 = false) ∧
      Keeps s (AddCard E name s)) := by
  have hs := AddCard_state_keeps E s
  have hw : Keeps s (WaitForCard E kUser.zero s).2.2.2 :=
    Keeps.keeps_WaitForCard E _ (Keeps.keeps_refl s)
  have hk := AddCard_cardOps_keeps E name s
  rw [AddCard_eq, hs.1]
  unfold AddCard_cardOps at hk ⊢
  dsimp only at hk ⊢
  by_cases h1 : (WaitForCard E kUser.zero s).1 = true
  · have h1n : ¬ ((!(WaitForCard E kUser.zero s).1) = true) := by simp [h1]
    rw [if_neg h1n]
    by_cases h2 : (FindUser s.db (AddCard_user E name s).ID kUser.zero).1 = true
    · rw [if_pos h2]
      right
      exact ⟨Or.inr (Or.inl h2), Keeps.keeps_emit _ (Keeps.keeps_Print _ hs)⟩
    · rw [if_neg h2]
      have h2f : (FindUser s.db (AddCard_user E name s).ID kUser.zero).1 = false := by
        simpa using h2
      split_ifs at hk ⊢ with c1 c2 c3 c4 c5
      all_goals
        first
          | (left; exact ⟨h1, h2f, by first | rfl | assumption | simp_all, rfl⟩)
          | (right; refine ⟨Or.inr (Or.inr (by first | rfl | simp_all)), ?_⟩
             exact hk)
  · have h1p : (!(WaitForCard E kUser.zero s).1) = true := by simpa using h1
    rw [if_pos h1p]
    right
    exact ⟨Or.inl (by simpa using h1), hw⟩

theorem WaitForCard_presented (E : Env κ σ) (s : DoorOpener κ σ)
    (h : (WaitForCard E kUser.zero s).1 = true) :
    ∃ (buf : List Nat) (s0 : DoorOpener κ σ), (ReadCard E buf s0).1 = true ∧
      (ReadCard E buf s0).2.2.1.u8_UidLength ≠ 0 ∧
      (WaitForCard E kUser.zero s).2.1.ID = ID_u64 (ReadCard E buf s0).2.1 :=
  WaitForCard_loop_id
    (P := fun id => ∃ (buf : List Nat) (s0 : DoorOpener κ σ), (ReadCard E buf s0).1 = true ∧
      (ReadCard E buf s0).2.2.1.u8_UidLength ≠ 0 ∧ id = ID_u64 (ReadCard E buf s0).2.1)
    E (fun buf s0 _ h1 h2 => ⟨buf, s0, h1, h2, rfl⟩) _ _ _ _ h

theorem ParseParameter_true_param (mem : List Nat) (a b : Int)
    (h : (ParseParameter mem a b).1 = true) :
    a ≤ ((ParseParameter mem a b).2.1.length : Int) ∧
    ((ParseParameter mem a b).2.1.length : Int) ≤ b ∧
    ∀ c ∈ (ParseParameter mem a b).2.1, c ≠ 0 := by
  by_cases h32 : ∃ rest, cstr mem = 32 :: rest
  · obtain ⟨rest, hr⟩ := h32
    have hp := ParseParameter_of_cstr mem rest a b hr
    have hL := hp.1.mp h
    rw [(hp.2 h).1]
    refine ⟨hL.1, hL.2, ?_⟩
    intro c hc
    have hsub : stripSpaces rest <+: rest.dropWhile (fun c => c == 32) := by
      unfold stripSpaces
      exact List.rdropWhile_prefix _ _
    have h1 : c ∈ rest := (List.dropWhile_sublist _).subset (hsub.subset hc)
    have h2 : c ∈ cstr mem := by rw [hr]; exact List.mem_cons_of_mem _ h1
    exact cstr_nonzero mem c h2
  · rw [ParseParameter_false_of_cstr mem a b (fun rest hr => h32 ⟨rest, hr⟩)] at h
    cases h

/-- The command ADD, when the reader is initialized. -/
theorem OnCommandReceived_commands_ADD (E : Env κ σ) (s : DoorOpener κ σ)
    (hg : s.gb_InitSuccess = true) (hkw : strnicmp s.gs8_CommandBuffer kwADD 3 = 0) :
    OnCommandReceived_commands E s =
      if !(ParseParameter_at 3 3 (NAME_BUF_SIZE - 1 : Nat) s).1 then
        (ParseParameter_at 3 3 (NAME_BUF_SIZE - 1 : Nat) s).2.2
      else (pn532 E DesfireCmd.SwitchOffRfField
        (AddCard E (ParseParameter_at 3 3 (NAME_BUF_SIZE - 1 : Nat) s).2.1
          (ParseParameter_at 3 3 (NAME_BUF_SIZE - 1 : Nat) s).2.2)).2 := by
  rw [OnCommandReceived_commands_ready E s hg
    (strnicmp_excl _ _ _ _ _ 0 hkw (by decide) (by decide) (by decide) (by decide) (by decide))
    (stricmp_excl _ _ _ _ hkw (by decide)) (stricmp_excl _ _ _ _ hkw (by decide))]
  unfold OnCommandReceived_ready
  rw [if_neg (stricmp_excl _ _ _ _ hkw (by decide)),
    if_neg (stricmp_excl _ _ _ _ hkw (by decide)),
    if_neg (stricmp_excl _ _ _ _ hkw (by decide)),
    if_neg (stricmp_excl _ _ _ _ hkw (by decide)), if_pos hkw]

/-- The table after `AddCard`: as before, or with one record appended. -/
theorem AddCard_db_cases (E : Env κ σ) (s8_UserName : List Nat) (s : DoorOpener κ σ) :
    (AddCard E s8_UserName s).db = s.db ∨
      (AddCard E s8_UserName s).db =
        { recs := s.db.recs ++ [{ AddCard_user E s8_UserName s with u8_Flags := DOOR_ONE }],
          capacity := s.db.capacity } := by
  have hk := AddCard_cardOps_keeps E s8_UserName s
  rcases AddCard_cases E s8_UserName s with ⟨_, _, _, h⟩ | ⟨_, h⟩
  · rw [h, StoreNewUser_call_db, hk.1]
    rcases StoreNewUser_cases s.db { AddCard_user E s8_UserName s with u8_Flags := DOOR_ONE }
      with ⟨_, h2⟩ | ⟨_, h2⟩
    · left; rw [h2]
    · right; rw [h2]
  · exact Or.inl h.1

/-- The name in the record of `AddCard` is the name that was given. -/
theorem AddCard_user_name (E : Env κ σ) (s8_UserName : List Nat) (s : DoorOpener κ σ)
    (hl : s8_UserName.length < NAME_BUF_SIZE) (h0 : ∀ c ∈ s8_UserName, c ≠ 0) :
    cstr (AddCard_user E s8_UserName s).s8_Name = s8_UserName :=
  cstr_name_buffer _ _ (fit_length _ _) hl h0

end AddCardShape

/-! ## Properties of the specification: the commands on cards -/

section AddCardProperties

variable {κ σ : Type}

/-- C22: `AddCard` changes the table at most by one insert, the append of the record
with the card id that `WaitForCard` has delivered (an id that `ReadCard` read from a
card with a UID length that is not zero), the given name and the flags `DOOR_ONE`.
The table changes only if `WaitForCard` returned true, the lookup of the card id in
the table returned false and every card operation for the kind of the card
succeeded: none for a card that is not a Desfire card, `ChangePiccMasterKey` for a
Desfire card, and after it `StoreDesfireSecret` for a Desfire card without random
id. When these conditions hold, the call `StoreNewUser` is the last step, made in the
state after the card operations; in every other case the table (and the time stamp
and the command buffer) are left as they are. -/
theorem AddCard_single_insert (E : Env κ σ) (s8_UserName : List Nat) (s : DoorOpener κ σ) :
    ((AddCard E s8_UserName s).db = s.db ∨
      (AddCard E s8_UserName s).db =
        { recs := s.db.recs ++ [{ AddCard_user E s8_UserName s with u8_Flags := DOOR_ONE }],
          capacity := s.db.capacity }) ∧
    ((AddCard E s8_UserName s).db ≠ s.db →
      (WaitForCard E kUser.zero s).1 = true ∧
      (FindUser s.db (AddCard_user E s8_UserName s).ID kUser.zero).1 = false ∧
      (AddCard_cardOps E s8_UserName s).1 = true ∧ s.db.count < s.db.capacity) ∧
    ((WaitForCard E kUser.zero s).1 = true →
      (FindUser s.db (AddCard_user E s8_UserName s).ID kUser.zero).1 = false →
      (AddCard_cardOps E s8_UserName s).1 = true →
      AddCard E s8_UserName s =
        (StoreNewUser_call { AddCard_user E s8_UserName s with u8_Flags := DOOR_ONE }
          (AddCard_cardOps E s8_UserName s).2).2 ∧
      (s.db.count < s.db.capacity →
        (AddCard E s8_UserName s).db =
          { recs := s.db.recs ++ [{ AddCard_user E s8_UserName s with u8_Flags := DOOR_ONE }],
            capacity := s.db.capacity })) ∧
    ((AddCard_cardOps E s8_UserName s).1 = true ↔
      ((WaitForCard E kUser.zero s).2.2.1.e_CardType.val &&& eCardType.CARD_Desfire.val = 0 ∨
        ((WaitForCard E kUser.zero s).2.2.1.e_CardType.val &&& eCardType.CARD_Desfire.val ≠ 0 ∧
          (ChangePiccMasterKey E (AddCard_state E s)).1 = true ∧
          ((WaitForCard E kUser.zero s).2.2.1.e_CardType = eCardType.CARD_DesRandom ∨
            (StoreDesfireSecret E (AddCard_user E s8_UserName s)
              (ChangePiccMasterKey E (AddCard_state E s)).2).1 = true)))) ∧
    ((AddCard_user E s8_UserName s).ID = (WaitForCard E kUser.zero s).2.1.ID ∧
      ((WaitForCard E kUser.zero s).1 = true →
        ∃ (buf : List Nat) (s0 : DoorOpener κ σ), (ReadCard E buf s0).1 = true ∧
          (ReadCard E buf s0).2.2.1.u8_UidLength ≠ 0 ∧
          (AddCard_user E s8_UserName s).ID = ID_u64 (ReadCard E buf s0).2.1) ∧
      (s8_UserName.length < NAME_BUF_SIZE → (∀ c ∈ s8_UserName, c ≠ 0) →
        cstr (AddCard_user E s8_UserName s).s8_Name = s8_UserName)) := by
  have hk := AddCard_cardOps_keeps E s8_UserName s
  have hcases := AddCard_cases E s8_UserName s
  have hdb : ∀ h : AddCard E s8_UserName s =
      (StoreNewUser_call { AddCard_user E s8_UserName s with u8_Flags := DOOR_ONE }
        (AddCard_cardOps E s8_UserName s).2).2,
      (s.db.capacity ≤ s.db.count ∧ (AddCard E s8_UserName s).db = s.db) ∨
      (s.db.count < s.db.capacity ∧ (AddCard E s8_UserName s).db =
        { recs := s.db.recs ++ [{ AddCard_user E s8_UserName s with u8_Flags := DOOR_ONE }],
          capacity := s.db.capacity }) := by
    intro h
    rw [h, StoreNewUser_call_db, hk.1]
    rcases StoreNewUser_cases s.db { AddCard_user E s8_UserName s with u8_Flags := DOOR_ONE }
      with ⟨h1, h2⟩ | ⟨h1, h2⟩
    · left; rw [h2]; exact ⟨h1, rfl⟩
    · right; rw [h2]; exact ⟨h1, rfl⟩
  refine ⟨?_, ?_, ?_, ?_, rfl, ?_, ?_⟩
  · rcases hcases with ⟨_, _, _, h⟩ | ⟨_, h⟩
    · rcases hdb h with ⟨_, h'⟩ | ⟨_, h'⟩
      · exact Or.inl h'
      · exact Or.inr h'
    · exact Or.inl h.1
  · intro hne
    rcases hcases with ⟨h1, h2, h3, h⟩ | ⟨_, h⟩
    · rcases hdb h with ⟨_, h'⟩ | ⟨hc, _⟩
      · exact absurd h' hne
      · exact ⟨h1, h2, h3, hc⟩
    · exact absurd h.1 hne
  · intro h1 h2 h3
    rcases hcases with ⟨_, _, _, h⟩ | ⟨hor, _⟩
    · refine ⟨h, fun hc => ?_⟩
      rcases hdb h with ⟨hc', _⟩ | ⟨_, h'⟩
      · omega
      · exact h'
    · rcases hor with h | h | h
      · rw [h1] at h; cases h
      · rw [h2] at h; cases h
      · rw [h3] at h; cases h
  · unfold AddCard_cardOps
    dsimp only
    have hA : ALLOW_ALSO_CLASSIC = true := rfl
    split_ifs with c1 c2 c3 <;> simp_all
  · intro h
    exact WaitForCard_presented E s h
  · intro hl h0
    exact cstr_name_buffer _ _ (fit_length _ _) hl h0

set_option maxRecDepth 1000000 in
/-- C22 at the Classic card `0x33` and a table with the record of Ann: `AddCard` for
the name "Zed" appends one record, with the card id `0x33` and door 1. -/
theorem AddCard_single_insert_witness :
    (WaitForCard toyEnv kUser.zero (toyState classicCard [userAnn])).1 = true ∧
    (FindUser (toyState classicCard [userAnn]).db
      (AddCard_user toyEnv nameZed (toyState classicCard [userAnn])).ID kUser.zero).1 = false ∧
    (AddCard_cardOps toyEnv nameZed (toyState classicCard [userAnn])).1 = true ∧
    (AddCard toyEnv nameZed (toyState classicCard [userAnn])).db =
      { recs := (toyState classicCard [userAnn]).db.recs ++
          [{ AddCard_user toyEnv nameZed (toyState classicCard [userAnn]) with
            u8_Flags := DOOR_ONE }],
        capacity := (toyState classicCard [userAnn]).db.capacity } ∧
    (AddCard_user toyEnv nameZed (toyState classicCard [userAnn])).ID = 0x33 :=
  ⟨by decide, by decide, by decide,
    ((AddCard_single_insert toyEnv nameZed (toyState classicCard [userAnn])).2.2.1
      (by decide) (by decide) (by decide)).2 (by decide),
    by decide⟩

end AddCardProperties

section NameBound

variable {κ σ : Type}

set_option maxRecDepth 1000000 in
/-- C21 (as stated, refuted): the line `ADD` with a name of 62 characters, typed
while the Classic card `0x33` is in the field and the table is empty, is accepted:
`ParseParameter` returns true and the table gets a record whose name has 62
characters. -/
theorem ADD_accepts_62_characters :
    (ParseParameter ((toyLine (kwADD ++ [32] ++ List.replicate 62 97)).drop 3) 3
      (NAME_BUF_SIZE - 1 : Nat)).1 = true ∧
    (OnCommandReceived toyEnv true
      (toyTyped classicCard [] (kwADD ++ [32] ++ List.replicate 62 97))).db.recs.map
        (fun u => (cstr u.s8_Name).length) = [62] ∧
    NAME_BUF_SIZE - 3 = 61 := by
  refine ⟨?_, ?_, ?_⟩ <;> decide

/-- C21 (amended): the bounds of the call of `ParseParameter` after ADD are 3 and
`NAME_BUF_SIZE - 1`, which is 63. For a line that begins with ADD, with the reader
initialized, the name is accepted exactly when the rest of the line begins with a
space and its length `L` without the leading and trailing spaces has
`3 <= L <= 63`; a name that is not accepted ends the command before any card or
table operation (the table, the state of the reader and the latch are as before and
the trace gets only the message); and the command leaves the table as it is or
appends one record, whose name is the name that was given, of 3 to 63
characters. -/
theorem ADD_name_bound (E : Env κ σ) (s : DoorOpener κ σ) (hg : s.gb_InitSuccess = true)
    (hkw : strnicmp s.gs8_CommandBuffer kwADD 3 = 0) :
    (NAME_BUF_SIZE - 1 : Nat) = 63 ∧
    ((ParseParameter (s.gs8_CommandBuffer.drop 3) 3 (NAME_BUF_SIZE - 1 : Nat)).1 = true ↔
      ∃ rest, cstr (s.gs8_CommandBuffer.drop 3) = 32 :: rest ∧
        3 ≤ (stripSpaces rest).length ∧ (stripSpaces rest).length ≤ 63) ∧
    ((ParseParameter (s.gs8_CommandBuffer.drop 3) 3 (NAME_BUF_SIZE - 1 : Nat)).1 = false →
      (OnCommandReceived_commands E s).db = s.db ∧
      (OnCommandReceived_commands E s).gi_PN532 = s.gi_PN532 ∧
      (OnCommandReceived_commands E s).gu64_LastID = s.gu64_LastID ∧
      (OnCommandReceived_commands E s).trace =
        s.trace ++ (ParseParameter (s.gs8_CommandBuffer.drop 3) 3
          (NAME_BUF_SIZE - 1 : Nat)).2.2.2.map Event.Print) ∧
    ((OnCommandReceived_commands E s).db = s.db ∨
      ∃ u : kUser,
        (OnCommandReceived_commands E s).db =
          { recs := s.db.recs ++ [u], capacity := s.db.capacity } ∧
        cstr u.s8_Name =
          (ParseParameter (s.gs8_CommandBuffer.drop 3) 3 (NAME_BUF_SIZE - 1 : Nat)).2.1 ∧
        3 ≤ (cstr u.s8_Name).length ∧ (cstr u.s8_Name).length ≤ 63) := by
  have h63 : ((NAME_BUF_SIZE - 1 : Nat) : Int) = 63 := by decide
  refine ⟨by decide, ?_, ?_, ?_⟩
  · constructor
    · intro h
      by_cases h32 : ∃ rest, cstr (s.gs8_CommandBuffer.drop 3) = 32 :: rest
      · obtain ⟨rest, hr⟩ := h32
        have := (ParseParameter_of_cstr _ rest 3 (NAME_BUF_SIZE - 1 : Nat) hr).1.mp h
        rw [h63] at this
        exact ⟨rest, hr, by omega, by omega⟩
      · rw [ParseParameter_false_of_cstr _ _ _ (fun rest hr => h32 ⟨rest, hr⟩)] at h
        cases h
    · rintro ⟨rest, hr, h1, h2⟩
      apply (ParseParameter_of_cstr _ rest 3 (NAME_BUF_SIZE - 1 : Nat) hr).1.mpr
      rw [h63]
      exact ⟨by omega, by omega⟩
  · intro hp
    rw [OnCommandReceived_commands_rejected E s kwADD 3 3 (NAME_BUF_SIZE - 1 : Nat) (by decide)
      (fun _ => hg) hkw (fun h => absurd h (by decide)) hp]
    exact ⟨rfl, rfl, rfl, rfl⟩
  · rw [OnCommandReceived_commands_ADD E s hg hkw]
    by_cases hp : (ParseParameter (s.gs8_CommandBuffer.drop 3) 3 (NAME_BUF_SIZE - 1 : Nat)).1 = true
    · have hp' : ¬ ((!(ParseParameter_at 3 3 (NAME_BUF_SIZE - 1 : Nat) s).1) = true) := by
        simp [ParseParameter_at, hp]
      rw [if_neg hp']
      have hpar := ParseParameter_true_param _ _ _ hp
      have hL3 : 3 ≤ (ParseParameter (s.gs8_CommandBuffer.drop 3) 3
          (NAME_BUF_SIZE - 1 : Nat)).2.1.length := by
        exact_mod_cast hpar.1
      have hL63 : (ParseParameter (s.gs8_CommandBuffer.drop 3) 3
          (NAME_BUF_SIZE - 1 : Nat)).2.1.length ≤ 63 := by
        exact_mod_cast le_of_le_of_eq hpar.2.1 h63
      have hlen : (ParseParameter_at 3 3 (NAME_BUF_SIZE - 1 : Nat) s).2.1.length <
          NAME_BUF_SIZE :=
        Nat.lt_of_le_of_lt hL63 (by decide)
      have hname := AddCard_user_name E (ParseParameter_at 3 3 (NAME_BUF_SIZE - 1 : Nat) s).2.1
        (ParseParameter_at 3 3 (NAME_BUF_SIZE - 1 : Nat) s).2.2 hlen hpar.2.2
      rcases AddCard_db_cases E (ParseParameter_at 3 3 (NAME_BUF_SIZE - 1 : Nat) s).2.1
        (ParseParameter_at 3 3 (NAME_BUF_SIZE - 1 : Nat) s).2.2 with h | h
      · left
        exact h
      · right
        refine ⟨_, h, hname, ?_, ?_⟩
        · rw [hname]
          exact hL3
        · rw [hname]
          exact hL63
    · left
      rw [if_pos (by simpa [ParseParameter_at] using hp)]
      rfl

set_option maxRecDepth 1000000 in
/-- C21 (amended) at the line `ADD Zed` with the Classic card `0x33` in the field:
the name is accepted. -/
theorem ADD_name_bound_witness :
    (toyTyped classicCard [userAnn] (kwADD ++ [32] ++ nameZed)).gb_InitSuccess = true ∧
    strnicmp (toyTyped classicCard [userAnn] (kwADD ++ [32] ++ nameZed)).gs8_CommandBuffer
      kwADD 3 = 0 ∧
    ((ParseParameter
        ((toyTyped classicCard [userAnn] (kwADD ++ [32] ++ nameZed)).gs8_CommandBuffer.drop 3) 3
        (NAME_BUF_SIZE - 1 : Nat)).1 = true ↔
      ∃ rest,
        cstr ((toyTyped classicCard [userAnn]
          (kwADD ++ [32] ++ nameZed)).gs8_CommandBuffer.drop 3) = 32 :: rest ∧
        3 ≤ (stripSpaces rest).length ∧ (stripSpaces rest).length ≤ 63) :=
  ⟨rfl, by decide,
    (ADD_name_bound toyEnv (toyTyped classicCard [userAnn] (kwADD ++ [32] ++ nameZed)) rfl
      (by decide)).2.1⟩

end NameBound

section RestoreProperties

variable {κ σ : Type}

theorem RestoreDesfireCard_eq (E : Env κ σ) (s : DoorOpener κ σ) :
    RestoreDesfireCard E s =
      if !(WaitForCard E kUser.zero s).1 then (false, (WaitForCard E kUser.zero s).2.2.2)
      else if (WaitForCard E kUser.zero s).2.2.1.e_CardType.val &&&
          eCardType.CARD_Desfire.val = 0 then
        (false, Print "The card is not a Desfire card.\r\n" (RestoreDesfireCard_start E s))
      else if !(AuthenticatePICC E 0 (RestoreDesfireCard_start E s)).1 then
        (false, (AuthenticatePICC E 0 (RestoreDesfireCard_start E s)).2.2)
      else if (AuthenticatePICC E 0 (RestoreDesfireCard_start E s)).2.1 = 0 then
        (true, (AuthenticatePICC E 0 (RestoreDesfireCard_start E s)).2.2)
      else if !(pn532 E (DesfireCmd.DeleteApplicationIfExists E.CARD_APPLICATION_ID)
          (AuthenticatePICC E 0 (RestoreDesfireCard_start E s)).2.2).1.ok then
        if !(pn532 E (DesfireCmd.Authenticate 0
            (pn532 E (DesfireCmd.DeleteApplicationIfExists E.CARD_APPLICATION_ID)
              (AuthenticatePICC E 0 (RestoreDesfireCard_start E s)).2.2).2.gi_PiccMasterKey)
            (pn532 E (DesfireCmd.DeleteApplicationIfExists E.CARD_APPLICATION_ID)
              (AuthenticatePICC E 0 (RestoreDesfireCard_start E s)).2.2).2).1.ok then
          (false, (pn532 E (DesfireCmd.Authenticate 0
            (pn532 E (DesfireCmd.DeleteApplicationIfExists E.CARD_APPLICATION_ID)
              (AuthenticatePICC E 0 (RestoreDesfireCard_start E s)).2.2).2.gi_PiccMasterKey)
            (pn532 E (DesfireCmd.DeleteApplicationIfExists E.CARD_APPLICATION_ID)
              (AuthenticatePICC E 0 (RestoreDesfireCard_start E s)).2.2).2).2)
        else RestoreDesfireCard_revert E false (pn532 E (DesfireCmd.Authenticate 0
            (pn532 E (DesfireCmd.DeleteApplicationIfExists E.CARD_APPLICATION_ID)
              (AuthenticatePICC E 0 (RestoreDesfireCard_start E s)).2.2).2.gi_PiccMasterKey)
            (pn532 E (DesfireCmd.DeleteApplicationIfExists E.CARD_APPLICATION_ID)
              (AuthenticatePICC E 0 (RestoreDesfireCard_start E s)).2.2).2).2
      else RestoreDesfireCard_revert E true
        (pn532 E (DesfireCmd.DeleteApplicationIfExists E.CARD_APPLICATION_ID)
          (AuthenticatePICC E 0 (RestoreDesfireCard_start E s)).2.2).2 := rfl

theorem RestoreDesfireCard_revert_trace (E : Env κ σ) (b : Bool) (s : DoorOpener κ σ) :
    ∃ t, (RestoreDesfireCard_revert E b s).2.trace =
      s.trace ++ Event.Reader (DesfireCmd.ChangeKey 0 E.PN532.DES2_DEFAULT_KEY) :: t := by
  unfold RestoreDesfireCard_revert
  dsimp only
  split_ifs
  · exact ⟨[], by simp [pn532_trace]⟩
  · exact ⟨[Event.Reader (DesfireCmd.Authenticate 0 E.PN532.DES2_DEFAULT_KEY)], by
      simp [pn532_trace]⟩
  · exact ⟨[Event.Reader (DesfireCmd.Authenticate 0 E.PN532.DES2_DEFAULT_KEY)], by
      simp [pn532_trace]⟩

set_option maxRecDepth 1000000 in
/-- C23 (as stated, refuted): a Desfire card with the key version 16 is presented
for RESTORE; the authentication of the root domain succeeds, the application delete
fails and the authentication that follows it fails. `RestoreDesfireCard` returns
false, and its reader calls end with that authentication: the change of the key of
the root domain is not attempted. -/
theorem Restore_aborts_before_key_change :
    (WaitForCard scriptedEnv kUser.zero (scriptedState restoreScript [userAnn])).1 = true ∧
    (AuthenticatePICC scriptedEnv 0
      (RestoreDesfireCard_start scriptedEnv (scriptedState restoreScript [userAnn]))).1 = true ∧
    (AuthenticatePICC scriptedEnv 0
      (RestoreDesfireCard_start scriptedEnv (scriptedState restoreScript [userAnn]))).2.1 = 16 ∧
    (RestoreDesfireCard scriptedEnv (scriptedState restoreScript [userAnn])).1 = false ∧
    readerCalls (RestoreDesfireCard scriptedEnv (scriptedState restoreScript [userAnn])).2.trace =
      [DesfireCmd.ReadPassiveTargetID, DesfireCmd.SelectApplication 0, DesfireCmd.GetKeyVersion 0,
       DesfireCmd.Authenticate 0 { data := List.replicate 24 17, version := 16 },
       DesfireCmd.DeleteApplicationIfExists 0xAA401F,
       DesfireCmd.Authenticate 0 { data := List.replicate 24 17, version := 16 }] := by
  refine ⟨?_, ?_, ?_, ?_, ?_⟩ <;> decide

/-- C23 (amended): `RestoreDesfireCard` on a Desfire card whose root domain was
authenticated. With the key version 0 it returns true right after the
authentication, with no further reader call. With another key version it calls
`DeleteApplicationIfExists`; when that succeeds, or when it fails and the
authentication with the master key that follows succeeds, the next call is the
change of the key of the root domain to the factory default key (and the return
value is true only if the delete had succeeded); when that authentication fails,
the function returns false without a change of the key. -/
theorem Restore_key_change_after_delete (E : Env κ σ) (s : DoorOpener κ σ)
    (hw : (WaitForCard E kUser.zero s).1 = true)
    (hkind : (WaitForCard E kUser.zero s).2.2.1.e_CardType.val &&&
      eCardType.CARD_Desfire.val ≠ 0)
    (hauth : (AuthenticatePICC E 0 (RestoreDesfireCard_start E s)).1 = true) :
    ((AuthenticatePICC E 0 (RestoreDesfireCard_start E s)).2.1 = 0 →
      RestoreDesfireCard E s = (true, (AuthenticatePICC E 0 (RestoreDesfireCard_start E s)).2.2)) ∧
    ((AuthenticatePICC E 0 (RestoreDesfireCard_start E s)).2.1 ≠ 0 →
      ((pn532 E (DesfireCmd.DeleteApplicationIfExists E.CARD_APPLICATION_ID)
          (AuthenticatePICC E 0 (RestoreDesfireCard_start E s)).2.2).1.ok = true →
        RestoreDesfireCard E s = RestoreDesfireCard_revert E true
          (pn532 E (DesfireCmd.DeleteApplicationIfExists E.CARD_APPLICATION_ID)
            (AuthenticatePICC E 0 (RestoreDesfireCard_start E s)).2.2).2) ∧
      ((pn532 E (DesfireCmd.DeleteApplicationIfExists E.CARD_APPLICATION_ID)
          (AuthenticatePICC E 0 (RestoreDesfireCard_start E s)).2.2).1.ok = false →
        ((pn532 E (DesfireCmd.Authenticate 0
            (pn532 E (DesfireCmd.DeleteApplicationIfExists E.CARD_APPLICATION_ID)
              (AuthenticatePICC E 0 (RestoreDesfireCard_start E s)).2.2).2.gi_PiccMasterKey)
            (pn532 E (DesfireCmd.DeleteApplicationIfExists E.CARD_APPLICATION_ID)
              (AuthenticatePICC E 0 (RestoreDesfireCard_start E s)).2.2).2).1.ok = true →
          RestoreDesfireCard E s = RestoreDesfireCard_revert E false
            (pn532 E (DesfireCmd.Authenticate 0
              (pn532 E (DesfireCmd.DeleteApplicationIfExists E.CARD_APPLICATION_ID)
                (AuthenticatePICC E 0 (RestoreDesfireCard_start E s)).2.2).2.gi_PiccMasterKey)
              (pn532 E (DesfireCmd.DeleteApplicationIfExists E.CARD_APPLICATION_ID)
                (AuthenticatePICC E 0 (RestoreDesfireCard_start E s)).2.2).2).2) ∧
        ((pn532 E (DesfireCmd.Authenticate 0
            (pn532 E (DesfireCmd.DeleteApplicationIfExists E.CARD_APPLICATION_ID)
              (AuthenticatePICC E 0 (RestoreDesfireCard_start E s)).2.2).2.gi_PiccMasterKey)
            (pn532 E (DesfireCmd.DeleteApplicationIfExists E.CARD_APPLICATION_ID)
              (AuthenticatePICC E 0 (RestoreDesfireCard_start E s)).2.2).2).1.ok = false →
          (RestoreDesfireCard E s).1 = false ∧
          (RestoreDesfireCard E s).2.trace =
            (AuthenticatePICC E 0 (RestoreDesfireCard_start E s)).2.2.trace ++
              [Event.Reader (DesfireCmd.DeleteApplicationIfExists E.CARD_APPLICATION_ID),
               Event.Reader (DesfireCmd.Authenticate 0
                 (AuthenticatePICC E 0 (RestoreDesfireCard_start E s)).2.2.gi_PiccMasterKey)]))) ∧
    (∀ (b_Success : Bool) (s0 : DoorOpener κ σ),
      ((RestoreDesfireCard_revert E b_Success s0).1 = true → b_Success = true) ∧
      ∃ t, (RestoreDesfireCard_revert E b_Success s0).2.trace =
        s0.trace ++ Event.Reader (DesfireCmd.ChangeKey 0 E.PN532.DES2_DEFAULT_KEY) :: t) := by
  have h1 : ¬ ((!(WaitForCard E kUser.zero s).1) = true) := by simp [hw]
  have h3 : ¬ ((!(AuthenticatePICC E 0 (RestoreDesfireCard_start E s)).1) = true) := by
    simp [hauth]
  rw [RestoreDesfireCard_eq, if_neg h1, if_neg hkind, if_neg h3]
  refine ⟨?_, ?_, ?_⟩
  · intro h0
    rw [if_pos h0]
  · intro h0
    rw [if_neg h0]
    refine ⟨?_, ?_⟩
    · intro hd
      rw [if_neg (by simp [hd])]
    · intro hd
      rw [if_pos (by simp [hd])]
      refine ⟨?_, ?_⟩
      · intro hr
        rw [if_neg (by simp [hr])]
      · intro hr
        rw [if_pos (by simp [hr])]
        exact ⟨rfl, by simp [pn532_trace]; rfl⟩
  · intro b s0
    refine ⟨?_, RestoreDesfireCard_revert_trace E b s0⟩
    unfold RestoreDesfireCard_revert
    dsimp only
    split_ifs <;> simp

set_option maxRecDepth 1000000 in
/-- C23 (amended) at the scripted reader: the root domain is authenticated with the
key version 16, the application delete and the authentication after it fail, and the
function returns false. -/
theorem Restore_key_change_after_delete_witness :
    (WaitForCard scriptedEnv kUser.zero (scriptedState restoreScript [userAnn])).1 = true ∧
    (RestoreDesfireCard scriptedEnv (scriptedState restoreScript [userAnn])).1 = false :=
  ⟨by decide,
    ((((Restore_key_change_after_delete scriptedEnv (scriptedState restoreScript [userAnn])
      (by decide) (by decide) (by decide)).2.1 (by decide)).2 (by decide)).2 (by decide)).1⟩

end RestoreProperties

/-! ## Properties of the specification: the polls of `loop()` -/

section DutyCycle

variable {κ σ : Type}

theorem toInt32_small (x : Nat) (h : x < 2 ^ 31) : toInt32 x = x := by
  unfold toInt32
  have : x % 2 ^ 32 = x := Nat.mod_eq_of_lt (by omega)
  rw [this, if_pos h]

theorem toInt32_wrapped (d : Nat) (h1 : 1 ≤ d) (h2 : d ≤ 1000) :
    toInt32 ((2 ^ 64 - d) % 2 ^ 64) < 0 := by
  unfold toInt32
  have h64 : (2 ^ 64 - d) % 2 ^ 64 = 2 ^ 64 - d := Nat.mod_eq_of_lt (by omega)
  have h32 : (2 ^ 64 - d) % 2 ^ 32 = 2 ^ 32 - d := by omega
  rw [h64, h32, if_neg (by omega)]
  omega

theorem toInt32_le (x : Nat) : toInt32 x ≤ x := by
  unfold toInt32
  have : x % 2 ^ 32 ≤ x := Nat.mod_le _ _
  split_ifs <;> omega

/-- What a call that polls the card knows about the ticks. -/
theorem readsCard_gap (c : LoopCall κ σ) (h : c.readsCard)
    (hs : c.u64_StartTick < 2 ^ 64) (hl : c.s.u64_LastRead ≤ c.u64_StartTick + 1000) :
    c.s.u64_LastRead + 200 ≤ c.u64_StartTick := by
  obtain ⟨hg, hr⟩ := h
  unfold loop_reads at hr
  simp only [hg, Bool.true_and, Bool.and_eq_true, Bool.not_eq_true', decide_eq_false_iff_not,
    not_lt] at hr
  have h200 : RF_OFF_INTERVAL = 200 := rfl
  have hge := hr.2
  rw [h200] at hge
  by_cases hle : c.s.u64_LastRead ≤ c.u64_StartTick
  · have hx : (c.u64_StartTick + 2 ^ 64 - c.s.u64_LastRead) % 2 ^ 64 =
        c.u64_StartTick - c.s.u64_LastRead := by
      have : c.u64_StartTick + 2 ^ 64 - c.s.u64_LastRead =
          (c.u64_StartTick - c.s.u64_LastRead) + 2 ^ 64 := by omega
      rw [this, Nat.add_mod_right]
      exact Nat.mod_eq_of_lt (by omega)
    rw [hx] at hge
    have := toInt32_le (c.u64_StartTick - c.s.u64_LastRead)
    omega
  · exfalso
    have hx : (c.u64_StartTick + 2 ^ 64 - c.s.u64_LastRead) % 2 ^ 64 =
        (2 ^ 64 - (c.s.u64_LastRead - c.u64_StartTick)) % 2 ^ 64 := by
      congr 1
      omega
    rw [hx] at hge
    have := toInt32_wrapped (c.s.u64_LastRead - c.u64_StartTick) (by omega) (by omega)
    omega

theorem readsCard_run (E : Env κ σ) (c : LoopCall κ σ) (h : c.readsCard) :
    (c.run E).u64_LastRead = c.u64_EndTick := by
  obtain ⟨hg, hr⟩ := h
  unfold loop_reads at hr
  simp only [hg, Bool.true_and, Bool.and_eq_true, Bool.not_eq_true', decide_eq_false_iff_not]
    at hr
  unfold LoopCall.run loop
  simp only [hg, Bool.true_and, hr.1, Bool.false_eq_true, if_false, decide_eq_true_eq, hr.2]

theorem run_LastRead (E : Env κ σ) (c : LoopCall κ σ) :
    (c.run E).u64_LastRead = (c.u64_StartTick + 1000) % 2 ^ 64 ∨
    (c.run E).u64_LastRead = c.s.u64_LastRead ∨
    (c.run E).u64_LastRead = c.u64_EndTick := by
  unfold LoopCall.run loop
  split_ifs
  · exact Or.inl rfl
  · exact Or.inr (Or.inl rfl)
  · exact Or.inr (Or.inr rfl)

theorem gap_from (E : Env κ σ) (e : Nat) : ∀ (l : List (LoopCall κ σ)) (a : LoopCall κ σ),
    linked E (a :: l) → ticksOrdered (a :: l) → e ≤ a.u64_StartTick →
    e ≤ a.s.u64_LastRead → a.s.u64_LastRead ≤ a.u64_StartTick + 1000 →
    ∀ b ∈ a :: l, b.readsCard → e + 200 ≤ b.u64_StartTick := by
  intro l
  induction l with
  | nil =>
    intro a _ ht he hl1 hl2 b hb hr
    rw [List.mem_singleton.mp hb] at hr ⊢
    have := readsCard_gap a hr (by have := ht.1; have := ht.2; omega) hl2
    omega
  | cons a' rest ih =>
    intro a hlink ht he hl1 hl2 b hb hr
    obtain ⟨ht1, ht2, ht3, ht4⟩ := ht
    rcases List.mem_cons.mp hb with hb | hb
    · rw [hb] at hr ⊢
      have := readsCard_gap a hr (by omega) hl2
      omega
    · have hst : a'.u64_StartTick ≤ a'.u64_EndTick := by
        cases rest with
        | nil => exact ht4.1
        | cons _ _ => exact ht4.1
      refine ih a' hlink.2 ht4 (by omega) ?_ ?_ b hb hr
      · rw [hlink.1]
        rcases run_LastRead E a with h | h | h
        · rw [h, Nat.mod_eq_of_lt (by omega)]; omega
        · rw [h]; exact hl1
        · rw [h]; omega
      · rw [hlink.1]
        rcases run_LastRead E a with h | h | h
        · rw [h, Nat.mod_eq_of_lt (by omega)]; omega
        · rw [h]; omega
        · rw [h]; omega

theorem linked_suffix (E : Env κ σ) : ∀ (pre l : List (LoopCall κ σ)),
    linked E (pre ++ l) → linked E l := by
  intro pre
  induction pre with
  | nil => intro l h; exact h
  | cons a pre ih =>
    intro l h
    cases hp : pre ++ l with
    | nil =>
      have : l = [] := (List.append_eq_nil.mp hp).2
      rw [this]; trivial
    | cons b rest =>
      rw [List.cons_append, hp] at h
      have h2 := h.2
      rw [← hp] at h2
      exact ih l h2

theorem ticksOrdered_suffix : ∀ (pre l : List (LoopCall κ σ)),
    ticksOrdered (pre ++ l) → ticksOrdered l := by
  intro pre
  induction pre with
  | nil => intro l h; exact h
  | cons a pre ih =>
    intro l h
    cases hp : pre ++ l with
    | nil =>
      have : l = [] := (List.append_eq_nil.mp hp).2
      rw [this]; trivial
    | cons b rest =>
      rw [List.cons_append, hp] at h
      have h2 := h.2.2.2
      rw [← hp] at h2
      exact ih l h2

/-- C24: while the reader is initialized and no byte waits in the serial port, a call
of `loop()` whose start tick is less than `RF_OFF_INTERVAL` (200 ms) after the value
of `u64_LastRead` is a no-op: `ReadKeyboardInput` returns false and leaves the state
as it is, and the rest of `loop()` leaves the whole state (trace, latch, reader,
table, `u64_LastRead`) as it is. A call that polls the card records its end tick in
`u64_LastRead`. Hence, in every sequence of calls of `loop()` with ticks that do not
decrease, whatever the terminal does between the calls, of two calls that poll the
card the later one starts at least 200 ms after the end of the earlier one. -/
theorem polls_are_200ms_apart (E : Env κ σ) (pre mid post : List (LoopCall κ σ))
    (a b : LoopCall κ σ) (hl : linked E (pre ++ a :: (mid ++ b :: post)))
    (ht : ticksOrdered (pre ++ a :: (mid ++ b :: post))) (ha : a.readsCard)
    (hb : b.readsCard) :
    (∀ (s : DoorOpener κ σ) (u64_StartTick u64_EndTick : Nat), s.gb_InitSuccess = true →
      s.serial = [] → u64_StartTick < 2 ^ 64 → s.u64_LastRead ≤ u64_StartTick →
      u64_StartTick < s.u64_LastRead + RF_OFF_INTERVAL →
      ReadKeyboardInput E s = (false, s) ∧
      loop E (ReadKeyboardInput E s).1 u64_StartTick u64_EndTick (ReadKeyboardInput E s).2 = s) ∧
    (a.run E).u64_LastRead = a.u64_EndTick ∧
    a.u64_EndTick + 200 ≤ b.u64_StartTick := by
  refine ⟨?_, readsCard_run E a ha, ?_⟩
  · intro s st en hg hs h64 hle hlt
    have hk : ReadKeyboardInput E s = (false, s) := by
      simp [ReadKeyboardInput, SerialAvailable, hs, ReadKeyboardInput_loop]
    refine ⟨hk, ?_⟩
    rw [hk]
    have hx : (st + 2 ^ 64 - s.u64_LastRead) % 2 ^ 64 = st - s.u64_LastRead := by
      have : st + 2 ^ 64 - s.u64_LastRead = (st - s.u64_LastRead) + 2 ^ 64 := by omega
      rw [this, Nat.add_mod_right]
      exact Nat.mod_eq_of_lt (by omega)
    have h200 : RF_OFF_INTERVAL = 200 := rfl
    rw [h200] at hlt
    have hsmall : toInt32 (st - s.u64_LastRead) < (RF_OFF_INTERVAL : Int) := by
      rw [toInt32_small _ (by omega), h200]
      omega
    unfold loop
    simp only [hg, Bool.true_and, Bool.false_eq_true, if_false, hx, hsmall, decide_True, if_true]
  · have hl' := linked_suffix E pre _ hl
    have ht' := ticksOrdered_suffix pre _ ht
    have hrun := readsCard_run E a ha
    cases hm : mid ++ b :: post with
    | nil => simp at hm
    | cons c tl =>
      rw [hm] at hl' ht'
      have hbm : b ∈ c :: tl := by rw [← hm]; simp
      have hcl : c.s.u64_LastRead = a.u64_EndTick := by rw [hl'.1, hrun]
      have hac : a.u64_EndTick ≤ c.u64_StartTick := ht'.2.2.1
      exact gap_from E a.u64_EndTick tl c hl'.2 ht'.2.2.2 hac (by omega) (by omega) b hbm hb

set_option maxRecDepth 1000000 in
/-- C24 at two calls of `loop()` with the Classic card `0x33` in the field: the first
call starts at tick 1000 and ends at tick 1300, the second starts at tick 1500; both
poll the card. -/
theorem polls_are_200ms_apart_witness :
    LoopCall.readsCard
      ({ b_KeyPress := false, u64_StartTick := 1000, u64_EndTick := 1300,
         s := toyState classicCard [] } : LoopCall ToyKey (Card ToyKey)) ∧
    LoopCall.readsCard
      ({ b_KeyPress := false, u64_StartTick := 1500, u64_EndTick := 1700,
         s := loop toyEnv false 1000 1300 (toyState classicCard []) } :
        LoopCall ToyKey (Card ToyKey)) ∧
    1300 + 200 ≤ 1500 :=
  have ha : LoopCall.readsCard
      ({ b_KeyPress := false, u64_StartTick := 1000, u64_EndTick := 1300,
         s := toyState classicCard [] } : LoopCall ToyKey (Card ToyKey)) :=
    ⟨by decide, by decide⟩
  have hb : LoopCall.readsCard
      ({ b_KeyPress := false, u64_StartTick := 1500, u64_EndTick := 1700,
         s := loop toyEnv false 1000 1300 (toyState classicCard []) } :
        LoopCall ToyKey (Card ToyKey)) :=
    ⟨by decide, by decide⟩
  ⟨ha, hb,
    (polls_are_200ms_apart toyEnv [] [] []
      { b_KeyPress := false, u64_StartTick := 1000, u64_EndTick := 1300,
        s := toyState classicCard [] }
      { b_KeyPress := false, u64_StartTick := 1500, u64_EndTick := 1700,
        s := loop toyEnv false 1000 1300 (toyState classicCard []) }
      ⟨rfl, trivial⟩ ⟨by decide, by decide, by decide, by decide, by decide⟩ ha hb).2.2⟩

end DutyCycle

/-! ## Lemmas on the runs of `InitReader` -/

section InitsLemmas

variable {κ σ : Type}

theorem readerCalls_append (a b : List (Event κ)) :
    readerCalls (a ++ b) = readerCalls a ++ readerCalls b := by
  induction a with
  | nil => rfl
  | cons e rest ih => cases e <;> simp [readerCalls, ih]

theorem initAttempts_append (a b : List (Event κ)) :
    initAttempts (a ++ b) = initAttempts a + initAttempts b := by
  simp [initAttempts, readerCalls_append, List.countP_append]

theorem Inits.in_refl (s : DoorOpener κ σ) : Inits 0 s s := rfl

theorem Inits.in_ite {n : Nat} {s : DoorOpener κ σ} {c : Prop} [Decidable c]
    {a b : DoorOpener κ σ} (ha : Inits n s a) (hb : Inits n s b) :
    Inits n s (if c then a else b) := by
  split_ifs <;> assumption

theorem Inits.in_ite2 {n : Nat} {s : DoorOpener κ σ} {α : Type} {c : Prop} [Decidable c]
    {a b : α × DoorOpener κ σ} (ha : Inits n s a.2) (hb : Inits n s b.2) :
    Inits n s (if c then a else b).2 := by
  split_ifs <;> assumption

theorem Inits.in_ite3 {n : Nat} {s : DoorOpener κ σ} {α β : Type} {c : Prop} [Decidable c]
    {a b : α × β × DoorOpener κ σ} (ha : Inits n s a.2.2) (hb : Inits n s b.2.2) :
    Inits n s (if c then a else b).2.2 := by
  split_ifs <;> assumption

theorem Inits.in_ite4 {n : Nat} {s : DoorOpener κ σ} {α β γ : Type} {c : Prop} [Decidable c]
    {a b : α × β × γ × DoorOpener κ σ} (ha : Inits n s a.2.2.2) (hb : Inits n s b.2.2.2) :
    Inits n s (if c then a else b).2.2.2 := by
  split_ifs <;> assumption

theorem Inits.in_emit {n : Nat} {s s' : DoorOpener κ σ} (e : Event κ)
    (he : initAttempts [e] = 0) (h : Inits n s s') : Inits n s (emit e s') := by
  unfold Inits at h ⊢
  show initAttempts (s'.trace ++ [e]) = _
  rw [initAttempts_append, he, h]
  rfl

theorem Inits.in_Print {n : Nat} {s s' : DoorOpener κ σ} (t : String) (h : Inits n s s') :
    Inits n s (Print t s') :=
  h.in_emit _ rfl

theorem Inits.in_WritePin {n : Nat} {s s' : DoorOpener κ σ} (pin : Nat) (l : PinLevel)
    (h : Inits n s s') : Inits n s (WritePin pin l s') :=
  h.in_emit _ rfl

theorem Inits.in_DelayMilli {n : Nat} {s s' : DoorOpener κ σ} (ms : Nat) (h : Inits n s s') :
    Inits n s (DelayMilli ms s') :=
  h.in_emit (Event.DelayMilli ms) rfl

theorem Inits.in_pn532 {n : Nat} {s s' : DoorOpener κ σ} (E : Env κ σ) (c : DesfireCmd κ)
    (hc : isBegin c = false) (h : Inits n s s') : Inits n s (pn532 E c s').2 := by
  unfold Inits at h ⊢
  show initAttempts (s'.trace ++ [Event.Reader c]) = _
  rw [initAttempts_append, h]
  simp [initAttempts, readerCalls, hc]

theorem Inits.in_begin {n : Nat} {s s' : DoorOpener κ σ} (E : Env κ σ) (h : Inits n s s') :
    Inits (n + 1) s (pn532 E DesfireCmd.begin s').2 := by
  unfold Inits at h ⊢
  show initAttempts (s'.trace ++ [Event.Reader DesfireCmd.begin]) = _
  rw [initAttempts_append, h]
  simp [initAttempts, readerCalls, isBegin]
  omega

theorem Inits.in_set_InitSuccess {n : Nat} {s s' : DoorOpener κ σ} (b : Bool)
    (h : Inits n s s') : Inits n s { s' with gb_InitSuccess := b } := h

theorem Inits.in_set_LastID {n : Nat} {s s' : DoorOpener κ σ} (v : Nat)
    (h : Inits n s s') : Inits n s { s' with gu64_LastID := v } := h

theorem Inits.in_set_LastRead {n : Nat} {s s' : DoorOpener κ σ} (v : Nat)
    (h : Inits n s s') : Inits n s { s' with u64_LastRead := v } := h

theorem Inits.in_SetLED {n : Nat} {s s' : DoorOpener κ σ} (E : Env κ σ) (l : eLED)
    (h : Inits n s s') : Inits n s (SetLED E l s') := by
  cases l
  · exact h.in_WritePin _ _
  · exact (h.in_WritePin _ _).in_WritePin _ _
  · exact (h.in_WritePin _ _).in_WritePin _ _

theorem Inits.in_FlashLED {n : Nat} {s s' : DoorOpener κ σ} (E : Env κ σ) (l : eLED)
    (ms : Nat) (h : Inits n s s') : Inits n s (FlashLED E l ms s') :=
  ((h.in_SetLED E l).in_DelayMilli ms).in_SetLED E _

theorem Inits.in_ActivateRelais {n : Nat} {s s' : DoorOpener κ σ} (E : Env κ σ) (f : Nat)
    (h : Inits n s s') : Inits n s (ActivateRelais E f s') :=
  ((h.in_WritePin _ _).in_DelayMilli _).in_WritePin _ _

theorem Inits.in_IsDesfireTimeout {n : Nat} {s s' : DoorOpener κ σ} (E : Env κ σ)
    (h : Inits n s s') : Inits n s (IsDesfireTimeout E s').2 := by
  unfold IsDesfireTimeout
  dsimp only
  apply Inits.in_ite2
  · exact ((h.in_pn532 E DesfireCmd.GetLastPN532Error rfl).in_Print _).in_FlashLED E _ _
  · exact h.in_pn532 E DesfireCmd.GetLastPN532Error rfl

theorem Inits.in_AuthenticatePICC {n : Nat} {s s' : DoorOpener κ σ} (E : Env κ σ) (v : Nat)
    (h : Inits n s s') : Inits n s (AuthenticatePICC E v s').2.2 := by
  unfold AuthenticatePICC
  dsimp only
  repeat (first
    | with_reducible exact h
    | with_reducible apply Inits.in_ite3
    | with_reducible apply Inits.in_pn532
    | simp only [isBegin]
    | simp only [initAttempts, readerCalls, List.countP_nil])

theorem Inits.in_ReadCard {n : Nat} {s s' : DoorOpener κ σ} (E : Env κ σ) (buf : List Nat)
    (h : Inits n s s') : Inits n s (ReadCard E buf s').2.2.2 := by
  unfold ReadCard
  dsimp only
  repeat (first
    | with_reducible exact h
    | with_reducible apply Inits.in_ite4
    | with_reducible apply Inits.in_pn532
    | with_reducible apply Inits.in_AuthenticatePICC
    | simp only [isBegin]
    | simp only [initAttempts, readerCalls, List.countP_nil])

theorem Inits.in_CheckDesfireSecret {n : Nat} {s s' : DoorOpener κ σ} (E : Env κ σ)
    (u : kUser) (h : Inits n s s') : Inits n s (CheckDesfireSecret E u s').2 := by
  unfold CheckDesfireSecret
  split
  · exact h
  · dsimp only
    repeat (first
      | with_reducible exact h
      | with_reducible apply Inits.in_ite2
      | with_reducible apply Inits.in_pn532
      | simp only [isBegin]
      | simp only [initAttempts, readerCalls, List.countP_nil])

theorem Inits.in_OpenDoor_grant {n : Nat} {s s' : DoorOpener κ σ} (E : Env κ σ) (id : Nat)
    (c : kCard) (u : kUser) (h : Inits n s s') : Inits n s (OpenDoor_grant E id c u s') :=
  ((((h.in_Print _).in_emit (Event.PrintBuf _) rfl).in_Print _).in_ActivateRelais E _).in_set_LastID
    _

theorem Inits.in_OpenDoor {n : Nat} {s s' : DoorOpener κ σ} (E : Env κ σ) (id : Nat)
    (c : kCard) (tick : Nat) (h : Inits n s s') : Inits n s (OpenDoor E id c tick s') := by
  unfold OpenDoor
  dsimp only
  repeat (first
    | with_reducible exact h
    | with_reducible apply Inits.in_ite
    | with_reducible apply Inits.in_FlashLED
    | with_reducible apply Inits.in_Print
    | with_reducible apply Inits.in_OpenDoor_grant
    | with_reducible apply Inits.in_IsDesfireTimeout
    | with_reducible apply Inits.in_CheckDesfireSecret
    | with_reducible apply Inits.in_emit
    | simp only [isBegin]
    | simp only [initAttempts, readerCalls, List.countP_nil])

theorem Inits.in_Printf {n : Nat} {s s' : DoorOpener κ σ} (f : String) (args : List Nat)
    (h : Inits n s s') : Inits n s (emit (Event.Printf f args) s') :=
  h.in_emit _ rfl

theorem Inits.in_GetFirmwareVersion {n : Nat} {s s' : DoorOpener κ σ} (E : Env κ σ)
    (h : Inits n s s') : Inits n s (pn532 E DesfireCmd.GetFirmwareVersion s').2 :=
  h.in_pn532 E _ rfl

theorem Inits.in_SetPassiveActivationRetries {n : Nat} {s s' : DoorOpener κ σ} (E : Env κ σ)
    (h : Inits n s s') : Inits n s (pn532 E DesfireCmd.SetPassiveActivationRetries s').2 :=
  h.in_pn532 E _ rfl

theorem Inits.in_SamConfig {n : Nat} {s s' : DoorOpener κ σ} (E : Env κ σ)
    (h : Inits n s s') : Inits n s (pn532 E DesfireCmd.SamConfig s').2 :=
  h.in_pn532 E _ rfl

theorem Inits.in_InitReader {n : Nat} {s s' : DoorOpener κ σ} (E : Env κ σ) (b : Bool)
    (h : Inits n s s') : Inits (n + 1) s (InitReader E b s') := by
  cases b
  · unfold InitReader
    simp only [Bool.false_eq_true, if_false]
    with_reducible repeat
      (first | exact h | apply Inits.in_ite | apply Inits.in_begin
             | apply Inits.in_GetFirmwareVersion | apply Inits.in_SetPassiveActivationRetries
             | apply Inits.in_SamConfig | apply Inits.in_Printf
             | apply Inits.in_set_InitSuccess)
  · unfold InitReader
    simp only [if_true]
    with_reducible repeat
      (first | exact h | apply Inits.in_ite | apply Inits.in_begin
             | apply Inits.in_GetFirmwareVersion | apply Inits.in_SetPassiveActivationRetries
             | apply Inits.in_SamConfig | apply Inits.in_Printf
             | apply Inits.in_DelayMilli | apply Inits.in_SetLED | apply Inits.in_Print
             | apply Inits.in_set_InitSuccess)

theorem loop_poll_uninit (E : Env κ σ) (tick : Nat) (s : DoorOpener κ σ)
    (hg : s.gb_InitSuccess = false) :
    loop_poll E tick s = (pn532 E DesfireCmd.SwitchOffRfField (InitReader E true s)).2 := by
  unfold loop_poll
  simp only [hg, Bool.not_false, if_true]

theorem loop_poll_fault (E : Env κ σ) (tick : Nat) (s : DoorOpener κ σ)
    (hg : s.gb_InitSuccess = true) (hf : loop_fault E s = true) :
    loop_poll E tick s =
      (pn532 E DesfireCmd.SwitchOffRfField (Print "> " (InitReader E true
        (IsDesfireTimeout E (ReadCard E (List.replicate 8 0) s).2.2.2).2))).2 := by
  unfold loop_fault at hf
  simp only [Bool.and_eq_true, Bool.not_eq_true'] at hf
  obtain ⟨⟨h1, h2⟩, h3⟩ := hf
  unfold loop_poll
  simp only [hg, h1, h2, h3, Bool.not_true, Bool.not_false, if_false, if_true,
    Bool.false_eq_true]

theorem loop_poll_sound (E : Env κ σ) (tick : Nat) (s : DoorOpener κ σ)
    (hg : s.gb_InitSuccess = true) (hf : loop_fault E s = false) :
    Inits 0 s (loop_poll E tick s) := by
  have hrc := (Inits.in_refl s).in_ReadCard E (List.replicate 8 0)
  have ht := hrc.in_IsDesfireTimeout E
  unfold loop_poll
  simp only [hg, Bool.not_true, if_false, Bool.false_eq_true]
  apply Inits.in_pn532 E DesfireCmd.SwitchOffRfField rfl
  cases h1 : (ReadCard E (List.replicate 8 0) s).1
  · simp only [Bool.not_false, if_true]
    apply Inits.in_Print
    cases h2 : (IsDesfireTimeout E (ReadCard E (List.replicate 8 0) s).2.2.2).1
    · have h3 : (ReadCard E (List.replicate 8 0) s).2.2.1.b_PN532_Error = false := by
        unfold loop_fault at hf
        simp only [h1, h2, Bool.not_false, Bool.and_self, Bool.true_and] at hf
        exact hf
      simp only [h3, if_false, Bool.false_eq_true]
      exact ht.in_FlashLED E _ _
    · simp only [if_true]
      exact ht
  · simp only [Bool.not_true, if_false, Bool.false_eq_true]
    apply Inits.in_ite
    · exact (hrc.in_set_LastID 0).in_FlashLED E _ _
    · apply Inits.in_ite
      · exact hrc
      · exact (hrc.in_OpenDoor E _ _ _).in_Print _

theorem loop_poll_inits (E : Env κ σ) (tick : Nat) (s : DoorOpener κ σ) :
    Inits (if (!s.gb_InitSuccess || loop_fault E s) = true then 1 else 0) s
      (loop_poll E tick s) := by
  cases hg : s.gb_InitSuccess
  · rw [loop_poll_uninit E tick s hg]
    simp only [Bool.not_false, Bool.true_or, if_true]
    exact ((Inits.in_refl s).in_InitReader E true).in_pn532 E DesfireCmd.SwitchOffRfField rfl
  · cases hf : loop_fault E s
    · simp only [Bool.not_true, Bool.or_self, Bool.false_eq_true, if_false]
      exact loop_poll_sound E tick s hg hf
    · rw [loop_poll_fault E tick s hg hf]
      simp only [Bool.not_true, Bool.false_or, if_true]
      exact ((((((Inits.in_refl s).in_ReadCard E _).in_IsDesfireTimeout E).in_InitReader E
        true).in_Print _).in_pn532 E DesfireCmd.SwitchOffRfField rfl)

end InitsLemmas

/-! ## Properties of the specification: faults of the reader -/

section FaultProperties

variable {κ σ : Type}

/-- Claim C25 fails on the code. A poll in which `ReadPassiveTargetID` fails and the
reader reports no timeout runs `InitReader` in that same poll: the calls `begin`,
`GetFirmwareVersion`, `SetPassiveActivationRetries` and `SamConfig` come before the
call `SwitchOffRfField` that ends the poll, and when they succeed the reader is
initialized at the end of the call of `loop()`. And when they fail, each of the next
calls of `loop()` runs `InitReader` again, also a call with a key pressed 3 ms
later: after three calls the trace shows three runs. -/
theorem fault_reinit_in_same_poll :
    (loop scriptedEnv false 1000 1010 (scriptedState faultScript [])).gb_InitSuccess = true ∧
    readerCalls (loop scriptedEnv false 1000 1010 (scriptedState faultScript [])).trace =
      [DesfireCmd.ReadPassiveTargetID, DesfireCmd.GetLastPN532Error, DesfireCmd.begin,
       DesfireCmd.GetFirmwareVersion, DesfireCmd.SetPassiveActivationRetries,
       DesfireCmd.SamConfig, DesfireCmd.SwitchOffRfField] ∧
    (loop scriptedEnv false 1000 1010 (scriptedState [replyFail] [])).gb_InitSuccess = false ∧
    initAttempts (loop scriptedEnv true 1013 1014 (loop scriptedEnv false 1011 1012
      (loop scriptedEnv false 1000 1010 (scriptedState [replyFail] [])))).trace = 3 := by
  decide

/-- Claim C25, amended. A call of `loop()` runs `InitReader` once when the reader is
not initialized at its start, whatever the key press and the ticks are, and once when
it polls with the reader initialized and the read of the card fails with an error of
the reader that is no timeout; every other call of `loop()` does not run it. In the
second case `InitReader(true)` runs in the same poll, before the RF field is switched
off, so that the reader is initialized at the end of the call exactly when this run
has succeeded; in the first case the call does not read the card. -/
theorem reinit_on_fault_and_while_faulted (E : Env κ σ) (b_KeyPress : Bool)
    (u64_StartTick u64_EndTick : Nat) (s : DoorOpener κ σ) :
    initAttempts (loop E b_KeyPress u64_StartTick u64_EndTick s).trace =
        initAttempts s.trace +
          (if (!s.gb_InitSuccess ||
              (loop_reads b_KeyPress u64_StartTick s && loop_fault E s)) = true
            then 1 else 0) ∧
    (s.gb_InitSuccess = true → loop_reads b_KeyPress u64_StartTick s = true →
      loop_fault E s = true →
      loop E b_KeyPress u64_StartTick u64_EndTick s =
        { (pn532 E DesfireCmd.SwitchOffRfField (Print "> " (InitReader E true
            (IsDesfireTimeout E (ReadCard E (List.replicate 8 0) s).2.2.2).2))).2 with
          u64_LastRead := u64_EndTick } ∧
      (loop E b_KeyPress u64_StartTick u64_EndTick s).gb_InitSuccess =
        (InitReader E true
          (IsDesfireTimeout E (ReadCard E (List.replicate 8 0) s).2.2.2).2).gb_InitSuccess) ∧
    (s.gb_InitSuccess = false →
      loop E b_KeyPress u64_StartTick u64_EndTick s =
        { (pn532 E DesfireCmd.SwitchOffRfField (InitReader E true s)).2 with
          u64_LastRead := u64_EndTick }) := by
  refine ⟨?_, ?_, ?_⟩
  · cases hr : loop_reads b_KeyPress u64_StartTick s
    · have hg : s.gb_InitSuccess = true := by
        cases hg : s.gb_InitSuccess
        · simp [loop_reads, hg] at hr
        · rfl
      have hl : loop E b_KeyPress u64_StartTick u64_EndTick s = s ∨
          loop E b_KeyPress u64_StartTick u64_EndTick s =
            { s with u64_LastRead := (u64_StartTick + 1000) % 2 ^ 64 } := by
        unfold loop
        unfold loop_reads at hr
        cases b_KeyPress
        · simp only [hg, Bool.and_false, Bool.not_false, Bool.true_and, Bool.not_eq_false'] at hr
          simp only [hg, Bool.and_false, Bool.false_eq_true, if_false, Bool.true_and, hr, if_true]
          exact Or.inl trivial
        · simp only [hg, Bool.and_true, if_true]
          exact Or.inr trivial
      simp only [hg, Bool.not_true, Bool.false_and, Bool.or_self, Bool.false_eq_true, if_false,
        Nat.add_zero]
      rcases hl with hl | hl <;> rw [hl]
    · have hl : loop E b_KeyPress u64_StartTick u64_EndTick s =
          { loop_poll E u64_StartTick s with u64_LastRead := u64_EndTick } := by
        unfold loop
        unfold loop_reads at hr
        simp only [Bool.and_eq_true, Bool.not_eq_true'] at hr
        simp only [hr.1, hr.2, Bool.false_eq_true, if_false]
      rw [hl]
      simpa using loop_poll_inits E u64_StartTick s
  · intro hg hr hf
    have hl : loop E b_KeyPress u64_StartTick u64_EndTick s =
        { loop_poll E u64_StartTick s with u64_LastRead := u64_EndTick } := by
      unfold loop
      unfold loop_reads at hr
      simp only [Bool.and_eq_true, Bool.not_eq_true'] at hr
      simp only [hr.1, hr.2, Bool.false_eq_true, if_false]
    rw [hl, loop_poll_fault E u64_StartTick s hg hf]
    exact ⟨rfl, rfl⟩
  · intro hg
    unfold loop
    simp only [hg, Bool.false_and, Bool.false_eq_true, if_false]
    rw [loop_poll_uninit E u64_StartTick s hg]

set_option maxRecDepth 1000000 in
/-- The property `reinit_on_fault_and_while_faulted` on the device with the scripted
reader, for the poll in which the read fails and the initialization after it
succeeds. -/
theorem reinit_on_fault_and_while_faulted_witness :
    (scriptedState faultScript []).gb_InitSuccess = true ∧
    loop_reads false 1000 (scriptedState faultScript []) = true ∧
    loop_fault scriptedEnv (scriptedState faultScript []) = true ∧
    initAttempts (loop scriptedEnv false 1000 1010 (scriptedState faultScript [])).trace = 1 ∧
    (loop scriptedEnv false 1000 1010 (scriptedState faultScript [])).gb_InitSuccess =
      (InitReader scriptedEnv true (IsDesfireTimeout scriptedEnv
        (ReadCard scriptedEnv (List.replicate 8 0)
          (scriptedState faultScript [])).2.2.2).2).gb_InitSuccess :=
  ⟨by decide, by decide, by decide,
    (reinit_on_fault_and_while_faulted scriptedEnv false 1000 1010
      (scriptedState faultScript [])).1.trans (by decide),
    ((reinit_on_fault_and_while_faulted scriptedEnv false 1000 1010
      (scriptedState faultScript [])).2.1 (by decide) (by decide) (by decide)).2⟩

end FaultProperties

/-! ## Properties of the specification: the command buffer -/

section BufferBounds

variable {κ σ : Type}

/-- A pass that reads a character that is stored, with room in the buffer. -/
theorem ReadKeyboardInput_pass_stored (E : Env κ σ) (u64_Now : Nat) (s : DoorOpener κ σ)
    (c : Nat) (rest : List Nat) (hs : s.serial = c :: rest) (hc : 32 ≤ c ∧ c ≤ 126)
    (hp : s.gu32_CommandPos < 500) :
    (ReadKeyboardInput_pass E u64_Now s).serial = rest ∧
    (ReadKeyboardInput_pass E u64_Now s).gu32_CommandPos = s.gu32_CommandPos + 1 ∧
    ReadKeyboardInput_pass_writes u64_Now s = [s.gu32_CommandPos] := by
  have hr : SerialRead s = ((c : Int), { s with serial := rest }) := by
    unfold SerialRead
    rw [hs]
  have h256 : ((c : Int) % 256).toNat = c := by omega
  have h1 : ¬ (c = 13 ∨ c = 10) := by omega
  have h2 : ¬ c = 8 := by omega
  have h3 : ¬ (c < 32 ∨ c > 126) := by omega
  have h4 : ¬ s.gu32_CommandPos ≥ 500 := by omega
  unfold ReadKeyboardInput_pass ReadKeyboardInput_pass_writes
  rw [hr]
  simp only [h256, h1, h2, h3, if_false]
  refine ⟨?_, ?_, ?_⟩
  · cases passwordValid u64_Now s.gu64_LastPasswd <;>
      simp only [Print, emit, h4, if_false, if_true, Bool.false_eq_true]
  · cases passwordValid u64_Now s.gu64_LastPasswd <;>
      simp only [Print, emit, h4, if_false, if_true, Bool.false_eq_true]
  · simp only [h4, if_false]

/-- Characters that are stored, typed into a buffer with room for them: they are
written at the indices from `gu32_CommandPos` on, and `gu32_CommandPos` ends behind
them. -/
theorem ReadKeyboardInput_loop_typed (E : Env κ σ) (u64_Now : Nat) :
    ∀ (cs : List Nat) (s : DoorOpener κ σ) (n : Nat) (rest : List Nat),
      s.serial = cs ++ rest → (∀ c ∈ cs, 32 ≤ c ∧ c ≤ 126) →
      s.gu32_CommandPos + cs.length ≤ 500 →
      ∃ s' : DoorOpener κ σ, s'.serial = rest ∧
        s'.gu32_CommandPos = s.gu32_CommandPos + cs.length ∧
        ReadKeyboardInput_loop_writes E u64_Now (cs.length + n) s =
          List.range' s.gu32_CommandPos cs.length ++
            ReadKeyboardInput_loop_writes E u64_Now n s' := by
  intro cs
  induction cs with
  | nil =>
    intro s n rest hs _ _
    exact ⟨s, by simpa using hs, by simp, by simp⟩
  | cons c cs ih =>
    intro s n rest hs hc hp
    have hs' : s.serial = c :: (cs ++ rest) := by simpa using hs
    have hl : (c :: cs).length = cs.length + 1 := rfl
    rw [hl] at hp
    obtain ⟨p1, p2, p3⟩ := ReadKeyboardInput_pass_stored E u64_Now s c (cs ++ rest) hs'
      (hc c (List.mem_cons_self _ _)) (by omega)
    obtain ⟨s', q1, q2, q3⟩ := ih (ReadKeyboardInput_pass E u64_Now s) n rest p1
      (fun x hx => hc x (List.mem_cons_of_mem _ hx)) (by rw [p2]; omega)
    refine ⟨s', q1, by rw [q2, p2, hl]; omega, ?_⟩
    have ha : SerialAvailable s = true := by simp [SerialAvailable, hs']
    have hn : (c :: cs).length + n = (cs.length + n) + 1 := by rw [hl]; omega
    rw [hn]
    simp only [ReadKeyboardInput_loop_writes, ha, if_true]
    rw [p3, q3, p2, hl]
    simp [List.range'_succ]

/-- Claim C26 on the code: when 500 characters that are stored (the codes 32 to
126) are typed from the start of a line and then the character CR, the assignments
to the 500 bytes of `gs8_CommandBuffer` in the call of `ReadKeyboardInput` are at the
indices 0 to 499 for the characters and then at the index 500 for the terminating
NUL of `OnCommandReceived`: the check `gu32_CommandPos >= sizeof(gs8_CommandBuffer)`
stands before the assignment of the character only. -/
theorem Enter_after_500_characters_writes_index_500 (E : Env κ σ) (s : DoorOpener κ σ)
    (cs rest : List Nat) (hb : s.gs8_CommandBuffer.length = 500) (hp : s.gu32_CommandPos = 0)
    (hs : s.serial = cs ++ 13 :: rest) (hl : cs.length = 500)
    (hc : ∀ c ∈ cs, 32 ≤ c ∧ c ≤ 126) :
    ∃ later : List Nat,
      ReadKeyboardInput_writes E s = List.range 500 ++ 500 :: later ∧
      ¬ 500 < s.gs8_CommandBuffer.length := by
  obtain ⟨s', q1, q2, q3⟩ := ReadKeyboardInput_loop_typed E
    ((GetMillis64 s + PASSWORD_OFFSET_MS) % 2 ^ 64) cs s (rest.length + 1) (13 :: rest) hs hc
    (by rw [hp, hl])
  have hlen : s.serial.length = cs.length + (rest.length + 1) := by
    rw [hs]; simp
  have hr : SerialRead s' = ((13 : Int), { s' with serial := rest }) := by
    unfold SerialRead
    rw [q1]
    rfl
  have ha : SerialAvailable s' = true := by simp [SerialAvailable, q1]
  have hw : ∃ l, ReadKeyboardInput_pass_writes ((GetMillis64 s + PASSWORD_OFFSET_MS) % 2 ^ 64)
      s' = 500 :: l := by
    unfold ReadKeyboardInput_pass_writes
    rw [hr]
    have h13 : ((13 : Int) % 256).toNat = 13 := by decide
    simp only [h13, true_or, if_true]
    unfold OnCommandReceived_writes
    have : s'.gu32_CommandPos = 500 := by rw [q2, hp, hl]
    simp only [this]
    split_ifs
    · exact ⟨_, rfl⟩
    · exact ⟨_, rfl⟩
    · exact ⟨_, rfl⟩
  obtain ⟨l, hw⟩ := hw
  refine ⟨l ++ ReadKeyboardInput_loop_writes E ((GetMillis64 s + PASSWORD_OFFSET_MS) % 2 ^ 64)
    rest.length (ReadKeyboardInput_pass E ((GetMillis64 s + PASSWORD_OFFSET_MS) % 2 ^ 64) s'),
    ?_, by omega⟩
  unfold ReadKeyboardInput_writes
  rw [hlen, q3, hp, hl]
  simp only [ReadKeyboardInput_loop_writes, ha, if_true]
  rw [hw, List.range_eq_range']
  simp

/-- The property `Enter_after_500_characters_writes_index_500` for the device after
`setup()` and 500 times the character `a` before the character CR. -/
theorem Enter_after_500_characters_writes_index_500_witness :
    ∃ later : List Nat,
      ReadKeyboardInput_writes toyEnv
        { toyState classicCard [] with serial := List.replicate 500 97 ++ [13] } =
          List.range 500 ++ 500 :: later ∧
      ¬ 500 < (List.replicate 500 0).length :=
  Enter_after_500_characters_writes_index_500 toyEnv
    { toyState classicCard [] with serial := List.replicate 500 97 ++ [13] }
    (List.replicate 500 97) [] (List.length_replicate 500 0) rfl rfl
    (List.length_replicate 500 97)
    (fun c h => by have := List.eq_of_mem_replicate h; omega)

end BufferBounds

/-! ## Properties of the specification: Classic cards at the door -/

section ClassicCards

variable {κ σ : Type}

/-- For a Classic card `OpenDoor` looks up the id and nothing else. -/
theorem OpenDoor_classic (E : Env κ σ) (id tick : Nat) (c : kCard) (s : DoorOpener κ σ)
    (hc : c.e_CardType = eCardType.CARD_Unknown) :
    OpenDoor E id c tick s =
      if (FindUser s.db id kUser.zero).1 = true then
        OpenDoor_grant E id c (FindUser s.db id kUser.zero).2 s
      else
        FlashLED E eLED.LED_RED 1000
          (emit (Event.PrintHexBuf ((List.range 7).map (ID_u8 id)))
            (Print "Unknown person tries to open the door: " s)) := by
  have h0 : c.e_CardType.val &&& eCardType.CARD_Desfire.val = 0 := by
    rw [hc]
    rfl
  have ha : (!ALLOW_ALSO_CLASSIC) = false := rfl
  unfold OpenDoor
  cases hf : (FindUser s.db id kUser.zero).1
  · simp only [hf, Bool.not_false, if_true, Bool.false_eq_true, if_false]
  · simp only [hf, Bool.not_true, Bool.false_eq_true, if_false, h0, ha, if_true]

/-- The result of `OpenDoor` for a Classic card does not depend on the state of the
reader. -/
theorem OpenDoor_classic_reader (E : Env κ σ) (id tick : Nat) (c : kCard) (s : DoorOpener κ σ)
    (hc : c.e_CardType = eCardType.CARD_Unknown) (g : σ) :
    OpenDoor E id c tick { s with gi_PN532 := g } =
      { OpenDoor E id c tick s with gi_PN532 := g } := by
  rw [OpenDoor_classic E id tick c s hc, OpenDoor_classic E id tick c _ hc]
  show (if (FindUser s.db id kUser.zero).1 = true then _ else _) = _
  cases hf : (FindUser s.db id kUser.zero).1
  · simp only [Bool.false_eq_true, if_false]
    rfl
  · simp only [if_true]
    rfl

/-- A poll in which the reader reports a Classic card. -/
theorem loop_poll_classic (E : Env κ σ) (tick : Nat) (s : DoorOpener κ σ)
    (hg : s.gb_InitSuccess = true)
    (hok : (pn532 E DesfireCmd.ReadPassiveTargetID s).1.ok = true)
    (hk : (pn532 E DesfireCmd.ReadPassiveTargetID s).1.cardType = eCardType.CARD_Unknown) :
    loop_poll E tick s =
      (pn532 E DesfireCmd.SwitchOffRfField
        (if (pn532 E DesfireCmd.ReadPassiveTargetID s).1.u8 % 256 = 0 then
          FlashLED E eLED.LED_GREEN 20
            { (pn532 E DesfireCmd.ReadPassiveTargetID s).2 with gu64_LastID := 0 }
        else if (pn532 E DesfireCmd.ReadPassiveTargetID s).2.gu64_LastID =
            ID_u64 (overwrite (List.replicate 8 0)
              (pn532 E DesfireCmd.ReadPassiveTargetID s).1.data) then
          (pn532 E DesfireCmd.ReadPassiveTargetID s).2
        else
          Print "> " (OpenDoor E
            (ID_u64 (overwrite (List.replicate 8 0)
              (pn532 E DesfireCmd.ReadPassiveTargetID s).1.data))
            { kCard.zero with
              u8_UidLength := (pn532 E DesfireCmd.ReadPassiveTargetID s).1.u8 % 256,
              e_CardType := (pn532 E DesfireCmd.ReadPassiveTargetID s).1.cardType }
            tick (pn532 E DesfireCmd.ReadPassiveTargetID s).2))).2 := by
  have hr : ReadCard E (List.replicate 8 0) s =
      (true, overwrite (List.replicate 8 0) (pn532 E DesfireCmd.ReadPassiveTargetID s).1.data,
        { kCard.zero with
          u8_UidLength := (pn532 E DesfireCmd.ReadPassiveTargetID s).1.u8 % 256,
          e_CardType := (pn532 E DesfireCmd.ReadPassiveTargetID s).1.cardType },
        (pn532 E DesfireCmd.ReadPassiveTargetID s).2) := by
    unfold ReadCard
    simp only [hok, hk, Bool.not_true, Bool.false_eq_true, if_false, reduceCtorEq]
  unfold loop_poll
  simp only [hg, hr, Bool.not_true, Bool.false_eq_true, if_false]

/-- Claim C27: the switch `ALLOW_ALSO_CLASSIC` is set, and for a card that `ReadCard`
reports as a Classic card `OpenDoor` is the lookup of the id in the table and then
either the actuation of the door, with the record that was found, or the message for
an unknown person. It makes no call on the reader (no authentication, no
`CheckDesfireSecret`), whatever the record in the table holds; the door is actuated
once when the id is found and not at all when it is not; and the state of the reader,
which holds all that is on the card, has no influence on the result. -/
theorem classic_card_opens_by_id_alone (E : Env κ σ) (id tick : Nat) (c : kCard)
    (s : DoorOpener κ σ) (hc : c.e_CardType = eCardType.CARD_Unknown)
    (hled1 : E.LED_BUILTIN ≠ E.D1) (hled2 : E.LED_BUILTIN ≠ E.D2) :
    ALLOW_ALSO_CLASSIC = true ∧
    (OpenDoor E id c tick s =
      if (FindUser s.db id kUser.zero).1 = true then
        OpenDoor_grant E id c (FindUser s.db id kUser.zero).2 s
      else
        FlashLED E eLED.LED_RED 1000
          (emit (Event.PrintHexBuf ((List.range 7).map (ID_u8 id)))
            (Print "Unknown person tries to open the door: " s))) ∧
    readerCalls (OpenDoor E id c tick s).trace = readerCalls s.trace ∧
    actuations E (OpenDoor E id c tick s).trace =
      actuations E s.trace + (if (FindUser s.db id kUser.zero).1 = true then 1 else 0) ∧
    (∀ g : σ, OpenDoor E id c tick { s with gi_PN532 := g } =
      { OpenDoor E id c tick s with gi_PN532 := g }) ∧
    (∀ g1 g2 : σ, s.gb_InitSuccess = true →
      (E.PN532.exec DesfireCmd.ReadPassiveTargetID g1).1 =
        (E.PN532.exec DesfireCmd.ReadPassiveTargetID g2).1 →
      (E.PN532.exec DesfireCmd.ReadPassiveTargetID g1).1.ok = true →
      (E.PN532.exec DesfireCmd.ReadPassiveTargetID g1).1.cardType = eCardType.CARD_Unknown →
      (loop_poll E tick { s with gi_PN532 := g1 }).trace =
        (loop_poll E tick { s with gi_PN532 := g2 }).trace ∧
      (loop_poll E tick { s with gi_PN532 := g1 }).gu64_LastID =
        (loop_poll E tick { s with gi_PN532 := g2 }).gu64_LastID) := by
  refine ⟨rfl, OpenDoor_classic E id tick c s hc, ?_, ?_, OpenDoor_classic_reader E id tick c s hc,
    ?_⟩
  · rw [OpenDoor_classic E id tick c s hc]
    cases hf : (FindUser s.db id kUser.zero).1
    · simp only [Bool.false_eq_true, if_false]
      cases hl : E.LED_BUILTIN <;>
        simp [FlashLED, SetLED, WritePin, DelayMilli, Print, emit, readerCalls_append,
          readerCalls]
    · simp only [if_true]
      rw [OpenDoor_grant_trace]
      simp [readerCalls_append, readerCalls]
  · rw [OpenDoor_classic E id tick c s hc]
    cases hf : (FindUser s.db id kUser.zero).1
    · simp only [Bool.false_eq_true, if_false, Nat.add_zero]
      exact ((((Quiet.refl E s).Print _).step_emit _ (by rfl)).FlashLED hled1 hled2 _
        _).actuations
    · simp only [if_true]
      exact OpenDoor_grant_actuations E id c _ s
  · intro g1 g2 hg h12 hok hk
    have hok2 : (E.PN532.exec DesfireCmd.ReadPassiveTargetID g2).1.ok = true := h12 ▸ hok
    have hk2 : (E.PN532.exec DesfireCmd.ReadPassiveTargetID g2).1.cardType =
        eCardType.CARD_Unknown := h12 ▸ hk
    rw [loop_poll_classic E tick { s with gi_PN532 := g1 } hg hok hk,
      loop_poll_classic E tick { s with gi_PN532 := g2 } hg hok2 hk2]
    have e1 : (pn532 E DesfireCmd.ReadPassiveTargetID { s with gi_PN532 := g1 }).1 =
        (E.PN532.exec DesfireCmd.ReadPassiveTargetID g1).1 := rfl
    have e2 : (pn532 E DesfireCmd.ReadPassiveTargetID { s with gi_PN532 := g2 }).1 =
        (E.PN532.exec DesfireCmd.ReadPassiveTargetID g2).1 := rfl
    have e3 : (pn532 E DesfireCmd.ReadPassiveTargetID { s with gi_PN532 := g1 }).2 =
        { (pn532 E DesfireCmd.ReadPassiveTargetID { s with gi_PN532 := g2 }).2 with
          gi_PN532 := (E.PN532.exec DesfireCmd.ReadPassiveTargetID g1).2 } := rfl
    rw [e1, e3, e2, h12]
    generalize (pn532 E DesfireCmd.ReadPassiveTargetID { s with gi_PN532 := g2 }).2 = s2
    generalize (E.PN532.exec DesfireCmd.ReadPassiveTargetID g1).2 = g
    have hk3 : ({ kCard.zero with
        u8_UidLength := (E.PN532.exec DesfireCmd.ReadPassiveTargetID g2).1.u8 % 256,
        e_CardType := (E.PN532.exec DesfireCmd.ReadPassiveTargetID g2).1.cardType } :
          kCard).e_CardType = eCardType.CARD_Unknown := hk2
    rw [OpenDoor_classic_reader E _ tick _ s2 hk3 g]
    show (pn532 E DesfireCmd.SwitchOffRfField
        (if _ then _ else if s2.gu64_LastID = _ then _ else _)).2.trace = _ ∧ _
    split_ifs <;> exact ⟨rfl, rfl⟩

/-- The property `classic_card_opens_by_id_alone` for the Classic card `0x33` of the
user "Eve": the door is actuated once without a call on the reader, and the polls of
two cards with this identifier and different secrets leave the same trace. -/
theorem classic_card_opens_by_id_alone_witness :
    classicSeen.e_CardType = eCardType.CARD_Unknown ∧
    actuations toyEnv (OpenDoor toyEnv 0x33 classicSeen 0
      (toyState classicCard [userEve])).trace = 1 ∧
    readerCalls (OpenDoor toyEnv 0x33 classicSeen 0 (toyState classicCard [userEve])).trace =
      [] ∧
    (loop_poll toyEnv 0 (toyState classicCard [userEve])).trace =
      (loop_poll toyEnv 0 (toyState classicCardOther [userEve])).trace :=
  ⟨rfl,
    (classic_card_opens_by_id_alone toyEnv 0x33 0 classicSeen (toyState classicCard [userEve])
      rfl (by decide) (by decide)).2.2.2.1.trans (by decide),
    (classic_card_opens_by_id_alone toyEnv 0x33 0 classicSeen (toyState classicCard [userEve])
      rfl (by decide) (by decide)).2.2.1,
    ((classic_card_opens_by_id_alone toyEnv 0x33 0 classicSeen (toyState classicCard [userEve])
      rfl (by decide) (by decide)).2.2.2.2.2 classicCard classicCardOther rfl (by decide)
      (by decide) (by decide)).1⟩

end ClassicCards

/-! ## Properties of the specification: the session check within one call -/

section SessionWrap

variable {κ σ : Type}

theorem passwordValid_wrapped (t tLast : Nat) (hlt : t < tLast)
    (hclock : tLast + PASSWORD_OFFSET_MS < 2 ^ 64) :
    (t + PASSWORD_OFFSET_MS + 2 ^ 64 - (tLast + PASSWORD_OFFSET_MS)) % 2 ^ 64 =
      2 ^ 64 - (tLast - t) ∧
    passwordValid (t + PASSWORD_OFFSET_MS) (tLast + PASSWORD_OFFSET_MS) = false := by
  have hP : PASSWORD.headD 0 ≠ 0 := by decide
  have hO : PASSWORD_OFFSET_MS = 600000 := by decide
  have hT : PASSWORD_TIMEOUT * 60 * 1000 = 300000 := by decide
  have h1 : (t + PASSWORD_OFFSET_MS + 2 ^ 64 - (tLast + PASSWORD_OFFSET_MS)) % 2 ^ 64 =
      2 ^ 64 - (tLast - t) := by
    have : t + PASSWORD_OFFSET_MS + 2 ^ 64 - (tLast + PASSWORD_OFFSET_MS) =
        2 ^ 64 - (tLast - t) := by omega
    rw [this]
    apply Nat.mod_eq_of_lt
    omega
  refine ⟨h1, ?_⟩
  unfold passwordValid
  simp only [hP, decide_False, Bool.false_or, decide_eq_false_iff_not, not_lt]
  rw [h1, hT]
  omega

theorem passwordValid_same (now : Nat) : passwordValid now now = true := by
  unfold passwordValid
  have h1 : (now + 2 ^ 64 - now) % 2 ^ 64 = 0 := by
    have : now + 2 ^ 64 - now = 2 ^ 64 := by omega
    rw [this]
    exact Nat.mod_self _
  have hT : PASSWORD_TIMEOUT * 60 * 1000 = 300000 := by decide
  rw [h1, hT]
  simp

theorem footer_clock (s : DoorOpener κ σ) :
    (OnCommandReceived_footer s).gu64_LastPasswd = s.gu64_LastPasswd ∧
    (OnCommandReceived_footer s).millis = s.millis := by
  unfold OnCommandReceived_footer
  simp only [Print, emit]
  split_ifs <;> exact ⟨rfl, rfl⟩

theorem usage_clock (s : DoorOpener κ σ) :
    (OnCommandReceived_usage s).gu64_LastPasswd = s.gu64_LastPasswd ∧
    (OnCommandReceived_usage s).millis = s.millis := by
  constructor <;> simp only [OnCommandReceived_usage, Print, emit]

/-- A line that is the password, entered without a session: the time stamp is set
from the clock and the clock stays. -/
theorem OnCommandReceived_login_clock (E : Env κ σ) (s : DoorOpener κ σ)
    (h : cstr (receivedLine s) = PASSWORD) :
    (OnCommandReceived E false s).gu64_LastPasswd =
      (GetMillis64 s + PASSWORD_OFFSET_MS) % 2 ^ 64 ∧
    (OnCommandReceived E false s).millis = s.millis := by
  have h0 : (loggedIn s).gs8_CommandBuffer.headD 0 = 0 := by
    show ((receivedLine s).set 0 0).headD 0 = 0
    cases receivedLine s <;> rfl
  rw [OnCommandReceived_login E s h, OnCommandReceived_commands_empty E (loggedIn s) h0]
  obtain ⟨f1, f2⟩ := footer_clock (if (loggedIn s).gb_InitSuccess = true then
    OnCommandReceived_usage (loggedIn s) else Print "Usage:\r\n" (Print
      "FATAL ERROR: The PN532 did not respond. (Board initialization failed)\r\n" (loggedIn s)))
  rw [f1, f2]
  split_ifs
  · exact ⟨rfl, rfl⟩
  · exact ⟨rfl, rfl⟩

/-- One pass without a session: the time stamp stays or is set from the clock, and
the clock advances by at most 500 ms. -/
theorem ReadKeyboardInput_pass_invalid (E : Env κ σ) (u64_Now : Nat) (s : DoorOpener κ σ)
    (hv : passwordValid u64_Now s.gu64_LastPasswd = false) (ha : SerialAvailable s = true) :
    ((ReadKeyboardInput_pass E u64_Now s).gu64_LastPasswd = s.gu64_LastPasswd ∨
      (ReadKeyboardInput_pass E u64_Now s).gu64_LastPasswd =
        (GetMillis64 s + PASSWORD_OFFSET_MS) % 2 ^ 64) ∧
    s.millis ≤ (ReadKeyboardInput_pass E u64_Now s).millis ∧
    (ReadKeyboardInput_pass E u64_Now s).millis ≤ s.millis + 500 := by
  obtain ⟨c, rest, hs⟩ : ∃ c rest, s.serial = c :: rest := by
    cases h : s.serial with
    | nil => simp [SerialAvailable, h] at ha
    | cons c rest => exact ⟨c, rest, rfl⟩
  by_cases hc : c = 13 ∨ c = 10
  · rw [ReadKeyboardInput_pass_enter E u64_Now s c rest hs hc, hv]
    by_cases hp : cstr (receivedLine { s with serial := rest }) = PASSWORD
    · obtain ⟨l1, l2⟩ := OnCommandReceived_login_clock E { s with serial := rest } hp
      refine ⟨Or.inr ?_, ?_, ?_⟩
      · exact l1
      · show s.millis ≤ (OnCommandReceived E false { s with serial := rest }).millis
        rw [l2]
      · show (OnCommandReceived E false { s with serial := rest }).millis ≤ s.millis + 500
        rw [l2]
        exact Nat.le_add_right _ _
    · rw [OnCommandReceived_wrong E { s with serial := rest } hp]
      exact ⟨Or.inl rfl, Nat.le_add_right _ _, le_refl _⟩
  · have hr : SerialRead s = ((c : Int), { s with serial := rest }) := by
      unfold SerialRead
      rw [hs]
    have h256 : (((c : Int) % 256).toNat = 13 ∨ ((c : Int) % 256).toNat = 10) →
        ReadKeyboardInput_pass E u64_Now s =
          Print "\r\n> " (OnCommandReceived E false { s with serial := rest }) := by
      intro _
      unfold ReadKeyboardInput_pass
      rw [hr, hv]
      simp only [*, if_true]
    by_cases hc2 : ((c : Int) % 256).toNat = 13 ∨ ((c : Int) % 256).toNat = 10
    · rw [h256 hc2]
      by_cases hp : cstr (receivedLine { s with serial := rest }) = PASSWORD
      · obtain ⟨l1, l2⟩ := OnCommandReceived_login_clock E { s with serial := rest } hp
        refine ⟨Or.inr ?_, ?_, ?_⟩
        · exact l1
        · show s.millis ≤ (OnCommandReceived E false { s with serial := rest }).millis
          rw [l2]
        · show (OnCommandReceived E false { s with serial := rest }).millis ≤ s.millis + 500
          rw [l2]
          exact Nat.le_add_right _ _
      · rw [OnCommandReceived_wrong E { s with serial := rest } hp]
        exact ⟨Or.inl rfl, Nat.le_add_right _ _, le_refl _⟩
    · unfold ReadKeyboardInput_pass
      rw [hr, hv]
      simp only [hc2, if_false, Bool.false_eq_true]
      split_ifs <;> exact ⟨Or.inl rfl, le_refl _, Nat.le_add_right _ _⟩

/-- While the time stamp lies after the value `u64_Now` of the call, every pass of
the loop has `b_PasswordValid` false. -/
theorem ReadKeyboardInput_loop_invalid (E : Env κ σ) (t : Nat) :
    ∀ (n : Nat) (s : DoorOpener κ σ) (tLast : Nat),
      s.gu64_LastPasswd = tLast + PASSWORD_OFFSET_MS → t < tLast → tLast ≤ s.millis →
      s.millis + PASSWORD_OFFSET_MS + 500 * n < 2 ^ 64 →
      ∀ b ∈ ReadKeyboardInput_loop_valid E (t + PASSWORD_OFFSET_MS) n s, b = false := by
  intro n
  induction n with
  | zero =>
    intro s tLast _ _ _ _ b hb
    simp [ReadKeyboardInput_loop_valid] at hb
  | succ n ih =>
    intro s tLast hlast hlt hpast hclock b hb
    have hv : passwordValid (t + PASSWORD_OFFSET_MS) s.gu64_LastPasswd = false := by
      rw [hlast]
      exact (passwordValid_wrapped t tLast hlt (by omega)).2
    unfold ReadKeyboardInput_loop_valid at hb
    by_cases ha : SerialAvailable s = true
    · rw [if_pos ha, List.mem_cons] at hb
      rcases hb with hb | hb
      · rw [hb, hv]
      · obtain ⟨p1, p2, p3⟩ := ReadKeyboardInput_pass_invalid E (t + PASSWORD_OFFSET_MS) s hv ha
        rcases p1 with p1 | p1
        · exact ih _ tLast (p1.trans hlast) hlt (le_trans hpast p2) (by omega) b hb
        · have hm : (GetMillis64 s + PASSWORD_OFFSET_MS) % 2 ^ 64 =
              s.millis + PASSWORD_OFFSET_MS := by
            unfold GetMillis64
            rw [Nat.mod_eq_of_lt (by omega), Nat.mod_eq_of_lt (by omega)]
          exact ih _ s.millis (p1.trans hm) (by omega) p2 (by omega) b hb
    · rw [if_neg ha] at hb
      simp at hb

/-- Claim C28: `ReadKeyboardInput` takes `u64_Now` once, before its loop, and checks
the session in every pass with this value, `(u64_Now - gu64_LastPasswd) < 300000` in
64 bit unsigned arithmetic. With `u64_Now` the tick count `t` plus the offset and the
time stamp `gu64_LastPasswd` a later tick count `tLast = t + d` plus the offset,
`d >= 1` (the tick counter has not reached the end of its 64 bits), the difference is
`2^64 - d` and the check is false; with `d = 0` it is true. Once the time stamp lies
after `u64_Now`, as after a line that was accepted in this call after the clock has
advanced, every further pass of the loop in this call has `b_PasswordValid` false:
the characters are echoed as `*` and a line is taken as a password attempt. -/
theorem session_check_wraps (E : Env κ σ) (s : DoorOpener κ σ) (t tLast n : Nat)
    (hlast : s.gu64_LastPasswd = tLast + PASSWORD_OFFSET_MS) (hlt : t < tLast)
    (hpast : tLast ≤ s.millis) (hclock : s.millis + PASSWORD_OFFSET_MS + 500 * n < 2 ^ 64) :
    (∀ s' : DoorOpener κ σ, (ReadKeyboardInput E s').2 =
      ReadKeyboardInput_loop E ((GetMillis64 s' + PASSWORD_OFFSET_MS) % 2 ^ 64)
        s'.serial.length s') ∧
    (t + PASSWORD_OFFSET_MS + 2 ^ 64 - (tLast + PASSWORD_OFFSET_MS)) % 2 ^ 64 =
      2 ^ 64 - (tLast - t) ∧
    passwordValid (t + PASSWORD_OFFSET_MS) (tLast + PASSWORD_OFFSET_MS) = false ∧
    passwordValid (t + PASSWORD_OFFSET_MS) (t + PASSWORD_OFFSET_MS) = true ∧
    (∀ b ∈ ReadKeyboardInput_loop_valid E (t + PASSWORD_OFFSET_MS) n s, b = false) := by
  have hw := passwordValid_wrapped t tLast hlt (by omega)
  exact ⟨fun _ => rfl, hw.1, hw.2, passwordValid_same _,
    ReadKeyboardInput_loop_invalid E t n s tLast hlast hlt hpast hclock⟩

set_option maxRecDepth 1000000 in
/-- The property `session_check_wraps` at a call of `ReadKeyboardInput` that starts at
the tick count 1000 with a session and reads the three lines `RESET`, `LIST` and
`LIST`: the first line is accepted at the tick count 1000, the command takes 4 ms,
the second line is accepted at the tick count 1004, and with this time stamp the
five passes for the third line have `b_PasswordValid` false. -/
theorem session_check_wraps_witness :
    (1000 + PASSWORD_OFFSET_MS + 2 ^ 64 - (1004 + PASSWORD_OFFSET_MS)) % 2 ^ 64 = 2 ^ 64 - 4 ∧
    passwordValid (1000 + PASSWORD_OFFSET_MS) (1004 + PASSWORD_OFFSET_MS) = false ∧
    (ReadKeyboardInput_loop toyEnv (1000 + PASSWORD_OFFSET_MS) 11
      { toyState classicCard [userAnn] with
        millis := 1000, gu64_LastPasswd := 900 + PASSWORD_OFFSET_MS,
        serial := kwRESET ++ [13] ++ kwLIST ++ [13] ++ kwLIST ++ [13] }).gu64_LastPasswd =
      1004 + PASSWORD_OFFSET_MS ∧
    ReadKeyboardInput_loop_valid toyEnv (1000 + PASSWORD_OFFSET_MS) 16
      { toyState classicCard [userAnn] with
        millis := 1000, gu64_LastPasswd := 900 + PASSWORD_OFFSET_MS,
        serial := kwRESET ++ [13] ++ kwLIST ++ [13] ++ kwLIST ++ [13] } =
      [true, true, true, true, true, true, true, true, true, true, true,
       false, false, false, false, false] :=
  ⟨(session_check_wraps toyEnv
      (ReadKeyboardInput_loop toyEnv (1000 + PASSWORD_OFFSET_MS) 11
        { toyState classicCard [userAnn] with
          millis := 1000, gu64_LastPasswd := 900 + PASSWORD_OFFSET_MS,
          serial := kwRESET ++ [13] ++ kwLIST ++ [13] ++ kwLIST ++ [13] })
      1000 1004 5 (by decide) (by decide) (by decide) (by decide)).2.1,
    (session_check_wraps toyEnv
      (ReadKeyboardInput_loop toyEnv (1000 + PASSWORD_OFFSET_MS) 11
        { toyState classicCard [userAnn] with
          millis := 1000, gu64_LastPasswd := 900 + PASSWORD_OFFSET_MS,
          serial := kwRESET ++ [13] ++ kwLIST ++ [13] ++ kwLIST ++ [13] })
      1000 1004 5 (by decide) (by decide) (by decide) (by decide)).2.2.1,
    by decide, by decide⟩

end SessionWrap

/-! ## Lemmas on the terminal: the door outputs and the latch -/

section CalmLemmas

variable {κ σ : Type} {E : Env κ σ} {X : Nat}

theorem Calm.calm_trans {s1 s2 s3 : DoorOpener κ σ} (h12 : Calm E X s1 s2)
    (h23 : Calm E X s2 s3) : Calm E X s1 s3 := by
  refine ⟨h23.1.trans h12.1, ?_⟩
  rcases h23.2 with h | h
  · rcases h12.2 with h' | h'
    · exact Or.inl (h.trans h')
    · exact Or.inr (h.trans h')
  · exact Or.inr h

theorem Calm.calm_set_LastID {s s' : DoorOpener κ σ} (h : Calm E X s s') :
    Calm E X s { s' with gu64_LastID := X } := ⟨h.1, Or.inr rfl⟩

end CalmLemmas

/-! ## Properties of the specification: the debounce and the terminal -/

section DebounceProperties

variable {κ σ : Type}

end DebounceProperties

end DoorGuard
